import Mathlib

/-!
Verification of the serverless-e-commerce infrastructure scripts.

This file shallowly embeds the Python code of `src/vpc/custom_vpc.py`,
`src/rds/custom_rds.py` and `src/rds/rds_operations.py`:

* provider (AWS) API calls become events in an explicit trace, with a
  failure oracle deciding which calls raise a provider error;
* cloud resources (VPCs, subnets, gateways, ...) live in an explicit
  `CloudState`, and resource identifiers are modelled as opaque natural
  number tokens handed out by a counter (AWS generates opaque ids);
* Python exceptions become `Except Err`; `try/except` becomes `tryCatch`;
* console output is irrelevant to the claims except for the error prints
  of the catch-log-reraise wrappers, so only error prints are traced
  (as `Ev.printErr` events).

The pure parts (`wait_for_rds_available`'s polling loop, the table
creation bookkeeping of `create_ecommerce_tables`, the Lambda handlers)
are embedded as plain functions over oracles describing the responses of
the external world (RDS status polls, SQL execution outcomes).
-/

namespace ECom

/-- Resource identifiers (AWS's opaque id strings) are modelled as opaque
natural-number tokens. -/
abbrev RId := Nat

/-! ## `wait_for_rds_available` (`src/rds/rds_operations.py`, lines 60-91)

`check_rds_instance_status` returns either an error dictionary or a
status string; we model one poll as `Except String String` and the
sequence of polls as an oracle indexed by poll number.  Each loop
iteration sleeps 30 seconds; `wait_loop` tracks the elapsed time
explicitly, charging 30 seconds per iteration (the fixed sleep of the
source). -/

/-- The terminal failure statuses distinguished at line 83 of
`rds_operations.py`. -/
def failedStates : List String := ["failed", "incompatible-parameters", "incompatible-restore"]

/-- One pass of the polling loop of `wait_for_rds_available`, returning
the boolean result together with the number of polls issued.
`check n` is the outcome of the `n`-th call to
`check_rds_instance_status` (`.error` = the status dict contained the
key `'error'`). -/
def wait_loop (check : Nat → Except String String) (maxWaitSeconds : Nat)
    (elapsed : Nat) (n : Nat) : Bool × Nat :=
  if _h : elapsed < maxWaitSeconds then
    match check n with
    | .error _ => (false, n + 1)
    | .ok s =>
      if s = "available" then (true, n + 1)
      else if s ∈ failedStates then (false, n + 1)
      else wait_loop check maxWaitSeconds (elapsed + 30) (n + 1)
  else (false, n)
termination_by maxWaitSeconds - elapsed
decreasing_by omega

/-- `wait_for_rds_available(db_instance_identifier, max_wait_minutes)`:
the loop starts with zero elapsed time and budget
`max_wait_minutes * 60` seconds. -/
def wait_for_rds_available (check : Nat → Except String String)
    (max_wait_minutes : Nat) : Bool :=
  (wait_loop check (max_wait_minutes * 60) 0 0).1

/-- Number of `check_rds_instance_status` polls issued by
`wait_for_rds_available`. -/
def wait_polls (check : Nat → Except String String) (max_wait_minutes : Nat) : Nat :=
  (wait_loop check (max_wait_minutes * 60) 0 0).2

/-- A poll outcome on which the loop keeps waiting: a status that is
neither `'available'` nor one of the terminal failure statuses. -/
def pollContinues (r : Except String String) : Prop :=
  ∃ s, r = .ok s ∧ s ≠ "available" ∧ s ∉ failedStates

instance (r : Except String String) : Decidable (pollContinues r) := by
  unfold pollContinues
  cases r with
  | error e => exact .isFalse (by simp)
  | ok s => exact decidable_of_iff (s ≠ "available" ∧ s ∉ failedStates) (by simp)

/-- Characterization of `wait_loop`: it returns `true` exactly when some
poll within the remaining time budget sees `'available'` and all earlier
polls saw a non-terminal status. -/
theorem wait_loop_true_iff (check : Nat → Except String String)
    (maxWaitSeconds : Nat) : ∀ elapsed n,
    (wait_loop check maxWaitSeconds elapsed n).1 = true ↔
      ∃ k, elapsed + 30 * k < maxWaitSeconds ∧ check (n + k) = .ok "available" ∧
        ∀ j < k, pollContinues (check (n + j)) := by
  intro elapsed n
  induction elapsed, n using wait_loop.induct check maxWaitSeconds with
  | case1 elapsed n h e heq =>
    rw [wait_loop]
    simp only [dif_pos h, heq]
    constructor
    · intro hfalse; cases hfalse
    · rintro ⟨k, hk, hav, hcont⟩
      cases k with
      | zero => simp [heq] at hav
      | succ k =>
        have := hcont 0 (by omega)
        simp [pollContinues, heq] at this
  | case2 elapsed n h heq =>
    rw [wait_loop]
    simp only [dif_pos h, heq, if_pos rfl]
    constructor
    · intro _
      exact ⟨0, by omega, by rw [Nat.add_zero, heq], fun j hj => by omega⟩
    · intro _; rfl
  | case3 elapsed n h s heq hs hmem =>
    rw [wait_loop]
    simp only [dif_pos h, heq, if_neg hs, if_pos hmem]
    constructor
    · intro hfalse; cases hfalse
    · rintro ⟨k, hk, hav, hcont⟩
      cases k with
      | zero => rw [Nat.add_zero, heq] at hav; exact absurd (by injection hav) hs
      | succ k =>
        have := hcont 0 (by omega)
        rw [Nat.add_zero, heq] at this
        obtain ⟨s', hs', _, hnot⟩ := this
        injection hs' with hss; subst hss
        exact absurd hmem hnot
  | case4 elapsed n h s heq hs hmem ih =>
    rw [wait_loop]
    simp only [dif_pos h, heq, if_neg hs, if_neg hmem]
    rw [ih]
    constructor
    · rintro ⟨k, hk, hav, hcont⟩
      refine ⟨k + 1, by omega, by rw [show n + (k + 1) = n + 1 + k by omega]; exact hav, ?_⟩
      intro j hj
      cases j with
      | zero => rw [Nat.add_zero, heq]; exact ⟨s, rfl, hs, hmem⟩
      | succ j => rw [show n + (j + 1) = n + 1 + j by omega]; exact hcont j (by omega)
    · rintro ⟨k, hk, hav, hcont⟩
      cases k with
      | zero => rw [Nat.add_zero, heq] at hav; exact absurd (by injection hav) hs
      | succ k =>
        refine ⟨k, by omega, by rw [show n + 1 + k = n + (k + 1) by omega]; exact hav, ?_⟩
        intro j hj
        rw [show n + 1 + j = n + (j + 1) by omega]
        exact hcont (j + 1) (by omega)
  | case5 elapsed n h =>
    rw [wait_loop]
    simp only [dif_neg h]
    constructor
    · intro hfalse; cases hfalse
    · rintro ⟨k, hk, _, _⟩; omega

/-- The polling loop issues at most `q` polls whenever the remaining
budget fits into `q` intervals of 30 seconds. -/
theorem wait_loop_polls_le (check : Nat → Except String String)
    (maxWaitSeconds : Nat) : ∀ q elapsed n,
    maxWaitSeconds ≤ elapsed + 30 * q →
    (wait_loop check maxWaitSeconds elapsed n).2 ≤ n + q := by
  intro q
  induction q with
  | zero =>
    intro elapsed n hq
    rw [wait_loop]
    simp only [dif_neg (by omega : ¬ elapsed < maxWaitSeconds)]
    omega
  | succ q ih =>
    intro elapsed n hq
    rw [wait_loop]
    by_cases h : elapsed < maxWaitSeconds
    · simp only [dif_pos h]
      cases heq : check n with
      | error e => dsimp only; omega
      | ok s =>
        dsimp only
        by_cases hs : s = "available"
        · simp only [if_pos hs]; omega
        · simp only [if_neg hs]
          by_cases hmem : s ∈ failedStates
          · simp only [if_pos hmem]; omega
          · simp only [if_neg hmem]
            have := ih (elapsed + 30) (n + 1) (by omega)
            omega
    · simp only [dif_neg h]; omega

/-- C6: `wait_for_rds_available` terminates for every time budget (it is a
total function, defined by recursion on the remaining budget, each
iteration consuming the fixed 30-second sleep); it returns `true` if and
only if some poll within the budget observes status `'available'` with
all earlier polls observing a non-terminal status (so it returns `false`
when a poll reports an error, a terminal failure status, or when the time
bound is reached); and the number of polls is at most the time budget
divided by the 30-second interval. -/
theorem wait_for_rds_available_spec (check : Nat → Except String String) (m : Nat) :
    (wait_for_rds_available check m = true ↔
      ∃ k, k < 2 * m ∧ check k = .ok "available" ∧ ∀ j < k, pollContinues (check j)) ∧
    wait_polls check m ≤ m * 60 / 30 := by
  constructor
  · rw [wait_for_rds_available, wait_loop_true_iff]
    constructor
    · rintro ⟨k, hk, hav, hcont⟩
      exact ⟨k, by omega, by simpa using hav, fun j hj => by simpa using hcont j hj⟩
    · rintro ⟨k, hk, hav, hcont⟩
      exact ⟨k, by omega, by simpa using hav, fun j hj => by simpa using hcont j hj⟩
  · have h := wait_loop_polls_le check (m * 60) (2 * m) 0 0 (by omega)
    rw [wait_polls]
    omega

/-! ## `create_ecommerce_tables` (`src/rds/rds_operations.py`, lines 239-424)

Connecting, executing a CREATE TABLE statement, and executing a CREATE
INDEX statement are provider/database interactions; we model their
outcomes by oracles (`SqlEnv`).  The function's own logic — the fixed
table order, the per-table try/except that collects `created_tables` and
`errors`, the index loop whose failures are only printed, and the result
dictionary — is embedded directly. -/

/-- The SQL statements executed by `create_ecommerce_tables`, identified
by the table or index they create. -/
inductive SqlEv
  | execCreateTable (name : String)
  | execCreateIndex (name : String)
deriving DecidableEq

/-- Oracle for the database interactions of `create_ecommerce_tables`:
whether connecting raises, and whether executing a given table's CREATE
TABLE (resp. an index's CREATE INDEX) statement raises. -/
structure SqlEnv where
  connectFails : Bool
  tableFails : String → Bool
  indexFails : String → Bool

/-- The result dictionary built at lines 415-420 of
`rds_operations.py`. -/
structure TablesResult where
  success : Bool
  created_tables : List String
  errors : List String
  total_tables : Nat
deriving DecidableEq

/-- `table_order` (line 381): the fixed foreign-key dependency order. -/
def table_order : List String :=
  ["users", "categories", "products", "addresses", "shopping_carts",
   "cart_items", "orders", "order_items", "reviews"]

/-- The indexes created at lines 395-404, identified by index name. -/
def ecommerce_indexes : List String :=
  ["idx_products_category", "idx_products_sku", "idx_orders_user",
   "idx_orders_status", "idx_order_items_order", "idx_cart_items_cart",
   "idx_reviews_product", "idx_addresses_user"]

/-- The per-table loop body (lines 383-392): a succeeding statement
appends the table to `created_tables`, a raising one appends an error
message to `errors`. -/
def tableStep (env : SqlEnv) (acc : List String × List String) (name : String) :
    List String × List String :=
  if env.tableFails name then (acc.1, acc.2 ++ ["Error creating table " ++ name])
  else (acc.1 ++ [name], acc.2)

/-- `create_ecommerce_tables`: returns the result dictionary (or
propagates the connection error, re-raised by the outer except), paired
with the trace of SQL statements issued. -/
def create_ecommerce_tables (env : SqlEnv) :
    Except String TablesResult × List SqlEv :=
  if env.connectFails then (.error "connection error", [])
  else
    let acc := table_order.foldl (tableStep env) ([], [])
    (.ok { success := acc.2.isEmpty
           created_tables := acc.1
           errors := acc.2
           total_tables := table_order.length },
     table_order.map SqlEv.execCreateTable ++ ecommerce_indexes.map SqlEv.execCreateIndex)

theorem tableStep_foldl (env : SqlEnv) : ∀ (l : List String) (acc : List String × List String),
    l.foldl (tableStep env) acc =
      (acc.1 ++ l.filter (fun n => ¬ env.tableFails n),
       acc.2 ++ (l.filter (fun n => env.tableFails n)).map
         (fun n => "Error creating table " ++ n)) := by
  intro l
  induction l with
  | nil => intro acc; simp
  | cons a l ih =>
    intro acc
    rw [List.foldl_cons, ih]
    by_cases h : env.tableFails a <;> simp [tableStep, h]

/-- C8: when the connection succeeds, `create_ecommerce_tables` issues
the nine CREATE TABLE statements in the order users, categories,
products, addresses, shopping_carts, cart_items, orders, order_items,
reviews (before any index statement); reports `total_tables = 9`; lists
in `created_tables` exactly the tables whose statement did not raise (in
that order); and reports `success` exactly when no table statement
raised — index failures never affect the result. -/
theorem create_ecommerce_tables_spec (env : SqlEnv) (henv : env.connectFails = false) :
    ∃ r, (create_ecommerce_tables env).1 = .ok r ∧
      r.total_tables = 9 ∧
      r.created_tables = (["users", "categories", "products", "addresses",
        "shopping_carts", "cart_items", "orders", "order_items",
        "reviews"].filter (fun n => ¬ env.tableFails n)) ∧
      (r.success = true ↔ ∀ n ∈ (["users", "categories", "products", "addresses",
        "shopping_carts", "cart_items", "orders", "order_items",
        "reviews"] : List String), env.tableFails n = false) ∧
      (create_ecommerce_tables env).2.filterMap
          (fun e => match e with
            | .execCreateTable n => some n
            | .execCreateIndex _ => none) =
        ["users", "categories", "products", "addresses", "shopping_carts",
         "cart_items", "orders", "order_items", "reviews"] := by
  rw [create_ecommerce_tables]
  simp only [henv, Bool.false_eq_true, if_false, tableStep_foldl]
  refine ⟨_, rfl, rfl, by simp [table_order], ?_, ?_⟩
  · simp only [List.nil_append, List.isEmpty_iff, List.map_eq_nil_iff,
      List.filter_eq_nil_iff]
    constructor
    · intro h n hn
      have := h n (by simpa [table_order] using hn)
      simpa using this
    · intro h n hn
      have := h n (by simpa [table_order] using hn)
      simp [this]
  · simp [table_order, ecommerce_indexes, List.filterMap_append]

/-- Closed witness for `create_ecommerce_tables_spec`: a run in which the
`orders` statement raises and everything else succeeds. -/
theorem create_ecommerce_tables_spec_witness :
    ∃ r, (create_ecommerce_tables
        { connectFails := false, tableFails := fun n => n = "orders",
          indexFails := fun _ => false }).1 = .ok r ∧
      r.total_tables = 9 ∧
      r.created_tables = (["users", "categories", "products", "addresses",
        "shopping_carts", "cart_items", "orders", "order_items",
        "reviews"].filter (fun n => ¬ (decide (n = "orders") : Bool))) ∧
      (r.success = true ↔ ∀ n ∈ (["users", "categories", "products", "addresses",
        "shopping_carts", "cart_items", "orders", "order_items",
        "reviews"] : List String), (decide (n = "orders") : Bool) = false) ∧
      (create_ecommerce_tables
        { connectFails := false, tableFails := fun n => n = "orders",
          indexFails := fun _ => false }).2.filterMap
          (fun e => match e with
            | .execCreateTable n => some n
            | .execCreateIndex _ => none) =
        ["users", "categories", "products", "addresses", "shopping_carts",
         "cart_items", "orders", "order_items", "reviews"] :=
  create_ecommerce_tables_spec
    { connectFails := false, tableFails := fun n => n = "orders",
      indexFails := fun _ => false } rfl

/-! ## Lambda handlers (`src/rds/rds_operations.py`, lines 498-687)

Each handler reads optional fields from the event dictionary, returns a
400 response when a required field is missing (Python truthiness: absent
or empty string), calls into `RDSOperations`, and wraps any exception in
a 500 response.  The `RDSOperations` calls reach the database, so their
outcomes are oracles (`LambdaEnv`). -/

/-- The event dictionary fields read by the four handlers; a missing key
is `none` (`event.get` returns `None`). -/
structure LEvent where
  db_instance_identifier : Option String
  use_secrets : Bool
  secret_name : Option String
  table_name : Option String
  table_schema : Option String
  query : Option String
  fetch : Bool

/-- The response dictionary `{'statusCode': ..., 'body': json.dumps(...)}`. -/
structure LResponse where
  statusCode : Nat
  body : String
deriving DecidableEq

/-- Result dictionary of `insert_sample_data` (lines 486-490); only
`success` matters to the handler. -/
structure InsertResult where
  success : Bool
  errors : List String

/-- Oracles for the `RDSOperations` calls performed by the handlers:
`create_ecommerce_tables` and `insert_sample_data` may raise or return a
result dictionary; `create_custom_table` catches internally and returns
a boolean; `connect_to_database` and `execute_sql_query` may raise, the
latter returns fetched rows when `fetch` is set. -/
structure LambdaEnv where
  createTables : Except String TablesResult
  insertData : Except String InsertResult
  createCustom : Bool
  connect : Except String Unit
  execQuery : Except String (Option (List String))

/-- Python truthiness of an optional string event field: `None` and the
empty string are falsy. -/
def truthy : Option String → Bool
  | none => false
  | some s => ¬ (s = "")

/-- `lambda_create_tables` (lines 498-540). -/
def lambda_create_tables (env : LambdaEnv) (event : LEvent) : LResponse :=
  if ¬ truthy event.db_instance_identifier then
    { statusCode := 400, body := "db_instance_identifier is required" }
  else
    match env.createTables with
    | .error e => { statusCode := 500, body := "Failed to create tables: " ++ e }
    | .ok r =>
      { statusCode := if r.success then 200 else 500, body := "Table creation completed" }

/-- `lambda_insert_sample_data` (lines 543-585). -/
def lambda_insert_sample_data (env : LambdaEnv) (event : LEvent) : LResponse :=
  if ¬ truthy event.db_instance_identifier then
    { statusCode := 400, body := "db_instance_identifier is required" }
  else
    match env.insertData with
    | .error e => { statusCode := 500, body := "Failed to insert sample data: " ++ e }
    | .ok r =>
      { statusCode := if r.success then 200 else 500, body := "Sample data insertion completed" }

/-- `lambda_create_custom_table` (lines 588-634); `create_custom_table`
catches its own exceptions and returns a boolean. -/
def lambda_create_custom_table (env : LambdaEnv) (event : LEvent) : LResponse :=
  if ¬ (truthy event.db_instance_identifier ∧ truthy event.table_name ∧
        truthy event.table_schema) then
    { statusCode := 400,
      body := "db_instance_identifier, table_name, and table_schema are required" }
  else if env.createCustom then { statusCode := 200, body := "created successfully" }
  else { statusCode := 500, body := "creation failed" }

/-- `lambda_execute_query` (lines 637-687): connects, executes, and
returns 200 on success; any exception from either step yields 500. -/
def lambda_execute_query (env : LambdaEnv) (event : LEvent) : LResponse :=
  if ¬ (truthy event.db_instance_identifier ∧ truthy event.query) then
    { statusCode := 400, body := "db_instance_identifier and query are required" }
  else
    match env.connect with
    | .error e => { statusCode := 500, body := "Failed to execute query: " ++ e }
    | .ok _ =>
      match env.execQuery with
      | .error e => { statusCode := 500, body := "Failed to execute query: " ++ e }
      | .ok _ => { statusCode := 200, body := "Query executed successfully" }

/-- C9: each Lambda handler always returns a response (the embeddings are
total functions — no exception escapes), with `statusCode` always one of
200, 400, 500; 400 whenever a required field is absent; 500 whenever the
underlying operation raises or reports failure; 200 whenever it succeeds. -/
theorem lambda_handlers_spec (env : LambdaEnv) (event : LEvent) :
    ((lambda_create_tables env event).statusCode = 200 ∨
     (lambda_create_tables env event).statusCode = 400 ∨
     (lambda_create_tables env event).statusCode = 500) ∧
    (event.db_instance_identifier = none →
      (lambda_create_tables env event).statusCode = 400 ∧
      (lambda_insert_sample_data env event).statusCode = 400 ∧
      (lambda_create_custom_table env event).statusCode = 400 ∧
      (lambda_execute_query env event).statusCode = 400) ∧
    (truthy event.db_instance_identifier = true →
      (∀ e, env.createTables = .error e →
        (lambda_create_tables env event).statusCode = 500) ∧
      (∀ r, env.createTables = .ok r →
        (lambda_create_tables env event).statusCode = if r.success then 200 else 500) ∧
      (∀ e, env.insertData = .error e →
        (lambda_insert_sample_data env event).statusCode = 500) ∧
      (∀ r, env.insertData = .ok r →
        (lambda_insert_sample_data env event).statusCode = if r.success then 200 else 500)) ∧
    ((lambda_insert_sample_data env event).statusCode = 200 ∨
     (lambda_insert_sample_data env event).statusCode = 400 ∨
     (lambda_insert_sample_data env event).statusCode = 500) ∧
    ((lambda_create_custom_table env event).statusCode = 200 ∨
     (lambda_create_custom_table env event).statusCode = 400 ∨
     (lambda_create_custom_table env event).statusCode = 500) ∧
    (truthy event.db_instance_identifier = true ∧ truthy event.table_name = true ∧
        truthy event.table_schema = true →
      (lambda_create_custom_table env event).statusCode =
        if env.createCustom then 200 else 500) ∧
    ((lambda_execute_query env event).statusCode = 200 ∨
     (lambda_execute_query env event).statusCode = 400 ∨
     (lambda_execute_query env event).statusCode = 500) ∧
    (truthy event.db_instance_identifier = true ∧ truthy event.query = true →
      ((∀ e, env.connect = .error e →
        (lambda_execute_query env event).statusCode = 500) ∧
       (env.connect = .ok () → ∀ e, env.execQuery = .error e →
        (lambda_execute_query env event).statusCode = 500) ∧
       (env.connect = .ok () → ∀ rows, env.execQuery = .ok rows →
        (lambda_execute_query env event).statusCode = 200))) := by
  refine ⟨?_, ?_, ?_, ?_, ?_, ?_, ?_, ?_⟩
  · rw [lambda_create_tables]
    by_cases h : truthy event.db_instance_identifier
    · cases henv : env.createTables with
      | error e => simp [h, henv]
      | ok r => by_cases hs : r.success <;> simp [h, henv, hs]
    · simp [h]
  · intro h
    simp [lambda_create_tables, lambda_insert_sample_data,
      lambda_create_custom_table, lambda_execute_query, truthy, h]
  · intro h
    refine ⟨?_, ?_, ?_, ?_⟩
    · intro e he; simp [lambda_create_tables, h, he]
    · intro r hr; simp [lambda_create_tables, h, hr]
    · intro e he; simp [lambda_insert_sample_data, h, he]
    · intro r hr; simp [lambda_insert_sample_data, h, hr]
  · rw [lambda_insert_sample_data]
    by_cases h : truthy event.db_instance_identifier
    · cases henv : env.insertData with
      | error e => simp [h, henv]
      | ok r => by_cases hs : r.success <;> simp [h, henv, hs]
    · simp [h]
  · rw [lambda_create_custom_table]
    by_cases h : truthy event.db_instance_identifier = true ∧
        truthy event.table_name = true ∧ truthy event.table_schema = true
    · by_cases hc : env.createCustom <;> simp [h, hc]
    · simp [h]
  · intro h
    by_cases hc : env.createCustom <;> simp [lambda_create_custom_table, h, hc]
  · rw [lambda_execute_query]
    by_cases h : truthy event.db_instance_identifier = true ∧ truthy event.query = true
    · cases hco : env.connect with
      | error e => simp [h, hco]
      | ok u =>
        cases hq : env.execQuery with
        | error e => simp [h, hco, hq]
        | ok rows => simp [h, hco, hq]
    · simp [h]
  · intro h
    refine ⟨?_, ?_, ?_⟩
    · intro e he; simp [lambda_execute_query, h, he]
    · intro hok e he; simp [lambda_execute_query, h, hok, he]
    · intro hok rows hr; simp [lambda_execute_query, h, hok, hr]

/-- Closed witness for `lambda_handlers_spec`: with
`db_instance_identifier` absent every handler returns 400. -/
theorem lambda_handlers_spec_witness :
    (lambda_create_tables
      { createTables := .error "x", insertData := .error "x", createCustom := false,
        connect := .error "x", execQuery := .error "x" }
      { db_instance_identifier := none, use_secrets := false, secret_name := none,
        table_name := none, table_schema := none, query := none,
        fetch := false }).statusCode = 400 :=
  ((lambda_handlers_spec
      { createTables := .error "x", insertData := .error "x", createCustom := false,
        connect := .error "x", execQuery := .error "x" }
      { db_instance_identifier := none, use_secrets := false, secret_name := none,
        table_name := none, table_schema := none, query := none,
        fetch := false }).2.1 rfl).1

/-! ## Provider API events, errors, and cloud state

The stateful code of `custom_vpc.py` and `custom_rds.py` is embedded in a
state-trace-exception monad `Step`.  Each boto3 call appends an `Ev` to
the trace; a failure oracle (`Api.fail`) decides which calls raise a
generic provider error (`Err.clientError`); the describe-calls that can
raise a distinguished not-found fault raise the corresponding `Err`
constructor when the resource is absent from the `CloudState`. -/

/-- Provider API calls (and error prints) issued by the embedded code. -/
inductive Ev
  | printErr (msg : String)
  | describeNatGateways (vpcId : RId)
  | deleteNatGateway (natId : RId)
  | waitNatGatewayDeleted (natId : RId)
  | releaseAddress (allocationId : RId)
  | describeRouteTables (vpcId : RId)
  | disassociateRouteTable (associationId : RId)
  | deleteRouteTable (rtId : RId)
  | describeInternetGateways (vpcId : RId)
  | detachInternetGateway (igwId : RId) (vpcId : RId)
  | deleteInternetGateway (igwId : RId)
  | describeSubnets (vpcId : RId)
  | deleteSubnet (subnetId : RId)
  | describeSecurityGroups (vpcId : RId)
  | deleteSecurityGroup (sgId : RId)
  | deleteVpc (vpcId : RId)
  | createVpc (cidr : String)
  | waitVpcAvailable (vpcId : RId)
  | createTags (resource : RId)
  | modifyVpcAttribute (vpcId : RId) (attr : String)
  | describeAvailabilityZones
  | createSubnet (vpcId : RId) (cidr : String) (az : String)
  | waitSubnetAvailable (subnetId : RId)
  | createInternetGateway
  | attachInternetGateway (igwId : RId) (vpcId : RId)
  | createRouteTable (vpcId : RId)
  | associateRouteTable (rtId : RId) (subnetId : RId)
  | createRoute (rtId : RId) (destination : String)
      (gatewayId : Option RId) (natGatewayId : Option RId)
  | allocateAddress
  | createNatGateway (subnetId : RId) (allocationId : RId)
  | waitNatGatewayAvailable (natId : RId)
  | createSecurityGroup (groupName : String) (vpcId : RId)
  | authorizeSecurityGroupIngress (sgId : RId)
  | describeDbSubnetGroups (name : String)
  | createDbSubnetGroup (name : String) (subnetIds : List RId)
  | addTagsToResource (name : String)
  | deleteDbSubnetGroup (name : String)
  | describeVpcsByTag (project : String) (createdBy : String)
  | describeVpcsAll
  | describeDbInstances (dbId : String)
  | createDbInstance (dbId : String) (subnetGroupName : String)
      (securityGroupIds : List RId)
  | deleteDbInstance (dbId : String)
  | waitDbInstanceDeleted (dbId : String)
  | describeSecurityGroupsByName (vpcId : RId) (groupName : String)
deriving DecidableEq

/-- Python exceptions: a generic provider error raised by a call, the two
distinguished not-found faults, `KeyError`, and `IndexError`. -/
inductive Err
  | clientError (ev : Ev)
  | dbSubnetGroupNotFound
  | dbInstanceNotFound
  | keyError (key : String)
  | indexError
deriving DecidableEq

/-- A NAT gateway as returned by `describe_nat_gateways`; each element of
`natGatewayAddresses` is the optional `AllocationId` of one address. -/
structure NatGw where
  natGatewayId : RId
  vpcId : RId
  state : String
  natGatewayAddresses : List (Option RId)
deriving DecidableEq

/-- The Elastic IP allocation ids collected at lines 321-324 of
`custom_vpc.py`. -/
def NatGw.allocIds (g : NatGw) : List RId := g.natGatewayAddresses.filterMap id

/-- A route table association (`Main` flag, optional `SubnetId`,
`RouteTableAssociationId`). -/
structure RTAssoc where
  main : Bool
  subnetId : Option RId
  routeTableAssociationId : RId
deriving DecidableEq

structure RouteTable where
  routeTableId : RId
  vpcId : RId
  associations : List RTAssoc
deriving DecidableEq

structure Igw where
  internetGatewayId : RId
  attachedVpcIds : List RId
deriving DecidableEq

structure Subnet where
  subnetId : RId
  vpcId : RId
deriving DecidableEq

structure SecurityGroup where
  groupId : RId
  groupName : String
  vpcId : RId
deriving DecidableEq

/-- A VPC with its `IsDefault` flag and the two tags this codebase
queries (`Project`, `CreatedBy`). -/
structure Vpc where
  vpcId : RId
  isDefault : Bool
  tagProject : Option String
  tagCreatedBy : Option String
deriving DecidableEq

/-- The provider-side resource state; `ctr` is the id generator. -/
structure CloudState where
  ctr : Nat
  vpcs : List Vpc
  subnets : List Subnet
  natGateways : List NatGw
  routeTables : List RouteTable
  internetGateways : List Igw
  securityGroups : List SecurityGroup
  dbSubnetGroups : List String
  dbInstances : List String
deriving DecidableEq

/-- Read-only environment: which calls raise a provider error, and the
availability zones the region reports in state `'available'` (in
provider order). -/
structure Api where
  fail : Ev → Bool
  availabilityZones : List String

/-- The state-trace-exception monad in which the boto3-calling methods
are embedded. -/
def Step (α : Type) : Type :=
  CloudState → Except Err α × List Ev × CloudState

def Step.pure {α} (a : α) : Step α := fun s => (.ok a, [], s)

def Step.bind {α β} (x : Step α) (f : α → Step β) : Step β := fun s =>
  match x s with
  | (.ok a, t, s1) =>
    match f a s1 with
    | (r, t2, s2) => (r, t ++ t2, s2)
  | (.error e, t, s1) => (.error e, t, s1)

instance : Monad Step where
  pure := Step.pure
  bind := Step.bind

def Step.throw {α} (e : Err) : Step α := fun s => (.error e, [], s)

/-- `try p except e: h e` — run `p`; on an exception run the handler on
the state `p` reached. -/
def Step.tryCatch {α} (p : Step α) (h : Err → Step α) : Step α := fun s =>
  match p s with
  | (.ok a, t, s1) => (.ok a, t, s1)
  | (.error e, t, s1) =>
    match h e s1 with
    | (r, t2, s2) => (r, t ++ t2, s2)

instance : MonadExceptOf Err Step where
  throw := Step.throw
  tryCatch := Step.tryCatch

/-- A provider call with no state effect and no interesting response. -/
def call (api : Api) (ev : Ev) : Step Unit := fun s =>
  if api.fail ev then (.error (.clientError ev), [ev], s) else (.ok (), [ev], s)

/-- A provider call that, when it succeeds, updates the resource state. -/
def callUpd (api : Api) (ev : Ev) (upd : CloudState → CloudState) : Step Unit := fun s =>
  if api.fail ev then (.error (.clientError ev), [ev], s) else (.ok (), [ev], upd s)

/-- A describe-style call returning data read from the current state. -/
def callGet {α} (api : Api) (ev : Ev) (g : CloudState → α) : Step α := fun s =>
  if api.fail ev then (.error (.clientError ev), [ev], s) else (.ok (g s), [ev], s)

/-- A create-style call returning a freshly generated resource id and
recording the new resource. -/
def callFresh (api : Api) (ev : Ev) (add : RId → CloudState → CloudState) : Step RId := fun s =>
  if api.fail ev then (.error (.clientError ev), [ev], s)
  else (.ok s.ctr, [ev], add s.ctr { s with ctr := s.ctr + 1 })

/-- A `print` of an error message (the only console output we trace). -/
def logErr (msg : String) : Step Unit := fun s => (.ok (), [.printErr msg], s)

/-- `describe_db_subnet_groups(DBSubnetGroupName=name)`: raises
`DBSubnetGroupNotFoundFault` when the subnet group does not exist. -/
def describeDbSubnetGroupsCall (api : Api) (name : String) : Step Unit := fun s =>
  if api.fail (.describeDbSubnetGroups name) then
    (.error (.clientError (.describeDbSubnetGroups name)), [.describeDbSubnetGroups name], s)
  else if name ∈ s.dbSubnetGroups then (.ok (), [.describeDbSubnetGroups name], s)
  else (.error .dbSubnetGroupNotFound, [.describeDbSubnetGroups name], s)

/-- `describe_db_instances(DBInstanceIdentifier=dbId)`: raises
`DBInstanceNotFoundFault` when the instance does not exist. -/
def describeDbInstancesCall (api : Api) (dbId : String) : Step Unit := fun s =>
  if api.fail (.describeDbInstances dbId) then
    (.error (.clientError (.describeDbInstances dbId)), [.describeDbInstances dbId], s)
  else if dbId ∈ s.dbInstances then (.ok (), [.describeDbInstances dbId], s)
  else (.error .dbInstanceNotFound, [.describeDbInstances dbId], s)

/-- `for` loop over a list of items, for the iteration patterns of the
cleanup and creation code. -/
def forEach {α} (f : α → Step Unit) : List α → Step Unit
  | [] => Pure.pure ()
  | a :: l => Step.bind (f a) (fun _ => forEach f l)

theorem run_bind {α β} (x : Step α) (f : α → Step β) (s : CloudState) :
    (x >>= f) s = match x s with
      | (.ok a, t, s1) =>
        match f a s1 with
        | (r, t2, s2) => (r, t ++ t2, s2)
      | (.error e, t, s1) => (.error e, t, s1) := rfl

theorem run_pure {α} (a : α) (s : CloudState) :
    (Pure.pure a : Step α) s = (.ok a, [], s) := rfl

theorem run_tryCatch {α} (p : Step α) (h : Err → Step α) (s : CloudState) :
    Step.tryCatch p h s = match p s with
      | (.ok a, t, s1) => (.ok a, t, s1)
      | (.error e, t, s1) =>
        match h e s1 with
        | (r, t2, s2) => (r, t ++ t2, s2) := rfl

/-! ## `cleanup_specific_vpc` (`src/vpc/custom_vpc.py`, lines 305-432) -/

/-- State effect of `delete_nat_gateway`: the gateway transitions to the
deleted state. -/
def deleteNatGatewayUpd (natId : RId) (s : CloudState) : CloudState :=
  { s with natGateways := s.natGateways.map (fun g2 => if g2.natGatewayId = natId then { g2 with state := "deleted" } else g2) }

/-- State effect of `disassociate_route_table`: the association vanishes
from its table. -/
def disassocUpd (assocId : RId) (s : CloudState) : CloudState :=
  { s with routeTables := s.routeTables.map (fun rt => { rt with associations := rt.associations.filter (fun a2 => decide (a2.routeTableAssociationId ≠ assocId)) }) }

/-- State effect of `delete_route_table`. -/
def deleteRouteTableUpd (rtId : RId) (s : CloudState) : CloudState :=
  { s with routeTables := s.routeTables.filter (fun rt2 => decide (rt2.routeTableId ≠ rtId)) }

/-- State effect of `detach_internet_gateway`. -/
def detachIgwUpd (igwId : RId) (vpcId : RId) (s : CloudState) : CloudState :=
  { s with internetGateways := s.internetGateways.map (fun i => if i.internetGatewayId = igwId then { i with attachedVpcIds := i.attachedVpcIds.filter (fun v => decide (v ≠ vpcId)) } else i) }

/-- State effect of `delete_internet_gateway`. -/
def deleteIgwUpd (igwId : RId) (s : CloudState) : CloudState :=
  { s with internetGateways := s.internetGateways.filter (fun i => decide (i.internetGatewayId ≠ igwId)) }

/-- State effect of `delete_subnet`. -/
def deleteSubnetUpd (subnetId : RId) (s : CloudState) : CloudState :=
  { s with subnets := s.subnets.filter (fun sn2 => decide (sn2.subnetId ≠ subnetId)) }

/-- State effect of `delete_security_group`. -/
def deleteSgUpd (sgId : RId) (s : CloudState) : CloudState :=
  { s with securityGroups := s.securityGroups.filter (fun g => decide (g.groupId ≠ sgId)) }

/-- State effect of `delete_vpc`. -/
def deleteVpcUpd (vpcId : RId) (s : CloudState) : CloudState :=
  { s with vpcs := s.vpcs.filter (fun v => decide (v.vpcId ≠ vpcId)) }

/-- The innermost try/except of step 1 (lines 336-342): each Elastic IP
release has its own catch, so a failing release is only printed. -/
def releaseAddressItem (api : Api) (a : RId) : Step Unit :=
  Step.tryCatch (call api (.releaseAddress a))
    (fun _ => logErr "Error releasing Elastic IP")

/-- Per-NAT-gateway body of step 1 (lines 316-345): skip gateways already
deleted or deleting; otherwise record the allocation ids, delete the
gateway, wait for the deletion, then release each Elastic IP; any
exception in delete or wait is caught per gateway. -/
def natGatewayCleanupItem (api : Api) (g : NatGw) : Step Unit :=
  if g.state = "deleted" ∨ g.state = "deleting" then Pure.pure ()
  else
    Step.tryCatch
      (do
        callUpd api (.deleteNatGateway g.natGatewayId) (deleteNatGatewayUpd g.natGatewayId)
        call api (.waitNatGatewayDeleted g.natGatewayId)
        forEach (releaseAddressItem api) g.allocIds)
      (fun _ => logErr "Error deleting NAT Gateway")

/-- Per-association body of step 2 (lines 360-367): only associations
carrying a `SubnetId` are disassociated, each in its own try. -/
def disassocItem (api : Api) (a : RTAssoc) : Step Unit :=
  match a.subnetId with
  | none => Pure.pure ()
  | some _ =>
    Step.tryCatch
      (callUpd api (.disassociateRouteTable a.routeTableAssociationId)
        (disassocUpd a.routeTableAssociationId))
      (fun _ => logErr "Error disassociating route table")

/-- Per-route-table body of step 2 (lines 353-373): the main route table
is skipped; otherwise disassociate, then delete. -/
def routeTableCleanupItem (api : Api) (rt : RouteTable) : Step Unit :=
  if rt.associations.any (fun a => a.main) then Pure.pure ()
  else
    Step.tryCatch
      (do
        forEach (disassocItem api) rt.associations
        callUpd api (.deleteRouteTable rt.routeTableId) (deleteRouteTableUpd rt.routeTableId))
      (fun _ => logErr "Error deleting route table")

/-- Per-internet-gateway body of step 3 (lines 381-393): detach, then
delete. -/
def igwCleanupItem (api : Api) (vpcId : RId) (igw : Igw) : Step Unit :=
  Step.tryCatch
    (do
      callUpd api (.detachInternetGateway igw.internetGatewayId vpcId)
        (detachIgwUpd igw.internetGatewayId vpcId)
      callUpd api (.deleteInternetGateway igw.internetGatewayId)
        (deleteIgwUpd igw.internetGatewayId))
    (fun _ => logErr "Error deleting Internet Gateway")

/-- Per-subnet body of step 4 (lines 401-408). -/
def subnetCleanupItem (api : Api) (sn : Subnet) : Step Unit :=
  Step.tryCatch
    (callUpd api (.deleteSubnet sn.subnetId) (deleteSubnetUpd sn.subnetId))
    (fun _ => logErr "Error deleting subnet")

/-- Per-security-group body of step 5 (lines 416-423): the group named
`default` is skipped. -/
def sgCleanupItem (api : Api) (sg : SecurityGroup) : Step Unit :=
  if sg.groupName = "default" then Pure.pure ()
  else
    Step.tryCatch
      (callUpd api (.deleteSecurityGroup sg.groupId) (deleteSgUpd sg.groupId))
      (fun _ => logErr "Error deleting security group")

/-- `cleanup_specific_vpc(vpc_id)`: the six steps in order, all inside
one outer try whose except only prints. -/
def cleanup_specific_vpc (api : Api) (vpcId : RId) : Step Unit :=
  Step.tryCatch
    (do
      let natGws ← callGet api (.describeNatGateways vpcId)
        (fun s => s.natGateways.filter (fun g => decide (g.vpcId = vpcId)))
      forEach (natGatewayCleanupItem api) natGws
      let rts ← callGet api (.describeRouteTables vpcId)
        (fun s => s.routeTables.filter (fun rt => decide (rt.vpcId = vpcId)))
      forEach (routeTableCleanupItem api) rts
      let igws ← callGet api (.describeInternetGateways vpcId)
        (fun s => s.internetGateways.filter (fun i => decide (vpcId ∈ i.attachedVpcIds)))
      forEach (igwCleanupItem api vpcId) igws
      let subs ← callGet api (.describeSubnets vpcId)
        (fun s => s.subnets.filter (fun sn => decide (sn.vpcId = vpcId)))
      forEach (subnetCleanupItem api) subs
      let sgs ← callGet api (.describeSecurityGroups vpcId)
        (fun s => s.securityGroups.filter (fun g => decide (g.vpcId = vpcId)))
      forEach (sgCleanupItem api) sgs
      callUpd api (.deleteVpc vpcId) (deleteVpcUpd vpcId))
    (fun _ => logErr "Error cleaning up VPC")

/-! ## `cleanup_existing_infrastructure` (lines 434-483) and
`cleanup_complete_setup` (`src/rds/custom_rds.py`, lines 175-204) -/

/-- State effect of `delete_db_subnet_group`. -/
def deleteDbSubnetGroupUpd (name : String) (s : CloudState) : CloudState :=
  { s with dbSubnetGroups := s.dbSubnetGroups.filter (fun n => decide (n ≠ name)) }

/-- State effect of `delete_db_instance`. -/
def deleteDbInstanceUpd (dbId : String) (s : CloudState) : CloudState :=
  { s with dbInstances := s.dbInstances.filter (fun n => decide (n ≠ dbId)) }

/-- Lines 438-446 of `custom_vpc.py`: delete the subnet group if it
exists; only `DBSubnetGroupNotFoundFault` is caught (anything else
propagates). -/
def deleteSubnetGroupSegment (api : Api) (name : String) : Step Unit :=
  Step.tryCatch
    (do
      describeDbSubnetGroupsCall api name
      callUpd api (.deleteDbSubnetGroup name) (deleteDbSubnetGroupUpd name))
    (fun e => match e with
      | .dbSubnetGroupNotFound => logErr "Subnet group does not exist"
      | e2 => Step.throw e2)

/-- Lines 448-463: clean up every VPC carrying this codebase's tags; any
exception is only printed. -/
def vpcPassTagged (api : Api) (instanceIdentifier : String) : Step Unit :=
  Step.tryCatch
    (do
      let matching ← callGet api (.describeVpcsByTag instanceIdentifier "VPCInstanceCreator")
        (fun s => s.vpcs.filter (fun v => decide (v.tagProject = some instanceIdentifier ∧
          v.tagCreatedBy = some "VPCInstanceCreator")))
      forEach (fun v => cleanup_specific_vpc api v.vpcId) matching)
    (fun _ => logErr "Error during targeted VPC cleanup")

/-- Lines 465-483: fallback pass over every non-default VPC; any
exception is only printed. -/
def vpcPassFallback (api : Api) : Step Unit :=
  Step.tryCatch
    (do
      let allVpcs ← callGet api .describeVpcsAll (fun s => s.vpcs)
      forEach (fun v => if v.isDefault then Pure.pure ()
        else cleanup_specific_vpc api v.vpcId) allVpcs)
    (fun _ => logErr "Error during VPC cleanup")

/-- `cleanup_existing_infrastructure(instance_identifier)`: delete the
subnet group if it exists (only `DBSubnetGroupNotFoundFault` is caught),
then clean up the tag-matching VPCs, then, as a fallback, every
non-default VPC; the two VPC passes catch all exceptions. -/
def cleanup_existing_infrastructure (api : Api) (instanceIdentifier : String) : Step Unit := do
  let subnetGroupName := instanceIdentifier ++ "-subnet-group"
  deleteSubnetGroupSegment api subnetGroupName
  vpcPassTagged api instanceIdentifier
  vpcPassFallback api

/-- Lines 182-201 of `custom_rds.py`: delete (and wait for) the RDS
instance if it exists; `DBInstanceNotFoundFault` and any other exception
are both only printed. -/
def deleteRdsInstanceSegment (api : Api) (dbInstanceIdentifier : String) : Step Unit :=
  Step.tryCatch
    (do
      describeDbInstancesCall api dbInstanceIdentifier
      callUpd api (.deleteDbInstance dbInstanceIdentifier) (deleteDbInstanceUpd dbInstanceIdentifier)
      call api (.waitDbInstanceDeleted dbInstanceIdentifier))
    (fun e => match e with
      | .dbInstanceNotFound => logErr "RDS instance does not exist"
      | _ => logErr "Error deleting RDS instance")

/-- `cleanup_complete_setup(db_instance_identifier, instance_identifier)`:
delete the RDS instance if it exists, then clean up the VPC
infrastructure. -/
def cleanup_complete_setup (api : Api) (dbInstanceIdentifier : String)
    (instanceIdentifierOpt : Option String) : Step Unit := do
  let instanceIdentifier := instanceIdentifierOpt.getD dbInstanceIdentifier
  deleteRdsInstanceSegment api dbInstanceIdentifier
  cleanup_existing_infrastructure api instanceIdentifier

/-! ## Reasoning toolkit for `Step` runs -/

theorem run_bind_ok {α β} {x : Step α} {f : α → Step β} {s : CloudState}
    {a : α} {t1 : List Ev} {s1 : CloudState} {r : Except Err β} {t2 : List Ev}
    {s2 : CloudState} (hx : x s = (.ok a, t1, s1)) (hf : f a s1 = (r, t2, s2)) :
    (x >>= f) s = (r, t1 ++ t2, s2) := by
  show Step.bind x f s = _
  simp only [Step.bind, hx, hf]

theorem run_bind_error {α β} {x : Step α} {f : α → Step β} {s : CloudState}
    {e : Err} {t1 : List Ev} {s1 : CloudState} (hx : x s = (.error e, t1, s1)) :
    (x >>= f) s = (.error e, t1, s1) := by
  show Step.bind x f s = _
  rw [Step.bind, hx]

theorem run_tryCatch_ok {α} {p : Step α} {h : Err → Step α} {s : CloudState}
    {a : α} {t : List Ev} {s1 : CloudState} (hp : p s = (.ok a, t, s1)) :
    Step.tryCatch p h s = (.ok a, t, s1) := by
  rw [Step.tryCatch, hp]

theorem run_tryCatch_error {α} {p : Step α} {h : Err → Step α} {s : CloudState}
    {e : Err} {t : List Ev} {s1 : CloudState} {r : Except Err α} {t2 : List Ev}
    {s2 : CloudState} (hp : p s = (.error e, t, s1)) (hh : h e s1 = (r, t2, s2)) :
    Step.tryCatch p h s = (r, t ++ t2, s2) := by
  simp only [Step.tryCatch, hp, hh]

theorem run_call_nofail {api : Api} (hfail : ∀ e, api.fail e = false) (ev : Ev)
    (s : CloudState) : call api ev s = (.ok (), [ev], s) := by
  rw [call, hfail, if_neg (by simp)]

theorem run_callUpd_nofail {api : Api} (hfail : ∀ e, api.fail e = false) (ev : Ev)
    (upd : CloudState → CloudState) (s : CloudState) :
    callUpd api ev upd s = (.ok (), [ev], upd s) := by
  rw [callUpd, hfail, if_neg (by simp)]

theorem run_callGet_nofail {α} {api : Api} (hfail : ∀ e, api.fail e = false) (ev : Ev)
    (g : CloudState → α) (s : CloudState) :
    callGet api ev g s = (.ok (g s), [ev], s) := by
  rw [callGet, hfail, if_neg (by simp)]

theorem run_callFresh_nofail {api : Api} (hfail : ∀ e, api.fail e = false) (ev : Ev)
    (add : RId → CloudState → CloudState) (s : CloudState) :
    callFresh api ev add s = (.ok s.ctr, [ev], add s.ctr { s with ctr := s.ctr + 1 }) := by
  rw [callFresh, hfail, if_neg (by simp)]

theorem run_logErr (msg : String) (s : CloudState) :
    logErr msg s = (.ok (), [.printErr msg], s) := rfl

/-- Characterization of `forEach` when every item succeeds with a trace
and state update depending only on the item (and the state, for the
update). -/
theorem forEach_ok {α} {f : α → Step Unit} {τ : α → List Ev}
    {υ : α → CloudState → CloudState}
    (h : ∀ a s, f a s = (.ok (), τ a, υ a s)) :
    ∀ (l : List α) (s : CloudState),
      forEach f l s = (.ok (), (l.map τ).flatten, l.foldl (fun s2 a => υ a s2) s) := by
  intro l
  induction l with
  | nil => intro s; rfl
  | cons a l ih =>
    intro s
    show Step.bind (f a) (fun _ => forEach f l) s = _
    simp only [Step.bind, h a s, ih (υ a s)]
    simp

theorem flatten_map_singleton {α β} (g : α → β) (l : List α) :
    (l.map (fun a => [g a])).flatten = l.map g := by
  induction l with
  | nil => rfl
  | cons a l ih => simp [ih]

/-- Folding state updates that preserve a projection preserves it. -/
theorem foldl_preserve {α γ} (proj : CloudState → γ) (υ : α → CloudState → CloudState)
    (h : ∀ a s, proj (υ a s) = proj s) :
    ∀ (l : List α) (s : CloudState),
      proj (l.foldl (fun s2 a => υ a s2) s) = proj s := by
  intro l
  induction l with
  | nil => intro s; rfl
  | cons a l ih => intro s; rw [List.foldl_cons, ih, h]

/-! ### Order of occurrences in a trace

`FirstBefore w x t` says that in the trace `t`, every prefix containing
an occurrence of `x` already contains `w`: no `x` is issued before the
first `w`. -/

def FirstBefore (w x : Ev) (t : List Ev) : Prop :=
  ∀ t1 t2, t = t1 ++ x :: t2 → w ∈ t1

theorem firstBefore_of_not_mem {w x : Ev} {t : List Ev} (h : x ∉ t) :
    FirstBefore w x t := by
  intro t1 t2 ht
  exact absurd (ht ▸ (List.mem_append.2 (Or.inr (List.mem_cons_self x t2)))) h

theorem firstBefore_append {w x : Ev} {t1 t2 : List Ev}
    (h1 : FirstBefore w x t1) (h2 : FirstBefore w x t2) :
    FirstBefore w x (t1 ++ t2) := by
  intro u1 u2 h
  rcases List.append_eq_append_iff.1 h.symm with ⟨a2, ha, hb⟩ | ⟨c2, hc, hd⟩
  · cases a2 with
    | nil =>
      rw [List.append_nil] at ha
      have := h2 [] u2 (by simpa using hb.symm)
      simp at this
    | cons y a2 =>
      have hy : y = x := by
        have hb2 := hb.symm
        rw [List.cons_append] at hb2
        injection hb2 with hh _
      rw [hy] at ha
      exact h1 u1 a2 ha
  · have hx2 : t2 = c2 ++ x :: u2 := hd
    have := h2 c2 u2 hx2
    rw [hc]
    exact List.mem_append.2 (Or.inr this)

theorem firstBefore_append_left {w x : Ev} {t1 t2 : List Ev}
    (hnx : x ∉ t1) (hw : w ∈ t1) : FirstBefore w x (t1 ++ t2) := by
  intro u1 u2 h
  rcases List.append_eq_append_iff.1 h.symm with ⟨a2, ha, hb⟩ | ⟨c2, hc, _⟩
  · cases a2 with
    | nil =>
      rw [List.append_nil] at ha
      rw [← ha]
      exact hw
    | cons y a2 =>
      have hy : y = x := by
        have hb2 := hb.symm
        rw [List.cons_append] at hb2
        injection hb2 with hh _
      rw [hy] at ha
      exact absurd (ha ▸ List.mem_append.2 (Or.inr (List.mem_cons_self x a2))) hnx
  · rw [hc]
    exact List.mem_append.2 (Or.inl hw)

theorem firstBefore_cons {w x e : Ev} {t : List Ev} (hne : e ≠ x)
    (h : FirstBefore w x t) : FirstBefore w x (e :: t) := by
  intro u1 u2 hu
  cases u1 with
  | nil =>
    simp only [List.nil_append] at hu
    injection hu with h1 _
    exact absurd h1 hne
  | cons y u1 =>
    injection hu with h1 h2
    have := h u1 u2 h2
    exact List.mem_cons.2 (Or.inr this)

/-- Run-level composition of `FirstBefore` through a bind. -/
theorem firstBefore_run_bind {α β} {w x : Ev} {p : Step α} {f : α → Step β}
    {s : CloudState} (hp : FirstBefore w x ((p s).2.1))
    (hf : ∀ a t1 s1, p s = (.ok a, t1, s1) → FirstBefore w x ((f a s1).2.1)) :
    FirstBefore w x (((p >>= f) s).2.1) := by
  show FirstBefore w x ((Step.bind p f s).2.1)
  rw [Step.bind]
  rcases hps : p s with ⟨r, t1, s1⟩
  rw [hps] at hp
  cases r with
  | ok a =>
    rcases hfs : f a s1 with ⟨r2, t2, s2⟩
    have h2 : FirstBefore w x t2 := by
      have := hf a t1 s1 hps
      rw [hfs] at this
      exact this
    simp only [hfs]
    exact firstBefore_append hp h2
  | error e =>
    exact hp

/-- Run-level composition of `FirstBefore` through a try/except. -/
theorem firstBefore_run_tryCatch {α} {w x : Ev} {p : Step α} {h : Err → Step α}
    {s : CloudState} (hp : FirstBefore w x ((p s).2.1))
    (hh : ∀ e t1 s1, p s = (.error e, t1, s1) → FirstBefore w x ((h e s1).2.1)) :
    FirstBefore w x ((Step.tryCatch p h s).2.1) := by
  rw [Step.tryCatch]
  rcases hps : p s with ⟨r, t1, s1⟩
  rw [hps] at hp
  cases r with
  | ok a => exact hp
  | error e =>
    rcases hhs : h e s1 with ⟨r2, t2, s2⟩
    have h2 : FirstBefore w x t2 := by
      have := hh e t1 s1 hps
      rw [hhs] at this
      exact this
    simp only [hhs]
    exact firstBefore_append hp h2

/-- Run-level composition of `FirstBefore` through `forEach`. -/
theorem firstBefore_run_forEach {α} {w x : Ev} {f : α → Step Unit}
    (l : List α) (hl : ∀ a ∈ l, ∀ s2, FirstBefore w x ((f a s2).2.1)) :
    ∀ s, FirstBefore w x ((forEach f l s).2.1) := by
  induction l with
  | nil =>
    intro s
    exact firstBefore_of_not_mem (by simp [forEach, Step.pure, run_pure])
  | cons a l ih =>
    intro s
    show FirstBefore w x ((Step.bind (f a) (fun _ => forEach f l) s).2.1)
    exact firstBefore_run_bind (hl a (List.mem_cons_self a l) s)
      (fun u t1 s1 _ => ih (fun b hb => hl b (List.mem_cons.2 (Or.inr hb))) s1)

/-! ### No-failure run characterization of the cleanup items -/

/-- Expected trace of one NAT-gateway cleanup item when no call fails. -/
def natItemTrace (g : NatGw) : List Ev :=
  if g.state = "deleted" ∨ g.state = "deleting" then []
  else .deleteNatGateway g.natGatewayId :: .waitNatGatewayDeleted g.natGatewayId ::
    g.allocIds.map Ev.releaseAddress

/-- Expected state effect of one NAT-gateway cleanup item. -/
def natItemUpd (g : NatGw) (s : CloudState) : CloudState :=
  if g.state = "deleted" ∨ g.state = "deleting" then s
  else deleteNatGatewayUpd g.natGatewayId s

/-- Expected trace of one association disassociation. -/
def disassocTrace (a : RTAssoc) : List Ev :=
  match a.subnetId with
  | none => []
  | some _ => [.disassociateRouteTable a.routeTableAssociationId]

def disassocItemUpd (a : RTAssoc) (s : CloudState) : CloudState :=
  match a.subnetId with
  | none => s
  | some _ => disassocUpd a.routeTableAssociationId s

/-- Expected trace of one route-table cleanup item when no call fails:
the disassociations of the subnet-bearing associations, then the table
deletion; the main table contributes nothing. -/
def rtItemTrace (rt : RouteTable) : List Ev :=
  if rt.associations.any (fun a => a.main) then []
  else (rt.associations.map disassocTrace).flatten ++ [.deleteRouteTable rt.routeTableId]

def rtItemUpd (rt : RouteTable) (s : CloudState) : CloudState :=
  if rt.associations.any (fun a => a.main) then s
  else deleteRouteTableUpd rt.routeTableId
    (rt.associations.foldl (fun s2 a => disassocItemUpd a s2) s)

/-- Expected trace of one internet-gateway cleanup item: detach, then
delete. -/
def igwItemTrace (vpcId : RId) (i : Igw) : List Ev :=
  [.detachInternetGateway i.internetGatewayId vpcId, .deleteInternetGateway i.internetGatewayId]

def igwItemUpd (vpcId : RId) (i : Igw) (s : CloudState) : CloudState :=
  deleteIgwUpd i.internetGatewayId (detachIgwUpd i.internetGatewayId vpcId s)

def subnetItemTrace (sn : Subnet) : List Ev := [.deleteSubnet sn.subnetId]

def sgItemTrace (sg : SecurityGroup) : List Ev :=
  if sg.groupName = "default" then [] else [.deleteSecurityGroup sg.groupId]

def sgItemUpd (sg : SecurityGroup) (s : CloudState) : CloudState :=
  if sg.groupName = "default" then s else deleteSgUpd sg.groupId s

theorem run_releaseAddressItem_nofail {api : Api} (hfail : ∀ e, api.fail e = false)
    (a : RId) (s : CloudState) :
    releaseAddressItem api a s = (.ok (), [.releaseAddress a], s) :=
  run_tryCatch_ok (run_call_nofail hfail _ _)

theorem run_natItem_nofail {api : Api} (hfail : ∀ e, api.fail e = false)
    (g : NatGw) (s : CloudState) :
    natGatewayCleanupItem api g s = (.ok (), natItemTrace g, natItemUpd g s) := by
  rw [natGatewayCleanupItem, natItemTrace, natItemUpd]
  by_cases hskip : g.state = "deleted" ∨ g.state = "deleting"
  · simp only [if_pos hskip]
    rfl
  · simp only [if_neg hskip]
    have hfold : ∀ (l : List RId) (s2 : CloudState),
        l.foldl (fun (s3 : CloudState) _ => s3) s2 = s2 := by
      intro l
      induction l with
      | nil => intro s2; rfl
      | cons b l ih => intro s2; rw [List.foldl_cons]; exact ih s2
    have hfor : forEach (releaseAddressItem api) g.allocIds
        (deleteNatGatewayUpd g.natGatewayId s) =
        (.ok (), g.allocIds.map Ev.releaseAddress, deleteNatGatewayUpd g.natGatewayId s) := by
      have h := forEach_ok (fun a s2 => run_releaseAddressItem_nofail hfail a s2)
        g.allocIds (deleteNatGatewayUpd g.natGatewayId s)
      rw [hfold, flatten_map_singleton] at h
      exact h
    have h2 : (call api (.waitNatGatewayDeleted g.natGatewayId) >>=
        fun _ => forEach (releaseAddressItem api) g.allocIds)
        (deleteNatGatewayUpd g.natGatewayId s) =
        (.ok (), .waitNatGatewayDeleted g.natGatewayId :: g.allocIds.map Ev.releaseAddress,
          deleteNatGatewayUpd g.natGatewayId s) :=
      run_bind_ok (run_call_nofail hfail _ _) hfor
    have h1 : (callUpd api (.deleteNatGateway g.natGatewayId)
          (deleteNatGatewayUpd g.natGatewayId) >>=
        fun _ => (call api (.waitNatGatewayDeleted g.natGatewayId) >>=
          fun _ => forEach (releaseAddressItem api) g.allocIds)) s =
        (.ok (), .deleteNatGateway g.natGatewayId ::
          .waitNatGatewayDeleted g.natGatewayId :: g.allocIds.map Ev.releaseAddress,
          deleteNatGatewayUpd g.natGatewayId s) :=
      run_bind_ok (run_callUpd_nofail hfail _ _ s) h2
    exact run_tryCatch_ok h1

theorem run_disassocItem_nofail {api : Api} (hfail : ∀ e, api.fail e = false)
    (a : RTAssoc) (s : CloudState) :
    disassocItem api a s = (.ok (), disassocTrace a, disassocItemUpd a s) := by
  rw [disassocItem, disassocTrace, disassocItemUpd]
  cases a.subnetId with
  | none => rfl
  | some v => exact run_tryCatch_ok (run_callUpd_nofail hfail _ _ s)

theorem run_rtItem_nofail {api : Api} (hfail : ∀ e, api.fail e = false)
    (rt : RouteTable) (s : CloudState) :
    routeTableCleanupItem api rt s = (.ok (), rtItemTrace rt, rtItemUpd rt s) := by
  rw [routeTableCleanupItem, rtItemTrace, rtItemUpd]
  by_cases hmain : rt.associations.any (fun a => a.main)
  · simp only [if_pos hmain]; rfl
  · simp only [if_neg hmain]
    have hfor := forEach_ok (fun a s2 => run_disassocItem_nofail hfail a s2)
      rt.associations s
    exact run_tryCatch_ok (run_bind_ok hfor (run_callUpd_nofail hfail _ _ _))

theorem run_igwItem_nofail {api : Api} (hfail : ∀ e, api.fail e = false)
    (vpcId : RId) (i : Igw) (s : CloudState) :
    igwCleanupItem api vpcId i s = (.ok (), igwItemTrace vpcId i, igwItemUpd vpcId i s) := by
  rw [igwCleanupItem, igwItemTrace, igwItemUpd]
  exact run_tryCatch_ok (run_bind_ok (run_callUpd_nofail hfail _ _ s)
    (run_callUpd_nofail hfail _ _ _))

theorem run_subnetItem_nofail {api : Api} (hfail : ∀ e, api.fail e = false)
    (sn : Subnet) (s : CloudState) :
    subnetCleanupItem api sn s = (.ok (), subnetItemTrace sn, deleteSubnetUpd sn.subnetId s) := by
  rw [subnetCleanupItem, subnetItemTrace]
  exact run_tryCatch_ok (run_callUpd_nofail hfail _ _ s)

theorem run_sgItem_nofail {api : Api} (hfail : ∀ e, api.fail e = false)
    (sg : SecurityGroup) (s : CloudState) :
    sgCleanupItem api sg s = (.ok (), sgItemTrace sg, sgItemUpd sg s) := by
  rw [sgCleanupItem, sgItemTrace, sgItemUpd]
  by_cases hdef : sg.groupName = "default"
  · simp only [if_pos hdef]; rfl
  · simp only [if_neg hdef]
    exact run_tryCatch_ok (run_callUpd_nofail hfail _ _ s)

/-! ### The cleanup loops and their state effects -/

def natLoopUpd (l : List NatGw) (s : CloudState) : CloudState :=
  l.foldl (fun s2 g => natItemUpd g s2) s

def rtLoopUpd (l : List RouteTable) (s : CloudState) : CloudState :=
  l.foldl (fun s2 rt => rtItemUpd rt s2) s

def igwLoopUpd (vpcId : RId) (l : List Igw) (s : CloudState) : CloudState :=
  l.foldl (fun s2 i => igwItemUpd vpcId i s2) s

def subnetLoopUpd (l : List Subnet) (s : CloudState) : CloudState :=
  l.foldl (fun s2 sn => deleteSubnetUpd sn.subnetId s2) s

def sgLoopUpd (l : List SecurityGroup) (s : CloudState) : CloudState :=
  l.foldl (fun s2 g => sgItemUpd g s2) s

theorem run_natLoop_nofail {api : Api} (hfail : ∀ e, api.fail e = false)
    (l : List NatGw) (s : CloudState) :
    forEach (natGatewayCleanupItem api) l s =
      (.ok (), (l.map natItemTrace).flatten, natLoopUpd l s) :=
  forEach_ok (fun g s2 => run_natItem_nofail hfail g s2) l s

theorem run_rtLoop_nofail {api : Api} (hfail : ∀ e, api.fail e = false)
    (l : List RouteTable) (s : CloudState) :
    forEach (routeTableCleanupItem api) l s =
      (.ok (), (l.map rtItemTrace).flatten, rtLoopUpd l s) :=
  forEach_ok (fun rt s2 => run_rtItem_nofail hfail rt s2) l s

theorem run_igwLoop_nofail {api : Api} (hfail : ∀ e, api.fail e = false)
    (vpcId : RId) (l : List Igw) (s : CloudState) :
    forEach (igwCleanupItem api vpcId) l s =
      (.ok (), (l.map (igwItemTrace vpcId)).flatten, igwLoopUpd vpcId l s) :=
  forEach_ok (fun i s2 => run_igwItem_nofail hfail vpcId i s2) l s

theorem run_subnetLoop_nofail {api : Api} (hfail : ∀ e, api.fail e = false)
    (l : List Subnet) (s : CloudState) :
    forEach (subnetCleanupItem api) l s =
      (.ok (), (l.map subnetItemTrace).flatten, subnetLoopUpd l s) :=
  forEach_ok (fun sn s2 => run_subnetItem_nofail hfail sn s2) l s

theorem run_sgLoop_nofail {api : Api} (hfail : ∀ e, api.fail e = false)
    (l : List SecurityGroup) (s : CloudState) :
    forEach (sgCleanupItem api) l s =
      (.ok (), (l.map sgItemTrace).flatten, sgLoopUpd l s) :=
  forEach_ok (fun g s2 => run_sgItem_nofail hfail g s2) l s

theorem natItemUpd_preserves (g : NatGw) (s : CloudState) :
    (natItemUpd g s).routeTables = s.routeTables ∧
    (natItemUpd g s).internetGateways = s.internetGateways ∧
    (natItemUpd g s).subnets = s.subnets ∧
    (natItemUpd g s).securityGroups = s.securityGroups := by
  rw [natItemUpd]; split <;> simp [deleteNatGatewayUpd]

theorem natLoopUpd_preserves (l : List NatGw) (s : CloudState) :
    (natLoopUpd l s).routeTables = s.routeTables ∧
    (natLoopUpd l s).internetGateways = s.internetGateways ∧
    (natLoopUpd l s).subnets = s.subnets ∧
    (natLoopUpd l s).securityGroups = s.securityGroups := by
  simp only [natLoopUpd]
  exact ⟨foldl_preserve _ _ (fun g s2 => (natItemUpd_preserves g s2).1) l s,
    foldl_preserve _ _ (fun g s2 => (natItemUpd_preserves g s2).2.1) l s,
    foldl_preserve _ _ (fun g s2 => (natItemUpd_preserves g s2).2.2.1) l s,
    foldl_preserve _ _ (fun g s2 => (natItemUpd_preserves g s2).2.2.2) l s⟩

theorem disassocItemUpd_preserves (a : RTAssoc) (s : CloudState) :
    (disassocItemUpd a s).internetGateways = s.internetGateways ∧
    (disassocItemUpd a s).subnets = s.subnets ∧
    (disassocItemUpd a s).securityGroups = s.securityGroups := by
  cases ha : a.subnetId <;> simp [disassocItemUpd, disassocUpd, ha]

theorem rtItemUpd_preserves (rt : RouteTable) (s : CloudState) :
    (rtItemUpd rt s).internetGateways = s.internetGateways ∧
    (rtItemUpd rt s).subnets = s.subnets ∧
    (rtItemUpd rt s).securityGroups = s.securityGroups := by
  rw [rtItemUpd]
  split
  · exact ⟨rfl, rfl, rfl⟩
  · simp only [deleteRouteTableUpd]
    exact ⟨foldl_preserve _ _ (fun a s2 => (disassocItemUpd_preserves a s2).1) _ s,
      foldl_preserve _ _ (fun a s2 => (disassocItemUpd_preserves a s2).2.1) _ s,
      foldl_preserve _ _ (fun a s2 => (disassocItemUpd_preserves a s2).2.2) _ s⟩

theorem rtLoopUpd_preserves (l : List RouteTable) (s : CloudState) :
    (rtLoopUpd l s).internetGateways = s.internetGateways ∧
    (rtLoopUpd l s).subnets = s.subnets ∧
    (rtLoopUpd l s).securityGroups = s.securityGroups := by
  simp only [rtLoopUpd]
  exact ⟨foldl_preserve _ _ (fun rt s2 => (rtItemUpd_preserves rt s2).1) l s,
    foldl_preserve _ _ (fun rt s2 => (rtItemUpd_preserves rt s2).2.1) l s,
    foldl_preserve _ _ (fun rt s2 => (rtItemUpd_preserves rt s2).2.2) l s⟩

theorem igwItemUpd_preserves (vpcId : RId) (i : Igw) (s : CloudState) :
    (igwItemUpd vpcId i s).subnets = s.subnets ∧
    (igwItemUpd vpcId i s).securityGroups = s.securityGroups := by
  simp [igwItemUpd, deleteIgwUpd, detachIgwUpd]

theorem igwLoopUpd_preserves (vpcId : RId) (l : List Igw) (s : CloudState) :
    (igwLoopUpd vpcId l s).subnets = s.subnets ∧
    (igwLoopUpd vpcId l s).securityGroups = s.securityGroups := by
  simp only [igwLoopUpd]
  exact ⟨foldl_preserve _ _ (fun i s2 => (igwItemUpd_preserves vpcId i s2).1) l s,
    foldl_preserve _ _ (fun i s2 => (igwItemUpd_preserves vpcId i s2).2) l s⟩

theorem subnetLoopUpd_preserves (l : List Subnet) (s : CloudState) :
    (subnetLoopUpd l s).securityGroups = s.securityGroups := by
  simp only [subnetLoopUpd]
  exact foldl_preserve _ _ (fun sn s2 => by simp [deleteSubnetUpd]) l s

/-- The trace of provider calls issued by `cleanup_specific_vpc` when no
call fails: the six steps in order, each step a describe followed by its
per-item deletions. -/
def cleanupTrace (v : RId) (s : CloudState) : List Ev :=
  .describeNatGateways v ::
    ((s.natGateways.filter (fun g => decide (g.vpcId = v))).map natItemTrace).flatten ++
  .describeRouteTables v ::
    ((s.routeTables.filter (fun rt => decide (rt.vpcId = v))).map rtItemTrace).flatten ++
  .describeInternetGateways v ::
    ((s.internetGateways.filter (fun i => decide (v ∈ i.attachedVpcIds))).map (igwItemTrace v)).flatten ++
  .describeSubnets v ::
    ((s.subnets.filter (fun sn => decide (sn.vpcId = v))).map subnetItemTrace).flatten ++
  .describeSecurityGroups v ::
    ((s.securityGroups.filter (fun g => decide (g.vpcId = v))).map sgItemTrace).flatten ++
  [.deleteVpc v]

/-- No-failure run of `cleanup_specific_vpc`: it succeeds and issues
exactly `cleanupTrace`. -/
theorem run_cleanup_specific_nofail {api : Api} (hfail : ∀ e, api.fail e = false)
    (v : RId) (s : CloudState) :
    ∃ sEnd, cleanup_specific_vpc api v s = (.ok (), cleanupTrace v s, sEnd) := by
  rw [cleanup_specific_vpc]
  have hA := natLoopUpd_preserves (s.natGateways.filter (fun g => decide (g.vpcId = v))) s
  set L1 := s.natGateways.filter (fun g => decide (g.vpcId = v)) with hL1
  set sA := natLoopUpd L1 s with hsA
  have hB := rtLoopUpd_preserves (s.routeTables.filter (fun rt => decide (rt.vpcId = v))) sA
  set L2 := s.routeTables.filter (fun rt => decide (rt.vpcId = v)) with hL2
  set sB := rtLoopUpd L2 sA with hsB
  have hC := igwLoopUpd_preserves v (s.internetGateways.filter (fun i => decide (v ∈ i.attachedVpcIds))) sB
  set L3 := s.internetGateways.filter (fun i => decide (v ∈ i.attachedVpcIds)) with hL3
  set sC := igwLoopUpd v L3 sB with hsC
  have hD := subnetLoopUpd_preserves (s.subnets.filter (fun sn => decide (sn.vpcId = v))) sC
  set L4 := s.subnets.filter (fun sn => decide (sn.vpcId = v)) with hL4
  set sD := subnetLoopUpd L4 sC with hsD
  set L5 := s.securityGroups.filter (fun g => decide (g.vpcId = v)) with hL5
  set sE := sgLoopUpd L5 sD with hsE
  set sF := deleteVpcUpd v sE with hsF
  -- describes, reading the preserved projections
  have h1 : callGet api (.describeNatGateways v)
      (fun s2 => s2.natGateways.filter (fun g => decide (g.vpcId = v))) s =
      (.ok L1, [.describeNatGateways v], s) := run_callGet_nofail hfail _ _ s
  have h3 : callGet api (.describeRouteTables v)
      (fun s2 => s2.routeTables.filter (fun rt => decide (rt.vpcId = v))) sA =
      (.ok L2, [.describeRouteTables v], sA) := by
    have h := run_callGet_nofail hfail (.describeRouteTables v)
      (fun s2 => s2.routeTables.filter (fun rt => decide (rt.vpcId = v))) sA
    rw [show sA.routeTables = s.routeTables from hA.1] at h
    exact h
  have h5 : callGet api (.describeInternetGateways v)
      (fun s2 => s2.internetGateways.filter (fun i => decide (v ∈ i.attachedVpcIds))) sB =
      (.ok L3, [.describeInternetGateways v], sB) := by
    have h := run_callGet_nofail hfail (.describeInternetGateways v)
      (fun s2 => s2.internetGateways.filter (fun i => decide (v ∈ i.attachedVpcIds))) sB
    rw [show sB.internetGateways = s.internetGateways from hB.1.trans hA.2.1] at h
    exact h
  have h7 : callGet api (.describeSubnets v)
      (fun s2 => s2.subnets.filter (fun sn => decide (sn.vpcId = v))) sC =
      (.ok L4, [.describeSubnets v], sC) := by
    have h := run_callGet_nofail hfail (.describeSubnets v)
      (fun s2 => s2.subnets.filter (fun sn => decide (sn.vpcId = v))) sC
    rw [show sC.subnets = s.subnets from (hC.1.trans (hB.2.1.trans hA.2.2.1))] at h
    exact h
  have h9 : callGet api (.describeSecurityGroups v)
      (fun s2 => s2.securityGroups.filter (fun g => decide (g.vpcId = v))) sD =
      (.ok L5, [.describeSecurityGroups v], sD) := by
    have h := run_callGet_nofail hfail (.describeSecurityGroups v)
      (fun s2 => s2.securityGroups.filter (fun g => decide (g.vpcId = v))) sD
    rw [show sD.securityGroups = s.securityGroups from
      (hD.trans (hC.2.trans (hB.2.2.trans hA.2.2.2)))] at h
    exact h
  -- assemble the suffixes, innermost first
  have h11 : callUpd api (.deleteVpc v) (deleteVpcUpd v) sE =
      (.ok (), [.deleteVpc v], sF) := run_callUpd_nofail hfail _ _ sE
  have k10 : (forEach (sgCleanupItem api) L5 >>= fun _ =>
      callUpd api (.deleteVpc v) (deleteVpcUpd v)) sD =
      (.ok (), (L5.map sgItemTrace).flatten ++ [.deleteVpc v], sF) :=
    run_bind_ok (run_sgLoop_nofail hfail L5 sD) h11
  have k9 : (callGet api (.describeSecurityGroups v)
        (fun s2 => s2.securityGroups.filter (fun g => decide (g.vpcId = v))) >>=
      fun sgs => forEach (sgCleanupItem api) sgs >>= fun _ =>
      callUpd api (.deleteVpc v) (deleteVpcUpd v)) sD =
      (.ok (), .describeSecurityGroups v ::
        ((L5.map sgItemTrace).flatten ++ [.deleteVpc v]), sF) :=
    run_bind_ok h9 k10
  have k8 : (forEach (subnetCleanupItem api) L4 >>= fun _ =>
      callGet api (.describeSecurityGroups v)
        (fun s2 => s2.securityGroups.filter (fun g => decide (g.vpcId = v))) >>=
      fun sgs => forEach (sgCleanupItem api) sgs >>= fun _ =>
      callUpd api (.deleteVpc v) (deleteVpcUpd v)) sC =
      (.ok (), (L4.map subnetItemTrace).flatten ++
        .describeSecurityGroups v ::
        ((L5.map sgItemTrace).flatten ++ [.deleteVpc v]), sF) :=
    run_bind_ok (run_subnetLoop_nofail hfail L4 sC) k9
  have k7 : (callGet api (.describeSubnets v)
        (fun s2 => s2.subnets.filter (fun sn => decide (sn.vpcId = v))) >>=
      fun subs => forEach (subnetCleanupItem api) subs >>= fun _ =>
      callGet api (.describeSecurityGroups v)
        (fun s2 => s2.securityGroups.filter (fun g => decide (g.vpcId = v))) >>=
      fun sgs => forEach (sgCleanupItem api) sgs >>= fun _ =>
      callUpd api (.deleteVpc v) (deleteVpcUpd v)) sC =
      (.ok (), .describeSubnets v :: ((L4.map subnetItemTrace).flatten ++
        .describeSecurityGroups v ::
        ((L5.map sgItemTrace).flatten ++ [.deleteVpc v])), sF) :=
    run_bind_ok h7 k8
  have k6 : (forEach (igwCleanupItem api v) L3 >>= fun _ =>
      callGet api (.describeSubnets v)
        (fun s2 => s2.subnets.filter (fun sn => decide (sn.vpcId = v))) >>=
      fun subs => forEach (subnetCleanupItem api) subs >>= fun _ =>
      callGet api (.describeSecurityGroups v)
        (fun s2 => s2.securityGroups.filter (fun g => decide (g.vpcId = v))) >>=
      fun sgs => forEach (sgCleanupItem api) sgs >>= fun _ =>
      callUpd api (.deleteVpc v) (deleteVpcUpd v)) sB =
      (.ok (), (L3.map (igwItemTrace v)).flatten ++
        .describeSubnets v :: ((L4.map subnetItemTrace).flatten ++
        .describeSecurityGroups v ::
        ((L5.map sgItemTrace).flatten ++ [.deleteVpc v])), sF) :=
    run_bind_ok (run_igwLoop_nofail hfail v L3 sB) k7
  have k5 : (callGet api (.describeInternetGateways v)
        (fun s2 => s2.internetGateways.filter (fun i => decide (v ∈ i.attachedVpcIds))) >>=
      fun igws => forEach (igwCleanupItem api v) igws >>= fun _ =>
      callGet api (.describeSubnets v)
        (fun s2 => s2.subnets.filter (fun sn => decide (sn.vpcId = v))) >>=
      fun subs => forEach (subnetCleanupItem api) subs >>= fun _ =>
      callGet api (.describeSecurityGroups v)
        (fun s2 => s2.securityGroups.filter (fun g => decide (g.vpcId = v))) >>=
      fun sgs => forEach (sgCleanupItem api) sgs >>= fun _ =>
      callUpd api (.deleteVpc v) (deleteVpcUpd v)) sB =
      (.ok (), .describeInternetGateways v :: ((L3.map (igwItemTrace v)).flatten ++
        .describeSubnets v :: ((L4.map subnetItemTrace).flatten ++
        .describeSecurityGroups v ::
        ((L5.map sgItemTrace).flatten ++ [.deleteVpc v]))), sF) :=
    run_bind_ok h5 k6
  have k4 : (forEach (routeTableCleanupItem api) L2 >>= fun _ =>
      callGet api (.describeInternetGateways v)
        (fun s2 => s2.internetGateways.filter (fun i => decide (v ∈ i.attachedVpcIds))) >>=
      fun igws => forEach (igwCleanupItem api v) igws >>= fun _ =>
      callGet api (.describeSubnets v)
        (fun s2 => s2.subnets.filter (fun sn => decide (sn.vpcId = v))) >>=
      fun subs => forEach (subnetCleanupItem api) subs >>= fun _ =>
      callGet api (.describeSecurityGroups v)
        (fun s2 => s2.securityGroups.filter (fun g => decide (g.vpcId = v))) >>=
      fun sgs => forEach (sgCleanupItem api) sgs >>= fun _ =>
      callUpd api (.deleteVpc v) (deleteVpcUpd v)) sA =
      (.ok (), (L2.map rtItemTrace).flatten ++
        .describeInternetGateways v :: ((L3.map (igwItemTrace v)).flatten ++
        .describeSubnets v :: ((L4.map subnetItemTrace).flatten ++
        .describeSecurityGroups v ::
        ((L5.map sgItemTrace).flatten ++ [.deleteVpc v]))), sF) :=
    run_bind_ok (run_rtLoop_nofail hfail L2 sA) k5
  have k3 : (callGet api (.describeRouteTables v)
        (fun s2 => s2.routeTables.filter (fun rt => decide (rt.vpcId = v))) >>=
      fun rts => forEach (routeTableCleanupItem api) rts >>= fun _ =>
      callGet api (.describeInternetGateways v)
        (fun s2 => s2.internetGateways.filter (fun i => decide (v ∈ i.attachedVpcIds))) >>=
      fun igws => forEach (igwCleanupItem api v) igws >>= fun _ =>
      callGet api (.describeSubnets v)
        (fun s2 => s2.subnets.filter (fun sn => decide (sn.vpcId = v))) >>=
      fun subs => forEach (subnetCleanupItem api) subs >>= fun _ =>
      callGet api (.describeSecurityGroups v)
        (fun s2 => s2.securityGroups.filter (fun g => decide (g.vpcId = v))) >>=
      fun sgs => forEach (sgCleanupItem api) sgs >>= fun _ =>
      callUpd api (.deleteVpc v) (deleteVpcUpd v)) sA =
      (.ok (), .describeRouteTables v :: ((L2.map rtItemTrace).flatten ++
        .describeInternetGateways v :: ((L3.map (igwItemTrace v)).flatten ++
        .describeSubnets v :: ((L4.map subnetItemTrace).flatten ++
        .describeSecurityGroups v ::
        ((L5.map sgItemTrace).flatten ++ [.deleteVpc v])))), sF) :=
    run_bind_ok h3 k4
  have k2 : (forEach (natGatewayCleanupItem api) L1 >>= fun _ =>
      callGet api (.describeRouteTables v)
        (fun s2 => s2.routeTables.filter (fun rt => decide (rt.vpcId = v))) >>=
      fun rts => forEach (routeTableCleanupItem api) rts >>= fun _ =>
      callGet api (.describeInternetGateways v)
        (fun s2 => s2.internetGateways.filter (fun i => decide (v ∈ i.attachedVpcIds))) >>=
      fun igws => forEach (igwCleanupItem api v) igws >>= fun _ =>
      callGet api (.describeSubnets v)
        (fun s2 => s2.subnets.filter (fun sn => decide (sn.vpcId = v))) >>=
      fun subs => forEach (subnetCleanupItem api) subs >>= fun _ =>
      callGet api (.describeSecurityGroups v)
        (fun s2 => s2.securityGroups.filter (fun g => decide (g.vpcId = v))) >>=
      fun sgs => forEach (sgCleanupItem api) sgs >>= fun _ =>
      callUpd api (.deleteVpc v) (deleteVpcUpd v)) s =
      (.ok (), (L1.map natItemTrace).flatten ++
        .describeRouteTables v :: ((L2.map rtItemTrace).flatten ++
        .describeInternetGateways v :: ((L3.map (igwItemTrace v)).flatten ++
        .describeSubnets v :: ((L4.map subnetItemTrace).flatten ++
        .describeSecurityGroups v ::
        ((L5.map sgItemTrace).flatten ++ [.deleteVpc v])))), sF) :=
    run_bind_ok (run_natLoop_nofail hfail L1 s) k3
  have k1 : (callGet api (.describeNatGateways v)
        (fun s2 => s2.natGateways.filter (fun g => decide (g.vpcId = v))) >>=
      fun natGws => forEach (natGatewayCleanupItem api) natGws >>= fun _ =>
      callGet api (.describeRouteTables v)
        (fun s2 => s2.routeTables.filter (fun rt => decide (rt.vpcId = v))) >>=
      fun rts => forEach (routeTableCleanupItem api) rts >>= fun _ =>
      callGet api (.describeInternetGateways v)
        (fun s2 => s2.internetGateways.filter (fun i => decide (v ∈ i.attachedVpcIds))) >>=
      fun igws => forEach (igwCleanupItem api v) igws >>= fun _ =>
      callGet api (.describeSubnets v)
        (fun s2 => s2.subnets.filter (fun sn => decide (sn.vpcId = v))) >>=
      fun subs => forEach (subnetCleanupItem api) subs >>= fun _ =>
      callGet api (.describeSecurityGroups v)
        (fun s2 => s2.securityGroups.filter (fun g => decide (g.vpcId = v))) >>=
      fun sgs => forEach (sgCleanupItem api) sgs >>= fun _ =>
      callUpd api (.deleteVpc v) (deleteVpcUpd v)) s =
      (.ok (), .describeNatGateways v :: ((L1.map natItemTrace).flatten ++
        .describeRouteTables v :: ((L2.map rtItemTrace).flatten ++
        .describeInternetGateways v :: ((L3.map (igwItemTrace v)).flatten ++
        .describeSubnets v :: ((L4.map subnetItemTrace).flatten ++
        .describeSecurityGroups v ::
        ((L5.map sgItemTrace).flatten ++ [.deleteVpc v]))))), sF) :=
    run_bind_ok h1 k2
  refine ⟨sF, ?_⟩
  rw [run_tryCatch_ok k1, cleanupTrace]
  simp [List.cons_append, List.append_assoc]

/-! ### Phases of the six cleanup steps

Every provider call of `cleanup_specific_vpc` belongs to one of the six
steps; `StepPhased lo hi p` says all calls of `p` carry phases in
`[lo, hi]` (error prints carry none) and the phases appear in
non-decreasing order in the trace — whatever calls fail. -/

/-- The cleanup step a provider call belongs to. -/
def phaseOf : Ev → Option Nat
  | .describeNatGateways _ => some 1
  | .deleteNatGateway _ => some 1
  | .waitNatGatewayDeleted _ => some 1
  | .releaseAddress _ => some 1
  | .describeRouteTables _ => some 2
  | .disassociateRouteTable _ => some 2
  | .deleteRouteTable _ => some 2
  | .describeInternetGateways _ => some 3
  | .detachInternetGateway _ _ => some 3
  | .deleteInternetGateway _ => some 3
  | .describeSubnets _ => some 4
  | .deleteSubnet _ => some 4
  | .describeSecurityGroups _ => some 5
  | .deleteSecurityGroup _ => some 5
  | .deleteVpc _ => some 6
  | _ => none

def StepPhased (lo hi : Nat) {α} (p : Step α) : Prop :=
  ∀ s, (∀ e ∈ (p s).2.1,
      (∃ m, e = Ev.printErr m) ∨ ∃ k, phaseOf e = some k ∧ lo ≤ k ∧ k ≤ hi) ∧
    List.Pairwise (fun a b => a ≤ b) (((p s).2.1).filterMap phaseOf)

theorem stepPhased_mono {lo hi lo2 hi2 : Nat} {α} {p : Step α}
    (hlo : lo2 ≤ lo) (hhi : hi ≤ hi2) (h : StepPhased lo hi p) :
    StepPhased lo2 hi2 p := by
  intro s
  refine ⟨fun e he => ?_, (h s).2⟩
  rcases (h s).1 e he with hp | ⟨k, hk, h1, h2⟩
  · exact Or.inl hp
  · exact Or.inr ⟨k, hk, by omega, by omega⟩

theorem stepPhased_of_trace_single {lo hi : Nat} {α} {p : Step α} {ev : Ev}
    (htr : ∀ s, (p s).2.1 = [ev]) {k : Nat} (hk : phaseOf ev = some k)
    (h1 : lo ≤ k) (h2 : k ≤ hi) : StepPhased lo hi p := by
  intro s
  rw [htr s]
  constructor
  · intro e he
    rw [List.mem_singleton] at he
    subst he
    exact Or.inr ⟨k, hk, h1, h2⟩
  · simp [hk]

theorem trace_call (api : Api) (ev : Ev) (s : CloudState) :
    (call api ev s).2.1 = [ev] := by
  rw [call]; split <;> rfl

theorem trace_callUpd (api : Api) (ev : Ev) (upd : CloudState → CloudState)
    (s : CloudState) : (callUpd api ev upd s).2.1 = [ev] := by
  rw [callUpd]; split <;> rfl

theorem trace_callGet {α} (api : Api) (ev : Ev) (g : CloudState → α)
    (s : CloudState) : (callGet api ev g s).2.1 = [ev] := by
  rw [callGet]; split <;> rfl

theorem stepPhased_pure {lo hi : Nat} {α} (a : α) :
    StepPhased lo hi (Pure.pure a : Step α) := by
  intro s
  refine ⟨fun e he => ?_, ?_⟩
  · simp [run_pure] at he
  · simp [run_pure, Step.pure]

theorem stepPhased_logErr {lo hi : Nat} (msg : String) :
    StepPhased lo hi (logErr msg) := by
  intro s
  refine ⟨fun e he => ?_, ?_⟩
  · simp only [run_logErr, List.mem_singleton] at he
    exact Or.inl ⟨msg, he⟩
  · simp [run_logErr, phaseOf]

theorem stepPhased_bind {lo1 hi1 lo2 hi2 : Nat} {α β} {x : Step α} {f : α → Step β}
    (hx : StepPhased lo1 hi1 x) (hf : ∀ a, StepPhased lo2 hi2 (f a))
    (hcross : hi1 ≤ lo2) (hlo : lo1 ≤ lo2) (hhi : hi1 ≤ hi2) :
    StepPhased lo1 hi2 (x >>= f) := by
  intro s
  rcases hxs : x s with ⟨r, t1, s1⟩
  have hx1 := (hx s).1
  have hx2 := (hx s).2
  rw [hxs] at hx1 hx2
  cases r with
  | error e =>
    have hrun : (x >>= f) s = (.error e, t1, s1) := run_bind_error hxs
    rw [hrun]
    refine ⟨fun e2 he2 => ?_, hx2⟩
    rcases hx1 e2 he2 with hp | ⟨k, hk, ha, hb⟩
    · exact Or.inl hp
    · exact Or.inr ⟨k, hk, ha, by omega⟩
  | ok a =>
    rcases hfs : f a s1 with ⟨r2, t2, s2⟩
    have hf1 := (hf a s1).1
    have hf2 := (hf a s1).2
    rw [hfs] at hf1 hf2
    have hrun : (x >>= f) s = (r2, t1 ++ t2, s2) := run_bind_ok hxs hfs
    rw [hrun]
    constructor
    · intro e2 he2
      rcases List.mem_append.1 he2 with h | h
      · rcases hx1 e2 h with hp | ⟨k, hk, ha, hb⟩
        · exact Or.inl hp
        · exact Or.inr ⟨k, hk, ha, by omega⟩
      · rcases hf1 e2 h with hp | ⟨k, hk, ha, hb⟩
        · exact Or.inl hp
        · exact Or.inr ⟨k, hk, by omega, hb⟩
    · show List.Pairwise _ ((t1 ++ t2).filterMap phaseOf)
      rw [List.filterMap_append, List.pairwise_append]
      refine ⟨hx2, hf2, ?_⟩
      intro a1 ha1 b1 hb1
      rcases List.mem_filterMap.1 ha1 with ⟨e1, he1, hp1⟩
      rcases List.mem_filterMap.1 hb1 with ⟨e2, he2, hp2⟩
      rcases hx1 e1 he1 with ⟨m, hm⟩ | ⟨k, hk, hc, hd⟩
      · rw [hm] at hp1; simp [phaseOf] at hp1
      · rcases hf1 e2 he2 with ⟨m2, hm2⟩ | ⟨k2, hk2, he, hg⟩
        · rw [hm2] at hp2; simp [phaseOf] at hp2
        · rw [hp1] at hk
          rw [hp2] at hk2
          injection hk with hk
          injection hk2 with hk2
          omega

theorem stepPhased_tryCatch_logErr {lo hi : Nat} {p : Step Unit} {msg : String}
    (hp : StepPhased lo hi p) :
    StepPhased lo hi (Step.tryCatch p (fun _ => logErr msg)) := by
  intro s
  rcases hps : p s with ⟨r, t1, s1⟩
  have hp1 := (hp s).1
  have hp2 := (hp s).2
  rw [hps] at hp1 hp2
  cases r with
  | ok a =>
    have hrun : Step.tryCatch p (fun _ => logErr msg) s = (.ok a, t1, s1) :=
      run_tryCatch_ok hps
    rw [hrun]
    exact ⟨hp1, hp2⟩
  | error e =>
    have hrun : Step.tryCatch p (fun _ => logErr msg) s =
        (.ok (), t1 ++ [.printErr msg], s1) :=
      run_tryCatch_error hps (run_logErr msg s1)
    rw [hrun]
    constructor
    · intro e2 he2
      rcases List.mem_append.1 he2 with h | h
      · exact hp1 e2 h
      · rw [List.mem_singleton] at h
        exact Or.inl ⟨msg, h⟩
    · show List.Pairwise _ ((t1 ++ [Ev.printErr msg]).filterMap phaseOf)
      have hfm : ((t1 ++ [Ev.printErr msg]).filterMap phaseOf) = t1.filterMap phaseOf := by
        rw [List.filterMap_append]
        simp [phaseOf]
      rw [hfm]
      exact hp2

theorem stepPhased_forEach {i : Nat} {α} {f : α → Step Unit}
    (hf : ∀ a, StepPhased i i (f a)) (l : List α) :
    StepPhased i i (forEach f l) := by
  induction l with
  | nil => exact stepPhased_pure ()
  | cons a l ih =>
    show StepPhased i i (Step.bind (f a) (fun _ => forEach f l))
    exact stepPhased_bind (hf a) (fun _ => ih) le_rfl le_rfl le_rfl

theorem stepPhased_call {lo hi k : Nat} (api : Api) (ev : Ev)
    (hk : phaseOf ev = some k) (h1 : lo ≤ k) (h2 : k ≤ hi) :
    StepPhased lo hi (call api ev) :=
  stepPhased_of_trace_single (trace_call api ev) hk h1 h2

theorem stepPhased_callUpd {lo hi k : Nat} (api : Api) (ev : Ev)
    (upd : CloudState → CloudState) (hk : phaseOf ev = some k)
    (h1 : lo ≤ k) (h2 : k ≤ hi) : StepPhased lo hi (callUpd api ev upd) :=
  stepPhased_of_trace_single (trace_callUpd api ev upd) hk h1 h2

theorem stepPhased_callGet {lo hi k : Nat} {α} (api : Api) (ev : Ev)
    (g : CloudState → α) (hk : phaseOf ev = some k)
    (h1 : lo ≤ k) (h2 : k ≤ hi) : StepPhased lo hi (callGet api ev g) :=
  stepPhased_of_trace_single (trace_callGet api ev g) hk h1 h2

theorem stepPhased_natItem (api : Api) (g : NatGw) :
    StepPhased 1 1 (natGatewayCleanupItem api g) := by
  rw [natGatewayCleanupItem]
  split
  · exact stepPhased_pure ()
  · apply stepPhased_tryCatch_logErr
    refine stepPhased_bind (stepPhased_callUpd api _ _ rfl le_rfl le_rfl)
      (fun _ => ?_) le_rfl le_rfl le_rfl
    refine stepPhased_bind (stepPhased_call api _ rfl le_rfl le_rfl)
      (fun _ => ?_) le_rfl le_rfl le_rfl
    apply stepPhased_forEach
    intro a
    rw [releaseAddressItem]
    exact stepPhased_tryCatch_logErr (stepPhased_call api _ rfl le_rfl le_rfl)

theorem stepPhased_disassocItem (api : Api) (a : RTAssoc) :
    StepPhased 2 2 (disassocItem api a) := by
  rw [disassocItem]
  split
  · exact stepPhased_pure ()
  · exact stepPhased_tryCatch_logErr (stepPhased_callUpd api _ _ rfl le_rfl le_rfl)

theorem stepPhased_rtItem (api : Api) (rt : RouteTable) :
    StepPhased 2 2 (routeTableCleanupItem api rt) := by
  rw [routeTableCleanupItem]
  split
  · exact stepPhased_pure ()
  · apply stepPhased_tryCatch_logErr
    exact stepPhased_bind (stepPhased_forEach (stepPhased_disassocItem api) rt.associations)
      (fun _ => stepPhased_callUpd api _ _ rfl le_rfl le_rfl) le_rfl le_rfl le_rfl

theorem stepPhased_igwItem (api : Api) (v : RId) (i : Igw) :
    StepPhased 3 3 (igwCleanupItem api v i) := by
  rw [igwCleanupItem]
  apply stepPhased_tryCatch_logErr
  exact stepPhased_bind (stepPhased_callUpd api _ _ rfl le_rfl le_rfl)
    (fun _ => stepPhased_callUpd api _ _ rfl le_rfl le_rfl) le_rfl le_rfl le_rfl

theorem stepPhased_subnetItem (api : Api) (sn : Subnet) :
    StepPhased 4 4 (subnetCleanupItem api sn) := by
  rw [subnetCleanupItem]
  exact stepPhased_tryCatch_logErr (stepPhased_callUpd api _ _ rfl le_rfl le_rfl)

theorem stepPhased_sgItem (api : Api) (sg : SecurityGroup) :
    StepPhased 5 5 (sgCleanupItem api sg) := by
  rw [sgCleanupItem]
  split
  · exact stepPhased_pure ()
  · exact stepPhased_tryCatch_logErr (stepPhased_callUpd api _ _ rfl le_rfl le_rfl)

/-- Steps 2-6 of the cleanup body (everything following the NAT-gateway
loop) only issue calls of phases 2-6, in non-decreasing phase order. -/
theorem stepPhased_cleanup_steps2to6 (api : Api) (v : RId) :
    StepPhased 2 6 (callGet api (.describeRouteTables v)
        (fun s2 => s2.routeTables.filter (fun rt => decide (rt.vpcId = v))) >>=
      fun rts => forEach (routeTableCleanupItem api) rts >>= fun _ =>
        callGet api (.describeInternetGateways v)
          (fun s2 => s2.internetGateways.filter (fun i => decide (v ∈ i.attachedVpcIds))) >>=
        fun igws => forEach (igwCleanupItem api v) igws >>= fun _ =>
        callGet api (.describeSubnets v)
          (fun s2 => s2.subnets.filter (fun sn => decide (sn.vpcId = v))) >>=
        fun subs => forEach (subnetCleanupItem api) subs >>= fun _ =>
        callGet api (.describeSecurityGroups v)
          (fun s2 => s2.securityGroups.filter (fun g => decide (g.vpcId = v))) >>=
        fun sgs => forEach (sgCleanupItem api) sgs >>= fun _ =>
        callUpd api (.deleteVpc v) (deleteVpcUpd v)) := by
  have c11 : StepPhased 6 6 (callUpd api (.deleteVpc v) (deleteVpcUpd v)) :=
    stepPhased_callUpd api _ _ rfl le_rfl le_rfl
  have c10 : ∀ sgs : List SecurityGroup, StepPhased 5 6
      (forEach (sgCleanupItem api) sgs >>= fun _ =>
        callUpd api (.deleteVpc v) (deleteVpcUpd v)) :=
    fun sgs => stepPhased_bind (stepPhased_forEach (stepPhased_sgItem api) sgs)
      (fun _ => c11) (by omega) (by omega) (by omega)
  have c9 : StepPhased 5 6 (callGet api (.describeSecurityGroups v)
        (fun s2 => s2.securityGroups.filter (fun g => decide (g.vpcId = v))) >>=
      fun sgs => forEach (sgCleanupItem api) sgs >>= fun _ =>
        callUpd api (.deleteVpc v) (deleteVpcUpd v)) :=
    stepPhased_bind (stepPhased_callGet api _ _
        (show phaseOf (Ev.describeSecurityGroups v) = some 5 from rfl) le_rfl le_rfl)
      c10 (by omega) (by omega) (by omega)
  have c8 : ∀ subs : List Subnet, StepPhased 4 6
      (forEach (subnetCleanupItem api) subs >>= fun _ =>
        callGet api (.describeSecurityGroups v)
          (fun s2 => s2.securityGroups.filter (fun g => decide (g.vpcId = v))) >>=
        fun sgs => forEach (sgCleanupItem api) sgs >>= fun _ =>
        callUpd api (.deleteVpc v) (deleteVpcUpd v)) :=
    fun subs => stepPhased_bind (stepPhased_forEach (stepPhased_subnetItem api) subs)
      (fun _ => c9) (by omega) (by omega) (by omega)
  have c7 : StepPhased 4 6 (callGet api (.describeSubnets v)
        (fun s2 => s2.subnets.filter (fun sn => decide (sn.vpcId = v))) >>=
      fun subs => forEach (subnetCleanupItem api) subs >>= fun _ =>
        callGet api (.describeSecurityGroups v)
          (fun s2 => s2.securityGroups.filter (fun g => decide (g.vpcId = v))) >>=
        fun sgs => forEach (sgCleanupItem api) sgs >>= fun _ =>
        callUpd api (.deleteVpc v) (deleteVpcUpd v)) :=
    stepPhased_bind (stepPhased_callGet api _ _
        (show phaseOf (Ev.describeSubnets v) = some 4 from rfl) le_rfl le_rfl)
      c8 (by omega) (by omega) (by omega)
  have c6 : ∀ igws : List Igw, StepPhased 3 6
      (forEach (igwCleanupItem api v) igws >>= fun _ =>
        callGet api (.describeSubnets v)
          (fun s2 => s2.subnets.filter (fun sn => decide (sn.vpcId = v))) >>=
        fun subs => forEach (subnetCleanupItem api) subs >>= fun _ =>
        callGet api (.describeSecurityGroups v)
          (fun s2 => s2.securityGroups.filter (fun g => decide (g.vpcId = v))) >>=
        fun sgs => forEach (sgCleanupItem api) sgs >>= fun _ =>
        callUpd api (.deleteVpc v) (deleteVpcUpd v)) :=
    fun igws => stepPhased_bind (stepPhased_forEach (stepPhased_igwItem api v) igws)
      (fun _ => c7) (by omega) (by omega) (by omega)
  have c5 : StepPhased 3 6 (callGet api (.describeInternetGateways v)
        (fun s2 => s2.internetGateways.filter (fun i => decide (v ∈ i.attachedVpcIds))) >>=
      fun igws => forEach (igwCleanupItem api v) igws >>= fun _ =>
        callGet api (.describeSubnets v)
          (fun s2 => s2.subnets.filter (fun sn => decide (sn.vpcId = v))) >>=
        fun subs => forEach (subnetCleanupItem api) subs >>= fun _ =>
        callGet api (.describeSecurityGroups v)
          (fun s2 => s2.securityGroups.filter (fun g => decide (g.vpcId = v))) >>=
        fun sgs => forEach (sgCleanupItem api) sgs >>= fun _ =>
        callUpd api (.deleteVpc v) (deleteVpcUpd v)) :=
    stepPhased_bind (stepPhased_callGet api _ _
        (show phaseOf (Ev.describeInternetGateways v) = some 3 from rfl) le_rfl le_rfl)
      c6 (by omega) (by omega) (by omega)
  have c4 : ∀ rts : List RouteTable, StepPhased 2 6
      (forEach (routeTableCleanupItem api) rts >>= fun _ =>
        callGet api (.describeInternetGateways v)
          (fun s2 => s2.internetGateways.filter (fun i => decide (v ∈ i.attachedVpcIds))) >>=
        fun igws => forEach (igwCleanupItem api v) igws >>= fun _ =>
        callGet api (.describeSubnets v)
          (fun s2 => s2.subnets.filter (fun sn => decide (sn.vpcId = v))) >>=
        fun subs => forEach (subnetCleanupItem api) subs >>= fun _ =>
        callGet api (.describeSecurityGroups v)
          (fun s2 => s2.securityGroups.filter (fun g => decide (g.vpcId = v))) >>=
        fun sgs => forEach (sgCleanupItem api) sgs >>= fun _ =>
        callUpd api (.deleteVpc v) (deleteVpcUpd v)) :=
    fun rts => stepPhased_bind (stepPhased_forEach (stepPhased_rtItem api) rts)
      (fun _ => c5) (by omega) (by omega) (by omega)
  exact stepPhased_bind (stepPhased_callGet api _ _
      (show phaseOf (Ev.describeRouteTables v) = some 2 from rfl) le_rfl le_rfl)
    c4 (by omega) (by omega) (by omega)

/-- All calls of `cleanup_specific_vpc` carry phases 1-6 and the phases
along the trace never decrease, whatever calls fail. -/
theorem stepPhased_cleanup (api : Api) (v : RId) :
    StepPhased 1 6 (cleanup_specific_vpc api v) := by
  have c2 : ∀ natGws : List NatGw, StepPhased 1 6
      (forEach (natGatewayCleanupItem api) natGws >>= fun _ =>
        callGet api (.describeRouteTables v)
          (fun s2 => s2.routeTables.filter (fun rt => decide (rt.vpcId = v))) >>=
        fun rts => forEach (routeTableCleanupItem api) rts >>= fun _ =>
        callGet api (.describeInternetGateways v)
          (fun s2 => s2.internetGateways.filter (fun i => decide (v ∈ i.attachedVpcIds))) >>=
        fun igws => forEach (igwCleanupItem api v) igws >>= fun _ =>
        callGet api (.describeSubnets v)
          (fun s2 => s2.subnets.filter (fun sn => decide (sn.vpcId = v))) >>=
        fun subs => forEach (subnetCleanupItem api) subs >>= fun _ =>
        callGet api (.describeSecurityGroups v)
          (fun s2 => s2.securityGroups.filter (fun g => decide (g.vpcId = v))) >>=
        fun sgs => forEach (sgCleanupItem api) sgs >>= fun _ =>
        callUpd api (.deleteVpc v) (deleteVpcUpd v)) :=
    fun natGws => stepPhased_bind (stepPhased_forEach (stepPhased_natItem api) natGws)
      (fun _ => stepPhased_cleanup_steps2to6 api v) (by omega) (by omega) (by omega)
  have c1 : StepPhased 1 6 (callGet api (.describeNatGateways v)
        (fun s2 => s2.natGateways.filter (fun g => decide (g.vpcId = v))) >>=
      fun natGws => forEach (natGatewayCleanupItem api) natGws >>= fun _ =>
        callGet api (.describeRouteTables v)
          (fun s2 => s2.routeTables.filter (fun rt => decide (rt.vpcId = v))) >>=
        fun rts => forEach (routeTableCleanupItem api) rts >>= fun _ =>
        callGet api (.describeInternetGateways v)
          (fun s2 => s2.internetGateways.filter (fun i => decide (v ∈ i.attachedVpcIds))) >>=
        fun igws => forEach (igwCleanupItem api v) igws >>= fun _ =>
        callGet api (.describeSubnets v)
          (fun s2 => s2.subnets.filter (fun sn => decide (sn.vpcId = v))) >>=
        fun subs => forEach (subnetCleanupItem api) subs >>= fun _ =>
        callGet api (.describeSecurityGroups v)
          (fun s2 => s2.securityGroups.filter (fun g => decide (g.vpcId = v))) >>=
        fun sgs => forEach (sgCleanupItem api) sgs >>= fun _ =>
        callUpd api (.deleteVpc v) (deleteVpcUpd v)) :=
    stepPhased_bind (stepPhased_callGet api _ _
        (show phaseOf (Ev.describeNatGateways v) = some 1 from rfl) le_rfl le_rfl)
      c2 (by omega) (by omega) (by omega)
  rw [cleanup_specific_vpc]
  exact stepPhased_tryCatch_logErr c1

/-- C1: `cleanup_specific_vpc` deletes a VPC's resources in the fixed
six-step order.  First conjunct: when no provider call fails, the trace
is exactly `cleanupTrace` — step 1 (NAT gateways: delete, wait, then
release the recorded Elastic IPs, skipping gateways already
deleted/deleting), step 2 (non-main route tables, each disassociated
from its subnets before deletion), step 3 (internet gateways, each
detached before deletion), step 4 (subnets), step 5 (non-default
security groups), step 6 (the VPC itself).  Second conjunct: for every
failure pattern, the phases of the issued calls are non-decreasing along
the trace, so no step starts before the previous step's loop has
finished. -/
theorem cleanup_specific_vpc_six_step_order (api : Api) (v : RId) (s : CloudState) :
    ((∀ e, api.fail e = false) →
      ∃ sEnd, cleanup_specific_vpc api v s = (.ok (), cleanupTrace v s, sEnd)) ∧
    List.Pairwise (fun a b => a ≤ b)
      (((cleanup_specific_vpc api v s).2.1).filterMap phaseOf) :=
  ⟨fun hfail => run_cleanup_specific_nofail hfail v s,
   ((stepPhased_cleanup api v) s).2⟩

/-- A provider environment in which no call fails. -/
def apiNoFail : Api :=
  { fail := fun _ => false, availabilityZones := ["us-east-1a", "us-east-1b"] }

/-- A small concrete cloud state: one VPC (id 7) with one NAT gateway
holding one Elastic IP, one route table, one internet gateway, one
subnet, one custom and one default security group. -/
def stExample : CloudState :=
  { ctr := 100
    vpcs := [{ vpcId := 7, isDefault := false, tagProject := some "dev",
               tagCreatedBy := some "VPCInstanceCreator" }]
    subnets := [{ subnetId := 3, vpcId := 7 }]
    natGateways := [{ natGatewayId := 1, vpcId := 7, state := "available",
                      natGatewayAddresses := [some 4] }]
    routeTables := [{ routeTableId := 2, vpcId := 7,
                      associations := [{ main := false, subnetId := some 3,
                                         routeTableAssociationId := 9 }] }]
    internetGateways := [{ internetGatewayId := 5, attachedVpcIds := [7] }]
    securityGroups := [{ groupId := 6, groupName := "app-sg", vpcId := 7 },
                       { groupId := 8, groupName := "default", vpcId := 7 }]
    dbSubnetGroups := []
    dbInstances := [] }

/-- Closed witness for `cleanup_specific_vpc_six_step_order` at a
concrete no-failure environment and state. -/
theorem cleanup_specific_vpc_six_step_order_witness :
    ∃ sEnd, cleanup_specific_vpc apiNoFail 7 stExample =
      (.ok (), cleanupTrace 7 stExample, sEnd) :=
  (cleanup_specific_vpc_six_step_order apiNoFail 7 stExample).1 (fun _ => rfl)

/-! ### `TraceAll`: properties of every event a step can emit -/

def TraceAll (P : Ev → Prop) {α} (p : Step α) : Prop :=
  ∀ s, ∀ e ∈ (p s).2.1, P e

theorem traceAll_pure {P : Ev → Prop} {α} (a : α) :
    TraceAll P (Pure.pure a : Step α) := by
  intro s e he
  simp [run_pure] at he

theorem traceAll_throw {P : Ev → Prop} {α} (er : Err) :
    TraceAll P (Step.throw er : Step α) := by
  intro s e he
  simp [Step.throw] at he

theorem traceAll_logErr {P : Ev → Prop} {msg : String} (h : P (.printErr msg)) :
    TraceAll P (logErr msg) := by
  intro s e he
  simp only [run_logErr, List.mem_singleton] at he
  rw [he]; exact h

theorem traceAll_call {P : Ev → Prop} {api : Api} {ev : Ev} (h : P ev) :
    TraceAll P (call api ev) := by
  intro s e he
  rw [trace_call, List.mem_singleton] at he
  rw [he]; exact h

theorem traceAll_callUpd {P : Ev → Prop} {api : Api} {ev : Ev}
    {upd : CloudState → CloudState} (h : P ev) : TraceAll P (callUpd api ev upd) := by
  intro s e he
  rw [trace_callUpd, List.mem_singleton] at he
  rw [he]; exact h

theorem traceAll_callGet {P : Ev → Prop} {α} {api : Api} {ev : Ev}
    {g : CloudState → α} (h : P ev) : TraceAll P (callGet api ev g) := by
  intro s e he
  rw [trace_callGet, List.mem_singleton] at he
  rw [he]; exact h

theorem traceAll_bind {P : Ev → Prop} {α β} {x : Step α} {f : α → Step β}
    (hx : TraceAll P x) (hf : ∀ a, TraceAll P (f a)) : TraceAll P (x >>= f) := by
  intro s e he
  rcases hxs : x s with ⟨r, t1, s1⟩
  have hx1 := hx s
  rw [hxs] at hx1
  cases r with
  | error er =>
    rw [run_bind_error hxs] at he
    exact hx1 e he
  | ok a =>
    rcases hfs : f a s1 with ⟨r2, t2, s2⟩
    rw [run_bind_ok hxs hfs] at he
    rcases List.mem_append.1 he with h | h
    · exact hx1 e h
    · have hf1 := hf a s1
      rw [hfs] at hf1
      exact hf1 e h

theorem traceAll_tryCatch {P : Ev → Prop} {α} {p : Step α} {h : Err → Step α}
    (hp : TraceAll P p) (hh : ∀ e2, TraceAll P (h e2)) :
    TraceAll P (Step.tryCatch p h) := by
  intro s e he
  rcases hps : p s with ⟨r, t1, s1⟩
  have hp1 := hp s
  rw [hps] at hp1
  cases r with
  | ok a =>
    rw [run_tryCatch_ok hps] at he
    exact hp1 e he
  | error er =>
    rcases hhs : h er s1 with ⟨r2, t2, s2⟩
    rw [run_tryCatch_error hps hhs] at he
    rcases List.mem_append.1 he with h2 | h2
    · exact hp1 e h2
    · have hh1 := hh er s1
      rw [hhs] at hh1
      exact hh1 e h2

theorem traceAll_forEach {P : Ev → Prop} {α} {f : α → Step Unit} {l : List α}
    (hl : ∀ a ∈ l, TraceAll P (f a)) : TraceAll P (forEach f l) := by
  induction l with
  | nil => exact traceAll_pure ()
  | cons a l ih =>
    show TraceAll P (Step.bind (f a) (fun _ => forEach f l))
    exact traceAll_bind (hl a (List.mem_cons_self a l))
      (fun _ => ih (fun b hb => hl b (List.mem_cons.2 (Or.inr hb))))

theorem not_mem_of_traceAll {x : Ev} {α} {p : Step α}
    (h : TraceAll (fun e => e ≠ x) p) (s : CloudState) : x ∉ (p s).2.1 :=
  fun hmem => h s x hmem rfl

theorem not_mem_of_stepPhased {lo hi : Nat} {α} {p : Step α}
    (h : StepPhased lo hi p) {x : Ev} {k : Nat} (hx : phaseOf x = some k)
    (hk : k < lo) : ∀ s, x ∉ (p s).2.1 := by
  intro s hmem
  rcases (h s).1 x hmem with ⟨m, hm⟩ | ⟨k2, hk2, ha, hb⟩
  · rw [hm] at hx; simp [phaseOf] at hx
  · rw [hx] at hk2
    injection hk2 with hk2
    omega

/-! ### C5: Elastic IPs are released only after the NAT gateway deletion
wait -/

/-- Within one NAT-gateway cleanup item, a release of allocation id `a`
can only appear after the wait for that item's gateway; and if `a` does
not belong to the item's gateway, no release of `a` appears at all. -/
theorem firstBefore_natItem (api : Api) {g g2 : NatGw} {a : RId}
    (hcase : a ∈ g2.allocIds → g2.natGatewayId = g.natGatewayId) (s2 : CloudState) :
    FirstBefore (.waitNatGatewayDeleted g.natGatewayId) (.releaseAddress a)
      ((natGatewayCleanupItem api g2 s2).2.1) := by
  rw [natGatewayCleanupItem]
  split
  · exact firstBefore_of_not_mem (by simp [run_pure, Step.pure])
  · apply firstBefore_run_tryCatch
    · by_cases hdel : api.fail (.deleteNatGateway g2.natGatewayId)
      · have hrun : (callUpd api (.deleteNatGateway g2.natGatewayId)
            (deleteNatGatewayUpd g2.natGatewayId) >>= fun _ =>
            call api (.waitNatGatewayDeleted g2.natGatewayId) >>= fun _ =>
            forEach (releaseAddressItem api) g2.allocIds) s2 =
            (.error (.clientError (.deleteNatGateway g2.natGatewayId)),
              [.deleteNatGateway g2.natGatewayId], s2) :=
          run_bind_error (by rw [callUpd, if_pos hdel])
        rw [hrun]
        exact firstBefore_of_not_mem (by simp)
      · have hcallUpd : callUpd api (.deleteNatGateway g2.natGatewayId)
            (deleteNatGatewayUpd g2.natGatewayId) s2 =
            (.ok (), [.deleteNatGateway g2.natGatewayId],
              deleteNatGatewayUpd g2.natGatewayId s2) := by
          rw [callUpd, if_neg (by simp [hdel])]
        by_cases hwait : api.fail (.waitNatGatewayDeleted g2.natGatewayId)
        · have hrun : (callUpd api (.deleteNatGateway g2.natGatewayId)
              (deleteNatGatewayUpd g2.natGatewayId) >>= fun _ =>
              call api (.waitNatGatewayDeleted g2.natGatewayId) >>= fun _ =>
              forEach (releaseAddressItem api) g2.allocIds) s2 =
              (.error (.clientError (.waitNatGatewayDeleted g2.natGatewayId)),
                [.deleteNatGateway g2.natGatewayId] ++
                  [.waitNatGatewayDeleted g2.natGatewayId],
                deleteNatGatewayUpd g2.natGatewayId s2) :=
            run_bind_ok hcallUpd (run_bind_error (by rw [call, if_pos hwait]))
          rw [hrun]
          exact firstBefore_of_not_mem (by simp)
        · have hcall : call api (.waitNatGatewayDeleted g2.natGatewayId)
              (deleteNatGatewayUpd g2.natGatewayId s2) =
              (.ok (), [.waitNatGatewayDeleted g2.natGatewayId],
                deleteNatGatewayUpd g2.natGatewayId s2) := by
            rw [call, if_neg (by simp [hwait])]
          rcases hfor : forEach (releaseAddressItem api) g2.allocIds
              (deleteNatGatewayUpd g2.natGatewayId s2) with ⟨r3, t3, s3⟩
          have hrun : (callUpd api (.deleteNatGateway g2.natGatewayId)
              (deleteNatGatewayUpd g2.natGatewayId) >>= fun _ =>
              call api (.waitNatGatewayDeleted g2.natGatewayId) >>= fun _ =>
              forEach (releaseAddressItem api) g2.allocIds) s2 =
              (r3, [.deleteNatGateway g2.natGatewayId] ++
                ([.waitNatGatewayDeleted g2.natGatewayId] ++ t3), s3) :=
            run_bind_ok hcallUpd (run_bind_ok hcall hfor)
          rw [hrun]
          by_cases hmem : a ∈ g2.allocIds
          · have hw := hcase hmem
            rw [show [Ev.deleteNatGateway g2.natGatewayId] ++
                ([Ev.waitNatGatewayDeleted g2.natGatewayId] ++ t3) =
                ([Ev.deleteNatGateway g2.natGatewayId] ++
                  [Ev.waitNatGatewayDeleted g2.natGatewayId]) ++ t3 from
              (List.append_assoc _ _ _).symm]
            apply firstBefore_append_left
            · simp
            · simp [hw]
          · have hrel : ∀ b ∈ g2.allocIds,
                TraceAll (fun e => e ≠ .releaseAddress a) (releaseAddressItem api b) := by
              intro b hb
              rw [releaseAddressItem]
              apply traceAll_tryCatch
              · exact traceAll_call (by simp; intro hba; rw [hba] at hb; exact hmem hb)
              · intro e2
                exact traceAll_logErr (by simp)
            have hnotmem : Ev.releaseAddress a ∉ t3 := by
              have := not_mem_of_traceAll (traceAll_forEach hrel)
                (deleteNatGatewayUpd g2.natGatewayId s2)
              rw [hfor] at this
              exact this
            apply firstBefore_of_not_mem
            simp only [List.mem_append, List.mem_singleton]
            rintro (h | h | h)
            · cases h
            · cases h
            · exact hnotmem h
    · intro e t1 s1 _
      exact firstBefore_of_not_mem (by simp [run_logErr])

/-- C5: in `cleanup_specific_vpc`, for every NAT gateway `g` of the VPC
and every allocation id `a` recorded for `g` (assuming, as AWS
guarantees, that an allocation id belongs to only one NAT gateway of the
VPC), `release_address(a)` is never issued before the wait for `g`'s
deletion: any prefix of the call trace containing the release already
contains the wait — under every failure pattern. -/
theorem release_after_nat_gateway_wait (api : Api) (v : RId) (s : CloudState)
    (g : NatGw) (a : RId) (_hg : g ∈ s.natGateways) (_hgv : g.vpcId = v)
    (_ha : a ∈ g.allocIds)
    (hdisj : ∀ g2 ∈ s.natGateways, g2.vpcId = v → a ∈ g2.allocIds →
      g2.natGatewayId = g.natGatewayId) :
    FirstBefore (.waitNatGatewayDeleted g.natGatewayId) (.releaseAddress a)
      ((cleanup_specific_vpc api v s).2.1) := by
  rw [cleanup_specific_vpc]
  apply firstBefore_run_tryCatch
  · apply firstBefore_run_bind
    · exact firstBefore_of_not_mem (by rw [trace_callGet]; simp)
    · intro natGws t1 s1 hcg
      have hok : ¬ api.fail (.describeNatGateways v) := by
        intro hf
        rw [callGet, if_pos hf] at hcg
        cases hcg
      rw [callGet, if_neg (by simp [hok])] at hcg
      injection hcg with h1 h2
      injection h2 with h2a h2b
      injection h1 with h1
      apply firstBefore_run_bind
      · apply firstBefore_run_forEach
        intro g2 hg2 s3
        have hg2m : g2 ∈ s.natGateways ∧ g2.vpcId = v := by
          rw [← h1] at hg2
          have := List.mem_filter.1 hg2
          exact ⟨this.1, by simpa using this.2⟩
        exact firstBefore_natItem api (fun hmem => hdisj g2 hg2m.1 hg2m.2 hmem) s3
      · intro u t2 s4 _
        apply firstBefore_of_not_mem
        exact not_mem_of_stepPhased (stepPhased_cleanup_steps2to6 api v)
          (show phaseOf (.releaseAddress a) = some 1 from rfl) (by omega) s4
  · intro e t1 s1 _
    exact firstBefore_of_not_mem (by simp [run_logErr])

/-- Closed witness for `release_after_nat_gateway_wait` on the example
state: gateway 1 of VPC 7 holds allocation id 4. -/
theorem release_after_nat_gateway_wait_witness :
    FirstBefore (.waitNatGatewayDeleted 1) (.releaseAddress 4)
      ((cleanup_specific_vpc apiNoFail 7 stExample).2.1) :=
  release_after_nat_gateway_wait apiNoFail 7 stExample
    { natGatewayId := 1, vpcId := 7, state := "available",
      natGatewayAddresses := [some 4] } 4
    (by decide) (by decide) (by decide) (by decide)

/-! ### C3: idempotent teardown

`StepOk p`: `p` always returns normally.  `PreservesDb p`: `p` never
changes the RDS-side state (subnet groups, instances). -/

def StepOk (p : Step Unit) : Prop := ∀ s, (p s).1 = .ok ()

theorem stepOk_pure : StepOk (Pure.pure ()) := fun _ => rfl

theorem stepOk_logErr (msg : String) : StepOk (logErr msg) := fun _ => rfl

theorem stepOk_tryCatch {p : Step Unit} {h : Err → Step Unit}
    (hh : ∀ e, StepOk (h e)) : StepOk (Step.tryCatch p h) := by
  intro s
  rcases hps : p s with ⟨r, t, s1⟩
  cases r with
  | ok a =>
    cases a
    rw [run_tryCatch_ok hps]
  | error e =>
    rcases hhs : h e s1 with ⟨r2, t2, s2⟩
    rw [run_tryCatch_error hps hhs]
    have := hh e s1
    rw [hhs] at this
    exact this

theorem stepOk_bind {x : Step Unit} {f : Unit → Step Unit}
    (hx : StepOk x) (hf : ∀ a, StepOk (f a)) : StepOk (x >>= f) := by
  intro s
  rcases hxs : x s with ⟨r, t, s1⟩
  have hx1 := hx s
  rw [hxs] at hx1
  cases r with
  | error e => cases hx1
  | ok a =>
    rcases hfs : f a s1 with ⟨r2, t2, s2⟩
    rw [run_bind_ok hxs hfs]
    have := hf a s1
    rw [hfs] at this
    exact this

/-- Running an always-succeeding step yields some trace and state with an
`ok` result. -/
theorem stepOk_run {p : Step Unit} (h : StepOk p) (s : CloudState) :
    ∃ t s2, p s = (.ok (), t, s2) := by
  rcases hps : p s with ⟨r, t, s2⟩
  have h2 := h s
  rw [hps] at h2
  dsimp only at h2
  exact ⟨t, s2, by rw [h2]⟩

def PreservesDb {α} (p : Step α) : Prop :=
  ∀ s, ((p s).2.2).dbSubnetGroups = s.dbSubnetGroups ∧
    ((p s).2.2).dbInstances = s.dbInstances

theorem preservesDb_pure {α} (a : α) : PreservesDb (Pure.pure a : Step α) :=
  fun _ => ⟨rfl, rfl⟩

theorem preservesDb_throw {α} (e : Err) : PreservesDb (Step.throw e : Step α) :=
  fun _ => ⟨rfl, rfl⟩

theorem preservesDb_logErr (msg : String) : PreservesDb (logErr msg) :=
  fun _ => ⟨rfl, rfl⟩

theorem preservesDb_call (api : Api) (ev : Ev) : PreservesDb (call api ev) := by
  intro s
  rw [call]
  split <;> exact ⟨rfl, rfl⟩

theorem preservesDb_callGet {α} (api : Api) (ev : Ev) (g : CloudState → α) :
    PreservesDb (callGet api ev g) := by
  intro s
  rw [callGet]
  split <;> exact ⟨rfl, rfl⟩

theorem preservesDb_callUpd (api : Api) (ev : Ev) {upd : CloudState → CloudState}
    (h : ∀ s, (upd s).dbSubnetGroups = s.dbSubnetGroups ∧
      (upd s).dbInstances = s.dbInstances) : PreservesDb (callUpd api ev upd) := by
  intro s
  rw [callUpd]
  split
  · exact ⟨rfl, rfl⟩
  · exact h s

theorem preservesDb_bind {α β} {x : Step α} {f : α → Step β}
    (hx : PreservesDb x) (hf : ∀ a, PreservesDb (f a)) : PreservesDb (x >>= f) := by
  intro s
  rcases hxs : x s with ⟨r, t, s1⟩
  have hx1 := hx s
  rw [hxs] at hx1
  cases r with
  | error e =>
    rw [run_bind_error hxs]
    exact hx1
  | ok a =>
    rcases hfs : f a s1 with ⟨r2, t2, s2⟩
    rw [run_bind_ok hxs hfs]
    have hf1 := hf a s1
    rw [hfs] at hf1
    exact ⟨hf1.1.trans hx1.1, hf1.2.trans hx1.2⟩

theorem preservesDb_tryCatch {α} {p : Step α} {h : Err → Step α}
    (hp : PreservesDb p) (hh : ∀ e, PreservesDb (h e)) :
    PreservesDb (Step.tryCatch p h) := by
  intro s
  rcases hps : p s with ⟨r, t, s1⟩
  have hp1 := hp s
  rw [hps] at hp1
  cases r with
  | ok a =>
    rw [run_tryCatch_ok hps]
    exact hp1
  | error e =>
    rcases hhs : h e s1 with ⟨r2, t2, s2⟩
    rw [run_tryCatch_error hps hhs]
    have hh1 := hh e s1
    rw [hhs] at hh1
    exact ⟨hh1.1.trans hp1.1, hh1.2.trans hp1.2⟩

theorem preservesDb_forEach {α} {f : α → Step Unit}
    (hf : ∀ a, PreservesDb (f a)) (l : List α) : PreservesDb (forEach f l) := by
  induction l with
  | nil => exact preservesDb_pure ()
  | cons a l ih =>
    show PreservesDb (Step.bind (f a) (fun _ => forEach f l))
    exact preservesDb_bind (hf a) (fun _ => ih)

theorem preservesDb_natItem (api : Api) (g : NatGw) :
    PreservesDb (natGatewayCleanupItem api g) := by
  rw [natGatewayCleanupItem]
  split
  · exact preservesDb_pure ()
  · apply preservesDb_tryCatch
    · apply preservesDb_bind (preservesDb_callUpd api _
        (fun s => by simp [deleteNatGatewayUpd]))
      intro u
      apply preservesDb_bind (preservesDb_call api _)
      intro u2
      apply preservesDb_forEach
      intro a
      rw [releaseAddressItem]
      exact preservesDb_tryCatch (preservesDb_call api _)
        (fun e => preservesDb_logErr _)
    · intro e; exact preservesDb_logErr _

theorem preservesDb_rtItem (api : Api) (rt : RouteTable) :
    PreservesDb (routeTableCleanupItem api rt) := by
  rw [routeTableCleanupItem]
  split
  · exact preservesDb_pure ()
  · apply preservesDb_tryCatch
    · apply preservesDb_bind
      · apply preservesDb_forEach
        intro a
        rw [disassocItem]
        split
        · exact preservesDb_pure ()
        · exact preservesDb_tryCatch (preservesDb_callUpd api _
            (fun s => by simp [disassocUpd])) (fun e => preservesDb_logErr _)
      · intro u
        exact preservesDb_callUpd api _ (fun s => by simp [deleteRouteTableUpd])
    · intro e; exact preservesDb_logErr _

theorem preservesDb_cleanup_specific (api : Api) (v : RId) :
    PreservesDb (cleanup_specific_vpc api v) := by
  rw [cleanup_specific_vpc]
  apply preservesDb_tryCatch
  · apply preservesDb_bind (preservesDb_callGet api _ _)
    intro natGws
    apply preservesDb_bind (preservesDb_forEach (preservesDb_natItem api) natGws)
    intro u1
    apply preservesDb_bind (preservesDb_callGet api _ _)
    intro rts
    apply preservesDb_bind (preservesDb_forEach (preservesDb_rtItem api) rts)
    intro u2
    apply preservesDb_bind (preservesDb_callGet api _ _)
    intro igws
    apply preservesDb_bind (preservesDb_forEach (fun i => by
      rw [igwCleanupItem]
      exact preservesDb_tryCatch
        (preservesDb_bind (preservesDb_callUpd api _ (fun s => by simp [detachIgwUpd]))
          (fun u => preservesDb_callUpd api _ (fun s => by simp [deleteIgwUpd])))
        (fun e => preservesDb_logErr _)) igws)
    intro u3
    apply preservesDb_bind (preservesDb_callGet api _ _)
    intro subs
    apply preservesDb_bind (preservesDb_forEach (fun sn => by
      rw [subnetCleanupItem]
      exact preservesDb_tryCatch (preservesDb_callUpd api _
        (fun s => by simp [deleteSubnetUpd])) (fun e => preservesDb_logErr _)) subs)
    intro u4
    apply preservesDb_bind (preservesDb_callGet api _ _)
    intro sgs
    apply preservesDb_bind (preservesDb_forEach (fun sg => by
      rw [sgCleanupItem]
      split
      · exact preservesDb_pure ()
      · exact preservesDb_tryCatch (preservesDb_callUpd api _
          (fun s => by simp [deleteSgUpd])) (fun e => preservesDb_logErr _)) sgs)
    intro u5
    exact preservesDb_callUpd api _ (fun s => by simp [deleteVpcUpd])
  · intro e; exact preservesDb_logErr _

theorem stepOk_cleanup_specific (api : Api) (v : RId) :
    StepOk (cleanup_specific_vpc api v) := by
  rw [cleanup_specific_vpc]
  exact stepOk_tryCatch (fun e => stepOk_logErr _)

/-- No call of `cleanup_specific_vpc` is an RDS-side deletion. -/
theorem cleanup_specific_no_db_events (api : Api) (v : RId) :
    TraceAll (fun e => (∀ n, e ≠ .deleteDbSubnetGroup n) ∧
      (∀ i, e ≠ .deleteDbInstance i)) (cleanup_specific_vpc api v) := by
  intro s e he
  rcases ((stepPhased_cleanup api v) s).1 e he with ⟨m, hm⟩ | ⟨k, hk, _, _⟩
  · subst hm
    exact ⟨fun n h => Ev.noConfusion h, fun i h => Ev.noConfusion h⟩
  · constructor <;> intro x h <;> (rw [h] at hk; simp [phaseOf] at hk)

theorem vpcPassTagged_facts (api : Api) (iid : String) :
    StepOk (vpcPassTagged api iid) ∧ PreservesDb (vpcPassTagged api iid) ∧
    TraceAll (fun e => (∀ n, e ≠ .deleteDbSubnetGroup n) ∧
      (∀ i, e ≠ .deleteDbInstance i)) (vpcPassTagged api iid) := by
  rw [vpcPassTagged]
  refine ⟨stepOk_tryCatch (fun e => stepOk_logErr _), ?_, ?_⟩
  · apply preservesDb_tryCatch
    · apply preservesDb_bind (preservesDb_callGet api _ _)
      intro matching
      exact preservesDb_forEach (fun v => preservesDb_cleanup_specific api v.vpcId) matching
    · intro e; exact preservesDb_logErr _
  · apply traceAll_tryCatch
    · apply traceAll_bind
      · exact traceAll_callGet ⟨fun n h => Ev.noConfusion h, fun i h => Ev.noConfusion h⟩
      · intro matching
        exact traceAll_forEach (fun v _ => cleanup_specific_no_db_events api v.vpcId)
    · intro e
      exact traceAll_logErr ⟨fun n h => Ev.noConfusion h, fun i h => Ev.noConfusion h⟩

theorem vpcPassFallback_facts (api : Api) :
    StepOk (vpcPassFallback api) ∧ PreservesDb (vpcPassFallback api) ∧
    TraceAll (fun e => (∀ n, e ≠ .deleteDbSubnetGroup n) ∧
      (∀ i, e ≠ .deleteDbInstance i)) (vpcPassFallback api) := by
  rw [vpcPassFallback]
  refine ⟨stepOk_tryCatch (fun e => stepOk_logErr _), ?_, ?_⟩
  · apply preservesDb_tryCatch
    · apply preservesDb_bind (preservesDb_callGet api _ _)
      intro allVpcs
      apply preservesDb_forEach
      intro v
      split
      · exact preservesDb_pure ()
      · exact preservesDb_cleanup_specific api v.vpcId
    · intro e; exact preservesDb_logErr _
  · apply traceAll_tryCatch
    · apply traceAll_bind
      · exact traceAll_callGet ⟨fun n h => Ev.noConfusion h, fun i h => Ev.noConfusion h⟩
      · intro allVpcs
        apply traceAll_forEach
        intro v _
        split
        · exact traceAll_pure ()
        · exact cleanup_specific_no_db_events api v.vpcId
    · intro e
      exact traceAll_logErr ⟨fun n h => Ev.noConfusion h, fun i h => Ev.noConfusion h⟩

theorem run_deleteSubnetGroupSegment_present {api : Api} (hfail : ∀ e, api.fail e = false)
    (name : String) (s : CloudState) (hmem : name ∈ s.dbSubnetGroups) :
    deleteSubnetGroupSegment api name s =
      (.ok (), [.describeDbSubnetGroups name, .deleteDbSubnetGroup name],
        deleteDbSubnetGroupUpd name s) := by
  rw [deleteSubnetGroupSegment]
  have hdesc : describeDbSubnetGroupsCall api name s =
      (.ok (), [.describeDbSubnetGroups name], s) := by
    rw [describeDbSubnetGroupsCall, if_neg (by simp [hfail]), if_pos hmem]
  exact run_tryCatch_ok (run_bind_ok hdesc (run_callUpd_nofail hfail _ _ s))

theorem run_deleteSubnetGroupSegment_absent {api : Api} (hfail : ∀ e, api.fail e = false)
    (name : String) (s : CloudState) (habs : name ∉ s.dbSubnetGroups) :
    deleteSubnetGroupSegment api name s =
      (.ok (), [.describeDbSubnetGroups name, .printErr "Subnet group does not exist"], s) := by
  rw [deleteSubnetGroupSegment]
  have hdesc : describeDbSubnetGroupsCall api name s =
      (.error .dbSubnetGroupNotFound, [.describeDbSubnetGroups name], s) := by
    rw [describeDbSubnetGroupsCall, if_neg (by simp [hfail]), if_neg habs]
  exact run_tryCatch_error (run_bind_error hdesc) (run_logErr _ s)

/-- Combined spec of the subnet-group deletion segment: it succeeds, the
subnet group is gone afterwards, RDS instances are untouched, no delete
call is issued when the group was absent, and no RDS-instance delete is
ever issued. -/
theorem run_deleteSubnetGroupSegment_spec {api : Api} (hfail : ∀ e, api.fail e = false)
    (name : String) (s : CloudState) :
    ∃ tSeg s1, deleteSubnetGroupSegment api name s = (.ok (), tSeg, s1) ∧
      name ∉ s1.dbSubnetGroups ∧ s1.dbInstances = s.dbInstances ∧
      (name ∉ s.dbSubnetGroups → Ev.deleteDbSubnetGroup name ∉ tSeg) ∧
      (∀ i, Ev.deleteDbInstance i ∉ tSeg) := by
  by_cases hmem : name ∈ s.dbSubnetGroups
  · refine ⟨_, _, run_deleteSubnetGroupSegment_present hfail name s hmem, ?_, ?_, ?_, ?_⟩
    · simp [deleteDbSubnetGroupUpd, List.mem_filter]
    · simp [deleteDbSubnetGroupUpd]
    · intro habs; exact absurd hmem habs
    · intro i; simp
  · refine ⟨_, _, run_deleteSubnetGroupSegment_absent hfail name s hmem, hmem, rfl, ?_, ?_⟩
    · intro _; simp
    · intro i; simp

theorem run_deleteRdsInstanceSegment_present {api : Api} (hfail : ∀ e, api.fail e = false)
    (dbId : String) (s : CloudState) (hmem : dbId ∈ s.dbInstances) :
    deleteRdsInstanceSegment api dbId s =
      (.ok (), [.describeDbInstances dbId, .deleteDbInstance dbId,
        .waitDbInstanceDeleted dbId], deleteDbInstanceUpd dbId s) := by
  rw [deleteRdsInstanceSegment]
  have hdesc : describeDbInstancesCall api dbId s =
      (.ok (), [.describeDbInstances dbId], s) := by
    rw [describeDbInstancesCall, if_neg (by simp [hfail]), if_pos hmem]
  exact run_tryCatch_ok (run_bind_ok hdesc
    (run_bind_ok (run_callUpd_nofail hfail _ _ s) (run_call_nofail hfail _ _)))

theorem run_deleteRdsInstanceSegment_absent {api : Api} (hfail : ∀ e, api.fail e = false)
    (dbId : String) (s : CloudState) (habs : dbId ∉ s.dbInstances) :
    deleteRdsInstanceSegment api dbId s =
      (.ok (), [.describeDbInstances dbId, .printErr "RDS instance does not exist"], s) := by
  rw [deleteRdsInstanceSegment]
  have hdesc : describeDbInstancesCall api dbId s =
      (.error .dbInstanceNotFound, [.describeDbInstances dbId], s) := by
    rw [describeDbInstancesCall, if_neg (by simp [hfail]), if_neg habs]
  exact run_tryCatch_error (run_bind_error hdesc) (run_logErr _ s)

theorem run_deleteRdsInstanceSegment_spec {api : Api} (hfail : ∀ e, api.fail e = false)
    (dbId : String) (s : CloudState) :
    ∃ tSeg s1, deleteRdsInstanceSegment api dbId s = (.ok (), tSeg, s1) ∧
      dbId ∉ s1.dbInstances ∧ s1.dbSubnetGroups = s.dbSubnetGroups ∧
      (dbId ∉ s.dbInstances → Ev.deleteDbInstance dbId ∉ tSeg) ∧
      (∀ n, Ev.deleteDbSubnetGroup n ∉ tSeg) := by
  by_cases hmem : dbId ∈ s.dbInstances
  · refine ⟨_, _, run_deleteRdsInstanceSegment_present hfail dbId s hmem, ?_, ?_, ?_, ?_⟩
    · simp [deleteDbInstanceUpd, List.mem_filter]
    · simp [deleteDbInstanceUpd]
    · intro habs; exact absurd hmem habs
    · intro n; simp
  · refine ⟨_, _, run_deleteRdsInstanceSegment_absent hfail dbId s hmem, hmem, rfl, ?_, ?_⟩
    · intro _; simp
    · intro n; simp

/-- Full spec of `cleanup_existing_infrastructure` under no provider
failures: it returns normally; afterwards the subnet group is gone and
the RDS instances are untouched; if the subnet group was already absent,
no `delete_db_subnet_group` call is issued; and it never issues any
`delete_db_instance` call. -/
theorem cleanup_existing_spec {api : Api} (hfail : ∀ e, api.fail e = false)
    (iid : String) (s : CloudState) :
    (cleanup_existing_infrastructure api iid s).1 = .ok () ∧
    (iid ++ "-subnet-group") ∉
      ((cleanup_existing_infrastructure api iid s).2.2).dbSubnetGroups ∧
    ((cleanup_existing_infrastructure api iid s).2.2).dbInstances = s.dbInstances ∧
    ((iid ++ "-subnet-group") ∉ s.dbSubnetGroups →
      Ev.deleteDbSubnetGroup (iid ++ "-subnet-group") ∉
        (cleanup_existing_infrastructure api iid s).2.1) ∧
    (∀ i, Ev.deleteDbInstance i ∉ (cleanup_existing_infrastructure api iid s).2.1) := by
  obtain ⟨tSeg, s1, hseg, h1, h2, h3, h4⟩ :=
    run_deleteSubnetGroupSegment_spec hfail (iid ++ "-subnet-group") s
  obtain ⟨okT, dbT, trT⟩ := vpcPassTagged_facts api iid
  obtain ⟨okF, dbF, trF⟩ := vpcPassFallback_facts api
  obtain ⟨t2, s2, hT⟩ := stepOk_run okT s1
  obtain ⟨t3, s3, hF⟩ := stepOk_run okF s2
  have hrun : cleanup_existing_infrastructure api iid s = (.ok (), tSeg ++ (t2 ++ t3), s3) := by
    rw [cleanup_existing_infrastructure]
    exact run_bind_ok hseg (run_bind_ok hT hF)
  rw [hrun]
  have hdb2 : s2.dbSubnetGroups = s1.dbSubnetGroups ∧ s2.dbInstances = s1.dbInstances := by
    have := dbT s1
    rw [hT] at this
    exact this
  have hdb3 : s3.dbSubnetGroups = s2.dbSubnetGroups ∧ s3.dbInstances = s2.dbInstances := by
    have := dbF s2
    rw [hF] at this
    exact this
  refine ⟨rfl, ?_, ?_, ?_, ?_⟩
  · show _ ∉ s3.dbSubnetGroups
    rw [hdb3.1, hdb2.1]
    exact h1
  · show s3.dbInstances = _
    rw [hdb3.2, hdb2.2, h2]
  · intro habs
    show _ ∉ tSeg ++ (t2 ++ t3)
    simp only [List.mem_append]
    rintro (h | h | h)
    · exact h3 habs h
    · have := trT s1 _ (by rw [hT]; exact h)
      exact this.1 _ rfl
    · have := trF s2 _ (by rw [hF]; exact h)
      exact this.1 _ rfl
  · intro i
    show _ ∉ tSeg ++ (t2 ++ t3)
    simp only [List.mem_append]
    rintro (h | h | h)
    · exact h4 i h
    · have := trT s1 _ (by rw [hT]; exact h)
      exact this.2 _ rfl
    · have := trF s2 _ (by rw [hF]; exact h)
      exact this.2 _ rfl

/-- Full spec of `cleanup_complete_setup` under no provider failures. -/
theorem cleanup_complete_spec {api : Api} (hfail : ∀ e, api.fail e = false)
    (dbId iid : String) (s : CloudState) :
    (cleanup_complete_setup api dbId (some iid) s).1 = .ok () ∧
    (iid ++ "-subnet-group") ∉
      ((cleanup_complete_setup api dbId (some iid) s).2.2).dbSubnetGroups ∧
    dbId ∉ ((cleanup_complete_setup api dbId (some iid) s).2.2).dbInstances ∧
    (dbId ∉ s.dbInstances →
      Ev.deleteDbInstance dbId ∉ (cleanup_complete_setup api dbId (some iid) s).2.1) ∧
    ((iid ++ "-subnet-group") ∉ s.dbSubnetGroups →
      Ev.deleteDbSubnetGroup (iid ++ "-subnet-group") ∉
        (cleanup_complete_setup api dbId (some iid) s).2.1) := by
  obtain ⟨tSeg, s1, hseg, hi1, hg1, hti, htg⟩ :=
    run_deleteRdsInstanceSegment_spec hfail dbId s
  have hspec := cleanup_existing_spec hfail iid s1
  rcases hex : cleanup_existing_infrastructure api iid s1 with ⟨r2, t2, s2⟩
  rw [hex] at hspec
  have hok : r2 = .ok () := hspec.1
  subst hok
  have hrun : cleanup_complete_setup api dbId (some iid) s = (.ok (), tSeg ++ t2, s2) := by
    rw [cleanup_complete_setup]
    exact run_bind_ok hseg hex
  rw [hrun]
  refine ⟨rfl, hspec.2.1, ?_, ?_, ?_⟩
  · show dbId ∉ s2.dbInstances
    have : s2.dbInstances = s1.dbInstances := hspec.2.2.1
    rw [this]
    exact hi1
  · intro hni
    show _ ∉ tSeg ++ t2
    simp only [List.mem_append]
    rintro (h | h)
    · exact hti hni h
    · exact hspec.2.2.2.2 dbId h
  · intro hng
    show _ ∉ tSeg ++ t2
    simp only [List.mem_append]
    rintro (h | h)
    · exact htg _ h
    · refine hspec.2.2.2.1 ?_ h
      rw [hg1]
      exact hng

/-- C3: teardown is idempotent with respect to missing resources.  With
no provider failures: (i) when the subnet group does not exist,
`cleanup_existing_infrastructure` completes normally (the
`DBSubnetGroupNotFoundFault` is caught) and issues no
`delete_db_subnet_group` call; (ii) when neither the RDS instance nor
the subnet group exists, `cleanup_complete_setup` completes normally
(the `DBInstanceNotFoundFault` is caught) and issues no delete call for
either resource; (iii) a second invocation of `cleanup_complete_setup`
immediately after a successful one returns without propagating an
exception and issues no further delete calls for those resources. -/
theorem teardown_idempotent (api : Api) (hfail : ∀ e, api.fail e = false)
    (iid dbId : String) (s : CloudState) :
    ((iid ++ "-subnet-group") ∉ s.dbSubnetGroups →
      (cleanup_existing_infrastructure api iid s).1 = .ok () ∧
      Ev.deleteDbSubnetGroup (iid ++ "-subnet-group") ∉
        (cleanup_existing_infrastructure api iid s).2.1) ∧
    (dbId ∉ s.dbInstances → (iid ++ "-subnet-group") ∉ s.dbSubnetGroups →
      (cleanup_complete_setup api dbId (some iid) s).1 = .ok () ∧
      Ev.deleteDbInstance dbId ∉ (cleanup_complete_setup api dbId (some iid) s).2.1 ∧
      Ev.deleteDbSubnetGroup (iid ++ "-subnet-group") ∉
        (cleanup_complete_setup api dbId (some iid) s).2.1) ∧
    ((cleanup_complete_setup api dbId (some iid) s).1 = .ok () ∧
      (cleanup_complete_setup api dbId (some iid)
        ((cleanup_complete_setup api dbId (some iid) s).2.2)).1 = .ok () ∧
      Ev.deleteDbInstance dbId ∉ (cleanup_complete_setup api dbId (some iid)
        ((cleanup_complete_setup api dbId (some iid) s).2.2)).2.1 ∧
      Ev.deleteDbSubnetGroup (iid ++ "-subnet-group") ∉
        (cleanup_complete_setup api dbId (some iid)
          ((cleanup_complete_setup api dbId (some iid) s).2.2)).2.1) := by
  have h1 := cleanup_existing_spec hfail iid s
  have h2 := cleanup_complete_spec hfail dbId iid s
  have h3 := cleanup_complete_spec hfail dbId iid
    ((cleanup_complete_setup api dbId (some iid) s).2.2)
  exact ⟨fun habs => ⟨h1.1, h1.2.2.2.1 habs⟩,
    fun hni hng => ⟨h2.1, h2.2.2.2.1 hni, h2.2.2.2.2 hng⟩,
    h2.1, h3.1, h3.2.2.2.1 h2.2.2.1, h3.2.2.2.2 h2.2.1⟩

/-- Closed witness for `teardown_idempotent`: part (ii) at a state with
no RDS instance and no subnet group. -/
theorem teardown_idempotent_witness :
    (cleanup_complete_setup apiNoFail "mydb" (some "dev") stExample).1 = .ok () ∧
    Ev.deleteDbInstance "mydb" ∉
      (cleanup_complete_setup apiNoFail "mydb" (some "dev") stExample).2.1 ∧
    Ev.deleteDbSubnetGroup ("dev" ++ "-subnet-group") ∉
      (cleanup_complete_setup apiNoFail "mydb" (some "dev") stExample).2.1 :=
  (teardown_idempotent apiNoFail (fun _ => rfl) "dev" "mydb" stExample).2.1
    (by decide) (by decide)

/-! ## The creation wrappers (`custom_vpc.py` lines 34-303,
`custom_rds.py` lines 13-55)

Each wrapper is a try block of direct provider calls whose except clause
prints an error message and re-raises the same exception
(`catch-log-reraise`); `reraise msg` is that except clause. -/

/-- `except Exception as e: print(msg); raise`. -/
def reraise {α} (msg : String) : Err → Step α := fun e =>
  Step.bind (logErr msg) (fun _ => Step.throw e)

def addVpcUpd (v : RId) (s : CloudState) : CloudState :=
  { s with vpcs := s.vpcs ++ [{ vpcId := v, isDefault := false, tagProject := none, tagCreatedBy := none }] }

/-- State effect of the `create_tags` call of `create_vpc`: the VPC gets
the `Project` and `CreatedBy` tags. -/
def setVpcTagsUpd (v : RId) (iid : String) (s : CloudState) : CloudState :=
  { s with vpcs := s.vpcs.map (fun w => if w.vpcId = v then { w with tagProject := some iid, tagCreatedBy := some "VPCInstanceCreator" } else w) }

def addSubnetUpd (vpcId : RId) (sid : RId) (s : CloudState) : CloudState :=
  { s with subnets := s.subnets ++ [{ subnetId := sid, vpcId := vpcId }] }

def addIgwUpd (i : RId) (s : CloudState) : CloudState :=
  { s with internetGateways := s.internetGateways ++ [{ internetGatewayId := i, attachedVpcIds := [] }] }

def attachIgwStateUpd (i : RId) (v : RId) (s : CloudState) : CloudState :=
  { s with internetGateways := s.internetGateways.map (fun w => if w.internetGatewayId = i then { w with attachedVpcIds := w.attachedVpcIds ++ [v] } else w) }

def addRouteTableUpd (vpcId : RId) (rt : RId) (s : CloudState) : CloudState :=
  { s with routeTables := s.routeTables ++ [{ routeTableId := rt, vpcId := vpcId, associations := [] }] }

def addAssociationUpd (rt : RId) (subnetId : RId) (aId : RId) (s : CloudState) : CloudState :=
  { s with routeTables := s.routeTables.map (fun w => if w.routeTableId = rt then { w with associations := w.associations ++ [{ main := false, subnetId := some subnetId, routeTableAssociationId := aId }] } else w) }

/-- The VPC a subnet belongs to (AWS resolves this server-side). -/
def vpcOfSubnet (subnetId : RId) (s : CloudState) : RId :=
  ((s.subnets.find? (fun sn => decide (sn.subnetId = subnetId))).map (fun sn => sn.vpcId)).getD 0

def addNatGatewayUpd (subnetId allocationId : RId) (n : RId) (s : CloudState) : CloudState :=
  { s with natGateways := s.natGateways ++ [{ natGatewayId := n, vpcId := vpcOfSubnet subnetId s, state := "pending", natGatewayAddresses := [some allocationId] }] }

def setNatAvailableUpd (n : RId) (s : CloudState) : CloudState :=
  { s with natGateways := s.natGateways.map (fun g => if g.natGatewayId = n then { g with state := "available" } else g) }

def addSecurityGroupUpd (name : String) (vpcId : RId) (gid : RId) (s : CloudState) : CloudState :=
  { s with securityGroups := s.securityGroups ++ [{ groupId := gid, groupName := name, vpcId := vpcId }] }

def addDbSubnetGroupUpd (name : String) (s : CloudState) : CloudState :=
  { s with dbSubnetGroups := s.dbSubnetGroups ++ [name] }

def addDbInstanceUpd (dbId : String) (s : CloudState) : CloudState :=
  { s with dbInstances := s.dbInstances ++ [dbId] }

/-- `create_vpc` (lines 34-61). -/
def create_vpc (api : Api) (cidrBlock instanceIdentifier : String) : Step RId :=
  Step.tryCatch
    (do
      let vpcId ← callFresh api (.createVpc cidrBlock) addVpcUpd
      call api (.waitVpcAvailable vpcId)
      callUpd api (.createTags vpcId) (setVpcTagsUpd vpcId instanceIdentifier)
      call api (.modifyVpcAttribute vpcId "EnableDnsSupport")
      call api (.modifyVpcAttribute vpcId "EnableDnsHostnames")
      Pure.pure vpcId)
    (reraise "Error creating VPC")

/-- `get_availability_zones` (lines 66-80): the provider response lists
the zones in state `'available'` in provider order; the method returns
the first two. -/
def get_availability_zones (api : Api) : Step (List String) :=
  Step.tryCatch
    (do
      let azNames ← callGet api .describeAvailabilityZones (fun _ => api.availabilityZones)
      Pure.pure (azNames.take 2))
    (reraise "Error getting availability zones")

/-- `create_subnet` (lines 82-108). -/
def create_subnet (api : Api) (vpcId : RId) (cidrBlock az : String) : Step RId :=
  Step.tryCatch
    (do
      let subnetId ← callFresh api (.createSubnet vpcId cidrBlock az) (addSubnetUpd vpcId)
      call api (.waitSubnetAvailable subnetId)
      call api (.createTags subnetId)
      Pure.pure subnetId)
    (reraise "Error creating subnet")

/-- `create_internet_gateway` (lines 114-141). -/
def create_internet_gateway (api : Api) (vpcId : RId) (_instanceIdentifier : String) : Step RId :=
  Step.tryCatch
    (do
      let igwId ← callFresh api .createInternetGateway addIgwUpd
      call api (.createTags igwId)
      callUpd api (.attachInternetGateway igwId vpcId) (attachIgwStateUpd igwId vpcId)
      Pure.pure igwId)
    (reraise "Error creating internet gateway")

/-- `create_route_table` (lines 143-172). -/
def create_route_table (api : Api) (vpcId subnetId : RId) (_instanceIdentifier : String)
    (_isPublic : Bool) : Step RId :=
  Step.tryCatch
    (do
      let routeTableId ← callFresh api (.createRouteTable vpcId) (addRouteTableUpd vpcId)
      call api (.createTags routeTableId)
      let _ ← callFresh api (.associateRouteTable routeTableId subnetId)
        (addAssociationUpd routeTableId subnetId)
      Pure.pure routeTableId)
    (reraise "Error creating route table")

/-- `create_route` (lines 174-195): a route to the internet gateway when
`gateway_id` is given, else to the NAT gateway when `nat_gateway_id` is
given, else nothing. -/
def create_route (api : Api) (routeTableId : RId) (destinationCidr : String)
    (gatewayId natGatewayId : Option RId) : Step Unit :=
  Step.tryCatch
    (match gatewayId with
     | some g => call api (.createRoute routeTableId destinationCidr (some g) none)
     | none =>
       match natGatewayId with
       | some n => call api (.createRoute routeTableId destinationCidr none (some n))
       | none => Pure.pure ())
    (reraise "Error creating route")

/-- `create_nat_gateway` (lines 197-240): allocate an Elastic IP, create
the NAT gateway with it, wait until available. -/
def create_nat_gateway (api : Api) (publicSubnetId : RId) (_instanceIdentifier : String) : Step RId :=
  Step.tryCatch
    (do
      let allocationId ← callFresh api .allocateAddress (fun _ s => s)
      call api (.createTags allocationId)
      let natGatewayId ← callFresh api (.createNatGateway publicSubnetId allocationId)
        (addNatGatewayUpd publicSubnetId allocationId)
      callUpd api (.waitNatGatewayAvailable natGatewayId) (setNatAvailableUpd natGatewayId)
      call api (.createTags natGatewayId)
      Pure.pure natGatewayId)
    (reraise "Error creating NAT Gateway")

/-- `create_rds_postgres_security_group` (lines 242-269). -/
def create_rds_postgres_security_group (api : Api) (vpcId : RId)
    (instanceIdentifier : String) : Step RId :=
  Step.tryCatch
    (do
      let securityGroupId ← callFresh api
        (.createSecurityGroup (instanceIdentifier ++ "-sg") vpcId)
        (addSecurityGroupUpd (instanceIdentifier ++ "-sg") vpcId)
      call api (.authorizeSecurityGroupIngress securityGroupId)
      Pure.pure securityGroupId)
    (reraise "Error creating security group")

/-- The inner `try/except DBSubnetGroupNotFoundFault` existence probe of
`create_rds_subnet_group` (lines 280-287). -/
def subnetGroupExistsCheck (api : Api) (subnetGroupName : String) : Step Bool :=
  Step.tryCatch
    (do
      describeDbSubnetGroupsCall api subnetGroupName
      Pure.pure true)
    (fun e => match e with
      | .dbSubnetGroupNotFound => Pure.pure false
      | e2 => Step.throw e2)

/-- `create_rds_subnet_group` (lines 271-303): return the existing group
if the describe succeeds; on `DBSubnetGroupNotFoundFault` create it. -/
def create_rds_subnet_group (api : Api) (subnetGroupName : String)
    (subnetIds : List RId) : Step String :=
  Step.tryCatch
    (do
      let already ← subnetGroupExistsCheck api subnetGroupName
      if already then Pure.pure subnetGroupName
      else do
        callUpd api (.createDbSubnetGroup subnetGroupName subnetIds)
          (addDbSubnetGroupUpd subnetGroupName)
        call api (.addTagsToResource subnetGroupName)
        Pure.pure subnetGroupName)
    (reraise "Error creating RDS subnet group")

/-- `create_rds_instance` (`custom_rds.py` lines 13-43). -/
def create_rds_instance (api : Api) (dbInstanceIdentifier dbSubnetGroupName : String)
    (vpcSecurityGroupIds : List RId) : Step Unit :=
  Step.tryCatch
    (callUpd api (.createDbInstance dbInstanceIdentifier dbSubnetGroupName vpcSecurityGroupIds)
      (addDbInstanceUpd dbInstanceIdentifier))
    (reraise "Error creating RDS instance")

/-- `delete_rds_instance` (`custom_rds.py` lines 45-55). -/
def delete_rds_instance (api : Api) (dbInstanceIdentifier : String) : Step Unit :=
  Step.tryCatch
    (callUpd api (.deleteDbInstance dbInstanceIdentifier)
      (deleteDbInstanceUpd dbInstanceIdentifier))
    (reraise "Error deleting RDS instance")

/-! ## The catch-log-reraise discipline of the wrapper methods -/

/-- A wrapper body is clean for a failure pattern `api` when, from every
state: it succeeds exactly when every provider call it issues succeeds,
and any exception out of it is the `ClientError` of a failing call it
issued (so the body raises nothing of its own). -/
def CleanBody (api : Api) {α} (p : Step α) : Prop :=
  ∀ s,
    ((∀ ev ∈ (p s).2.1, api.fail ev = false) → ((p s).1).isOk = true) ∧
    (((p s).1).isOk = true → ∀ ev ∈ (p s).2.1, api.fail ev = false) ∧
    (∀ e, (p s).1 = .error e →
      ∃ ev, ev ∈ (p s).2.1 ∧ e = .clientError ev ∧ api.fail ev = true)

/-- `try/except/print/raise` behaviour: the method succeeds exactly when
all its provider calls do, and on an exception the caller receives the
very `ClientError` of an issued failing call, after an error print. -/
def CatchLogReraise (api : Api) {α} (p : Step α) : Prop :=
  ∀ s,
    (((p s).1).isOk = true ↔ ∀ ev ∈ (p s).2.1, api.fail ev = false) ∧
    (∀ e, (p s).1 = .error e →
      (∃ ev, ev ∈ (p s).2.1 ∧ e = .clientError ev ∧ api.fail ev = true) ∧
      ∃ m, Ev.printErr m ∈ (p s).2.1)

theorem cleanBody_pure (api : Api) {α} (a : α) : CleanBody api (Pure.pure a) := by
  intro s
  have h : (Pure.pure a : Step α) s = (.ok a, [], s) := rfl
  rw [h]
  refine ⟨fun _ => rfl, ?_, ?_⟩
  · intro _ ev hev
    exact absurd hev (List.not_mem_nil ev)
  · intro e he
    exact Except.noConfusion he

/-- Any single provider call — fail: `ClientError` out with the event
traced; succeed: `ok` with the event traced — is a clean body. -/
theorem cleanBody_ifCall (api : Api) {α} (ev : Ev) (p : Step α)
    (hp : ∀ s, (api.fail ev = true →
        p s = (.error (.clientError ev), [ev], s)) ∧
      (api.fail ev = false → ∃ a s2, p s = (.ok a, [ev], s2))) :
    CleanBody api p := by
  intro s
  by_cases hf : api.fail ev = true
  · rw [(hp s).1 hf]
    refine ⟨?_, ?_, ?_⟩
    · intro hall
      rw [hall ev (List.mem_singleton_self ev)] at hf
      exact Bool.noConfusion hf
    · intro hok
      exact Bool.noConfusion hok
    · intro e he
      injection he with he
      exact ⟨ev, List.mem_singleton_self ev, he.symm, hf⟩
  · have hf2 : api.fail ev = false := Bool.eq_false_iff.mpr hf
    obtain ⟨a, s2, hrun⟩ := (hp s).2 hf2
    rw [hrun]
    refine ⟨fun _ => rfl, ?_, ?_⟩
    · intro _ ev2 hev2
      rw [List.mem_singleton] at hev2
      rw [hev2]
      exact hf2
    · intro e he
      exact Except.noConfusion he

theorem cleanBody_call (api : Api) (ev : Ev) : CleanBody api (call api ev) := by
  refine cleanBody_ifCall api ev _ (fun s => ⟨fun hf => ?_, fun hf => ⟨(), s, ?_⟩⟩)
  · rw [call, if_pos hf]
  · rw [call, if_neg (fun h => Bool.noConfusion (hf ▸ h))]

theorem cleanBody_callUpd (api : Api) (ev : Ev) (upd : CloudState → CloudState) :
    CleanBody api (callUpd api ev upd) := by
  refine cleanBody_ifCall api ev _ (fun s => ⟨fun hf => ?_, fun hf => ⟨(), upd s, ?_⟩⟩)
  · rw [callUpd, if_pos hf]
  · rw [callUpd, if_neg (fun h => Bool.noConfusion (hf ▸ h))]

theorem cleanBody_callGet (api : Api) {α} (ev : Ev) (g : CloudState → α) :
    CleanBody api (callGet api ev g) := by
  refine cleanBody_ifCall api ev _ (fun s => ⟨fun hf => ?_, fun hf => ⟨g s, s, ?_⟩⟩)
  · rw [callGet, if_pos hf]
  · rw [callGet, if_neg (fun h => Bool.noConfusion (hf ▸ h))]

theorem cleanBody_callFresh (api : Api) (ev : Ev) (add : RId → CloudState → CloudState) :
    CleanBody api (callFresh api ev add) := by
  refine cleanBody_ifCall api ev _
    (fun s => ⟨fun hf => ?_, fun hf => ⟨s.ctr, add s.ctr { s with ctr := s.ctr + 1 }, ?_⟩⟩)
  · rw [callFresh, if_pos hf]
  · rw [callFresh, if_neg (fun h => Bool.noConfusion (hf ▸ h))]

theorem cleanBody_bind (api : Api) {α β} {x : Step α} {f : α → Step β}
    (hx : CleanBody api x) (hf : ∀ a, CleanBody api (f a)) :
    CleanBody api (x >>= f) := by
  intro s
  rcases hxs : x s with ⟨r, t1, s1⟩
  obtain ⟨hx1, hx2, hx3⟩ := hx s
  rw [hxs] at hx1 hx2 hx3
  cases r with
  | error e =>
    rw [run_bind_error hxs]
    refine ⟨?_, ?_, ?_⟩
    · intro hall
      obtain ⟨ev, hmem, _, hfl⟩ := hx3 e rfl
      rw [hall ev hmem] at hfl
      exact Bool.noConfusion hfl
    · intro hok
      exact Bool.noConfusion hok
    · intro e2 he2
      injection he2 with he2
      rw [← he2]
      exact hx3 e rfl
  | ok a =>
    rcases hfs : f a s1 with ⟨r2, t2, s2⟩
    obtain ⟨hf1, hf2, hf3⟩ := hf a s1
    rw [hfs] at hf1 hf2 hf3
    rw [run_bind_ok hxs hfs]
    refine ⟨?_, ?_, ?_⟩
    · intro hall
      exact hf1 (fun ev hev => hall ev (List.mem_append.2 (Or.inr hev)))
    · intro hok ev hev
      rcases List.mem_append.1 hev with h2 | h2
      · exact hx2 rfl ev h2
      · exact hf2 hok ev h2
    · intro e he
      obtain ⟨ev, hmem, he2, hfl⟩ := hf3 e he
      exact ⟨ev, List.mem_append.2 (Or.inr hmem), he2, hfl⟩

/-- The existence probe of `create_rds_subnet_group` swallows only the
not-found fault (which it turns into `false`); a genuine call failure
still comes out as its `ClientError`. -/
theorem cleanBody_subnetGroupExistsCheck (api : Api) (name : String) :
    CleanBody api (subnetGroupExistsCheck api name) := by
  intro s
  rw [subnetGroupExistsCheck]
  by_cases hf : api.fail (.describeDbSubnetGroups name) = true
  · have hd : describeDbSubnetGroupsCall api name s =
        (.error (.clientError (.describeDbSubnetGroups name)),
          [.describeDbSubnetGroups name], s) := by
      rw [describeDbSubnetGroupsCall, if_pos hf]
    have hh : ((fun e => match e with
        | Err.dbSubnetGroupNotFound => (Pure.pure false : Step Bool)
        | e2 => Step.throw e2) : Err → Step Bool)
          (.clientError (.describeDbSubnetGroups name)) s =
        (.error (.clientError (.describeDbSubnetGroups name)), [], s) := rfl
    rw [run_tryCatch_error (run_bind_error hd) hh, List.append_nil]
    refine ⟨?_, ?_, ?_⟩
    · intro hall
      rw [hall _ (List.mem_singleton_self _)] at hf
      exact Bool.noConfusion hf
    · intro hok
      exact Bool.noConfusion hok
    · intro e he
      injection he with he
      exact ⟨_, List.mem_singleton_self _, he.symm, hf⟩
  · have hf2 : api.fail (.describeDbSubnetGroups name) = false := Bool.eq_false_iff.mpr hf
    by_cases hmem : name ∈ s.dbSubnetGroups
    · have hd : describeDbSubnetGroupsCall api name s =
          (.ok (), [.describeDbSubnetGroups name], s) := by
        rw [describeDbSubnetGroupsCall, if_neg (fun h => Bool.noConfusion (hf2 ▸ h)),
          if_pos hmem]
      have hpure : (Pure.pure true : Step Bool) s = (.ok true, [], s) := rfl
      rw [run_tryCatch_ok (run_bind_ok hd hpure), List.append_nil]
      refine ⟨fun _ => rfl, ?_, ?_⟩
      · intro _ ev hev
        rw [List.mem_singleton] at hev
        rw [hev]
        exact hf2
      · intro e he
        exact Except.noConfusion he
    · have hd : describeDbSubnetGroupsCall api name s =
          (.error .dbSubnetGroupNotFound, [.describeDbSubnetGroups name], s) := by
        rw [describeDbSubnetGroupsCall, if_neg (fun h => Bool.noConfusion (hf2 ▸ h)),
          if_neg hmem]
      have hh : ((fun e => match e with
          | Err.dbSubnetGroupNotFound => (Pure.pure false : Step Bool)
          | e2 => Step.throw e2) : Err → Step Bool) .dbSubnetGroupNotFound s =
          (.ok false, [], s) := rfl
      rw [run_tryCatch_error (run_bind_error hd) hh, List.append_nil]
      refine ⟨fun _ => rfl, ?_, ?_⟩
      · intro _ ev hev
        rw [List.mem_singleton] at hev
        rw [hev]
        exact hf2
      · intro e he
        exact Except.noConfusion he

/-- `try body except e: print(msg); raise` over a clean body is
catch-log-reraise. -/
theorem catchLogReraise_wrap {api : Api} {α} {p : Step α} {msg : String}
    (h : CleanBody api p) :
    CatchLogReraise api (Step.tryCatch p (reraise msg)) := by
  intro s
  obtain ⟨h1, h2, h3⟩ := h s
  rcases hps : p s with ⟨r, t1, s1⟩
  rw [hps] at h1 h2 h3
  cases r with
  | ok a =>
    rw [run_tryCatch_ok hps]
    refine ⟨⟨fun _ => h2 rfl, fun _ => rfl⟩, ?_⟩
    intro e he
    exact Except.noConfusion he
  | error e =>
    have hh : (reraise msg e : Step α) s1 =
        ((.error e, [Ev.printErr msg], s1) : Except Err α × List Ev × CloudState) := rfl
    rw [run_tryCatch_error hps hh]
    obtain ⟨ev, hmem, he2, hfl⟩ := h3 e rfl
    refine ⟨⟨?_, ?_⟩, ?_⟩
    · intro hok
      exact Bool.noConfusion hok
    · intro hall
      rw [hall ev (List.mem_append.2 (Or.inl hmem))] at hfl
      exact Bool.noConfusion hfl
    · intro e2 he2x
      injection he2x with hee
      rw [← hee]
      exact ⟨⟨ev, List.mem_append.2 (Or.inl hmem), he2, hfl⟩,
        ⟨msg, List.mem_append.2 (Or.inr (List.mem_singleton_self _))⟩⟩

/-- C4 (amended). The single-call creation and deletion wrappers —
`create_vpc`, `create_subnet`, `create_internet_gateway`,
`create_route_table`, `create_route`, `create_nat_gateway`,
`create_rds_postgres_security_group`, `create_rds_subnet_group`,
`create_rds_instance`, `delete_rds_instance` — all follow generic
catch-log-reraise: each succeeds exactly when all its provider calls do,
and on an exception it prints an error message and re-raises that very
exception (the `ClientError` of an issued failing call). The original
claim also asserted this of the cleanup methods, but those instead
swallow: `cleanup_specific_vpc` always returns normally, whatever fails. -/
theorem wrappers_catch_log_reraise (api : Api) :
    (∀ c i, CatchLogReraise api (create_vpc api c i)) ∧
    (∀ v c a, CatchLogReraise api (create_subnet api v c a)) ∧
    (∀ v i, CatchLogReraise api (create_internet_gateway api v i)) ∧
    (∀ v sn i b, CatchLogReraise api (create_route_table api v sn i b)) ∧
    (∀ rt d g n, CatchLogReraise api (create_route api rt d g n)) ∧
    (∀ p i, CatchLogReraise api (create_nat_gateway api p i)) ∧
    (∀ v i, CatchLogReraise api (create_rds_postgres_security_group api v i)) ∧
    (∀ n ids, CatchLogReraise api (create_rds_subnet_group api n ids)) ∧
    (∀ d g ids, CatchLogReraise api (create_rds_instance api d g ids)) ∧
    (∀ d, CatchLogReraise api (delete_rds_instance api d)) ∧
    (∀ v s, (cleanup_specific_vpc api v s).1 = .ok ()) := by
  refine ⟨?_, ?_, ?_, ?_, ?_, ?_, ?_, ?_, ?_, ?_, ?_⟩
  · intro c i
    rw [create_vpc]
    refine catchLogReraise_wrap ?_
    refine cleanBody_bind api (cleanBody_callFresh api _ _) (fun vpcId => ?_)
    refine cleanBody_bind api (cleanBody_call api _) (fun _ => ?_)
    refine cleanBody_bind api (cleanBody_callUpd api _ _) (fun _ => ?_)
    refine cleanBody_bind api (cleanBody_call api _) (fun _ => ?_)
    exact cleanBody_bind api (cleanBody_call api _) (fun _ => cleanBody_pure api _)
  · intro v c a
    rw [create_subnet]
    refine catchLogReraise_wrap ?_
    refine cleanBody_bind api (cleanBody_callFresh api _ _) (fun subnetId => ?_)
    refine cleanBody_bind api (cleanBody_call api _) (fun _ => ?_)
    exact cleanBody_bind api (cleanBody_call api _) (fun _ => cleanBody_pure api _)
  · intro v i
    rw [create_internet_gateway]
    refine catchLogReraise_wrap ?_
    refine cleanBody_bind api (cleanBody_callFresh api _ _) (fun igwId => ?_)
    refine cleanBody_bind api (cleanBody_call api _) (fun _ => ?_)
    exact cleanBody_bind api (cleanBody_callUpd api _ _) (fun _ => cleanBody_pure api _)
  · intro v sn i b
    rw [create_route_table]
    refine catchLogReraise_wrap ?_
    refine cleanBody_bind api (cleanBody_callFresh api _ _) (fun routeTableId => ?_)
    refine cleanBody_bind api (cleanBody_call api _) (fun _ => ?_)
    exact cleanBody_bind api (cleanBody_callFresh api _ _) (fun _ => cleanBody_pure api _)
  · intro rt d g n
    rw [create_route.eq_def]
    cases g with
    | some gw => exact catchLogReraise_wrap (cleanBody_call api _)
    | none =>
      cases n with
      | some nat => exact catchLogReraise_wrap (cleanBody_call api _)
      | none => exact catchLogReraise_wrap (cleanBody_pure api ())
  · intro p i
    rw [create_nat_gateway]
    refine catchLogReraise_wrap ?_
    refine cleanBody_bind api (cleanBody_callFresh api _ _) (fun allocationId => ?_)
    refine cleanBody_bind api (cleanBody_call api _) (fun _ => ?_)
    refine cleanBody_bind api (cleanBody_callFresh api _ _) (fun natGatewayId => ?_)
    refine cleanBody_bind api (cleanBody_callUpd api _ _) (fun _ => ?_)
    exact cleanBody_bind api (cleanBody_call api _) (fun _ => cleanBody_pure api _)
  · intro v i
    rw [create_rds_postgres_security_group]
    refine catchLogReraise_wrap ?_
    refine cleanBody_bind api (cleanBody_callFresh api _ _) (fun securityGroupId => ?_)
    exact cleanBody_bind api (cleanBody_call api _) (fun _ => cleanBody_pure api _)
  · intro n ids
    rw [create_rds_subnet_group]
    refine catchLogReraise_wrap ?_
    refine cleanBody_bind api (cleanBody_subnetGroupExistsCheck api _) (fun already => ?_)
    cases already with
    | false =>
      exact cleanBody_bind api (cleanBody_callUpd api _ _)
        (fun _ => cleanBody_bind api (cleanBody_call api _) (fun _ => cleanBody_pure api _))
    | true => exact cleanBody_pure api _
  · intro d g ids
    rw [create_rds_instance]
    exact catchLogReraise_wrap (cleanBody_callUpd api _ _)
  · intro d
    rw [delete_rds_instance]
    exact catchLogReraise_wrap (cleanBody_callUpd api _ _)
  · intro v s
    exact stepOk_cleanup_specific api v s

/-- A failure pattern that fails exactly the final `delete_vpc` call. -/
def apiFailDeleteVpc : Api :=
  { fail := fun e => decide (e = .deleteVpc 7), availabilityZones := [] }

/-- A failure pattern that fails exactly the `create_tags` call on the
first resource id the example state hands out. -/
def apiFailTags : Api :=
  { fail := fun e => decide (e = .createTags 100), availabilityZones := [] }

/-- C4 counterexample to the original claim: `cleanup_specific_vpc` is
among the listed methods, yet when its `delete_vpc` call raises it prints
the error and returns normally — the exception is swallowed, not
re-raised. -/
theorem cleanup_swallows_exception :
    apiFailDeleteVpc.fail (.deleteVpc 7) = true ∧
    (cleanup_specific_vpc apiFailDeleteVpc 7 stExample).1 = .ok () ∧
    Ev.deleteVpc 7 ∈ (cleanup_specific_vpc apiFailDeleteVpc 7 stExample).2.1 ∧
    Ev.printErr "Error cleaning up VPC" ∈
      (cleanup_specific_vpc apiFailDeleteVpc 7 stExample).2.1 := by
  refine ⟨rfl, rfl, ?_, ?_⟩ <;> decide

/-- C4 witness: a concrete failing run of `create_vpc` comes out as an
exception after an error print, as the amended claim promises. -/
theorem wrappers_catch_log_reraise_witness :
    (create_vpc apiFailTags "10.0.0.0/16" "dev" stExample).1.isOk = false ∧
    ∃ m, Ev.printErr m ∈ (create_vpc apiFailTags "10.0.0.0/16" "dev" stExample).2.1 := by
  have h := (wrappers_catch_log_reraise apiFailTags).1 "10.0.0.0/16" "dev" stExample
  have he : (create_vpc apiFailTags "10.0.0.0/16" "dev" stExample).1 =
      .error (.clientError (.createTags 100)) := rfl
  exact ⟨by rw [he]; rfl, (h.2 _ he).2⟩

/-! ## C10: `get_availability_zones` returns the first two zones -/

/-- C10. When the describe call succeeds and the provider lists `n`
availability zones in state `available`, `get_availability_zones`
returns exactly the first `min 2 n` of them, in provider order: the
result is `take 2` of the listing, its length is `min 2 n` (so never
more than two, and fewer than two when `n < 2`), and position `i` of
the result is position `i` of the listing. -/
theorem get_availability_zones_spec (api : Api) (hfail : ∀ e, api.fail e = false)
    (s : CloudState) :
    (get_availability_zones api s).1 = .ok (api.availabilityZones.take 2) ∧
    (api.availabilityZones.take 2).length = min 2 api.availabilityZones.length ∧
    ∀ i, i < 2 → (api.availabilityZones.take 2)[i]? = api.availabilityZones[i]? := by
  refine ⟨?_, List.length_take 2 api.availabilityZones, ?_⟩
  · have hg : callGet api .describeAvailabilityZones (fun _ => api.availabilityZones) s =
        (.ok api.availabilityZones, [Ev.describeAvailabilityZones], s) := by
      rw [callGet, if_neg (fun h => Bool.noConfusion ((hfail _) ▸ h))]
    have hp : (Pure.pure (api.availabilityZones.take 2) : Step (List String)) s =
        (.ok (api.availabilityZones.take 2), [], s) := rfl
    rw [get_availability_zones, run_tryCatch_ok (run_bind_ok hg hp)]
  · intro i hi
    rw [List.getElem?_take, if_pos hi]

/-- C10 witness: with two available zones, both are returned in order. -/
theorem get_availability_zones_spec_witness :
    (get_availability_zones apiNoFail stExample).1 = .ok ["us-east-1a", "us-east-1b"] := by
  have h := (get_availability_zones_spec apiNoFail (fun e => rfl) stExample).1
  simpa using h

/-! ## `create_complete_infrastructure` (custom_vpc.py lines 485-581) -/

/-- A value of the heterogeneous result dictionaries this code builds
(Python dict values: resource ids, id lists, strings, booleans, and the
possibly-`None` security group id). -/
inductive Val
  | id (r : RId)
  | ids (l : List RId)
  | str (v : String)
  | b (v : Bool)
  | optId (o : Option RId)
deriving DecidableEq

/-- `f"10.0.{i*2+1}.0/24"` — the public subnet CIDR of the `i`-th zone. -/
def pubCidr (i : Nat) : String := "10.0." ++ toString (2 * i + 1) ++ ".0/24"

/-- `f"10.0.{i*2+2}.0/24"` — the private subnet CIDR of the `i`-th zone. -/
def privCidr (i : Nat) : String := "10.0." ++ toString (2 * i + 2) ++ ".0/24"

/-- Lines 500-528: `for i, az in enumerate(availability_zones)` — create
and tag one public and one private subnet per zone, accumulating the two
id lists in order. -/
def subnetPairLoop (api : Api) (vpcId : RId) : Nat → List String → Step (List RId × List RId)
  | _, [] => Pure.pure ([], [])
  | i, az :: rest => do
    let publicSubnetId ← create_subnet api vpcId (pubCidr i) az
    call api (.createTags publicSubnetId)
    let privateSubnetId ← create_subnet api vpcId (privCidr i) az
    call api (.createTags privateSubnetId)
    let tl ← subnetPairLoop api vpcId (i + 1) rest
    Pure.pure (publicSubnetId :: tl.1, privateSubnetId :: tl.2)

/-- Lines 536-542: a route table and a route to the internet gateway for
each public subnet. -/
def publicRtLoop (api : Api) (vpcId : RId) (iid : String) (igwId : RId) :
    List RId → Step (List RId)
  | [] => Pure.pure []
  | sn :: rest => do
    let publicRtId ← create_route_table api vpcId sn iid true
    create_route api publicRtId "0.0.0.0/0" (some igwId) none
    let tl ← publicRtLoop api vpcId iid igwId rest
    Pure.pure (publicRtId :: tl)

/-- Lines 548-554: a route table and a route to the NAT gateway for each
private subnet. -/
def privateRtLoop (api : Api) (vpcId : RId) (iid : String) (natGatewayId : RId) :
    List RId → Step (List RId)
  | [] => Pure.pure []
  | sn :: rest => do
    let privateRtId ← create_route_table api vpcId sn iid false
    create_route api privateRtId "0.0.0.0/0" none (some natGatewayId)
    let tl ← privateRtLoop api vpcId iid natGatewayId rest
    Pure.pure (privateRtId :: tl)

/-- `create_complete_infrastructure` (lines 485-581): VPC, one public and
one private subnet per availability zone, internet gateway, public route
tables, NAT gateway in `public_subnet_ids[0]` (an `IndexError` when there
are no zones), private route tables, security group, and the RDS subnet
group built from the private subnet ids; returns the result dictionary
with its seven literal keys. -/
def create_complete_infrastructure (api : Api) (dbInstanceIdentifier : String) :
    Step (List (String × Val)) := do
  let vpcId ← create_vpc api "10.0.0.0/16" dbInstanceIdentifier
  let availabilityZones ← get_availability_zones api
  let subnetIds ← subnetPairLoop api vpcId 0 availabilityZones
  let igwId ← create_internet_gateway api vpcId dbInstanceIdentifier
  let _ ← publicRtLoop api vpcId dbInstanceIdentifier igwId subnetIds.1
  let natGatewayId ← (match subnetIds.1 with
    | [] => Step.throw Err.indexError
    | p0 :: _ => create_nat_gateway api p0 dbInstanceIdentifier)
  let _ ← privateRtLoop api vpcId dbInstanceIdentifier natGatewayId subnetIds.2
  let securityGroupId ← create_rds_postgres_security_group api vpcId dbInstanceIdentifier
  let rdsSubnetGroup ← create_rds_subnet_group api (dbInstanceIdentifier ++ "-subnet-group")
    subnetIds.2
  Pure.pure [("vpc_id", Val.id vpcId),
    ("public_subnet_ids", Val.ids subnetIds.1),
    ("private_subnet_ids", Val.ids subnetIds.2),
    ("internet_gateway_id", Val.id igwId),
    ("nat_gateway_id", Val.id natGatewayId),
    ("security_group_id", Val.id securityGroupId),
    ("rds_subnet_group", Val.str rdsSubnetGroup)]

/-- The public subnet ids the loop hands out when the id counter starts
at `c`: two fresh ids per zone, public first. -/
def pubIdsFrom : Nat → Nat → List RId
  | _, 0 => []
  | c, n + 1 => c :: pubIdsFrom (c + 2) n

/-- The private subnet ids under the same counter. -/
def privIdsFrom : Nat → Nat → List RId
  | _, 0 => []
  | c, n + 1 => (c + 1) :: privIdsFrom (c + 2) n

theorem mem_pubIdsFrom : ∀ (n c : Nat) {x : Nat},
    x ∈ pubIdsFrom c n → ∃ j, j < n ∧ x = c + 2 * j := by
  intro n
  induction n with
  | zero => intro c x hx; exact absurd hx (List.not_mem_nil x)
  | succ m ih =>
    intro c x hx
    simp only [pubIdsFrom] at hx
    rcases List.mem_cons.1 hx with h | h
    · exact ⟨0, Nat.succ_pos m, by omega⟩
    · obtain ⟨j, hj, hx2⟩ := ih (c + 2) h
      exact ⟨j + 1, by omega, by omega⟩

theorem mem_privIdsFrom : ∀ (n c : Nat) {x : Nat},
    x ∈ privIdsFrom c n → ∃ j, j < n ∧ x = c + 2 * j + 1 := by
  intro n
  induction n with
  | zero => intro c x hx; exact absurd hx (List.not_mem_nil x)
  | succ m ih =>
    intro c x hx
    simp only [privIdsFrom] at hx
    rcases List.mem_cons.1 hx with h | h
    · exact ⟨0, Nat.succ_pos m, by omega⟩
    · obtain ⟨j, hj, hx2⟩ := ih (c + 2) h
      exact ⟨j + 1, by omega, by omega⟩

/-- A private subnet id is never a public subnet id (odd versus even
offset from the loop's starting counter). -/
theorem privIdsFrom_not_mem_pubIdsFrom (c n : Nat) :
    ∀ x : Nat, x ∈ privIdsFrom c n → x ∉ pubIdsFrom c n := by
  intro x hpriv hpub
  obtain ⟨j, hj, hxj⟩ := mem_privIdsFrom n c hpriv
  obtain ⟨k, hk, hxk⟩ := mem_pubIdsFrom n c hpub
  omega

/-- Whether an event creates an RDS subnet group. -/
def isGrpCreate (e : Ev) : Bool :=
  match e with
  | .createDbSubnetGroup _ _ => true
  | _ => false

/-- Whether an event creates an RDS instance. -/
def isDbInstCreate (e : Ev) : Bool :=
  match e with
  | .createDbInstance _ _ _ => true
  | _ => false

/-- No event of the trace satisfies the given test. -/
def TraceNone (P : Ev → Bool) (t : List Ev) : Prop := ∀ e ∈ t, P e = false

theorem traceNone_nil (P : Ev → Bool) : TraceNone P [] :=
  fun e he => absurd he (List.not_mem_nil e)

theorem traceNone_cons {P : Ev → Bool} {e : Ev} {t : List Ev}
    (h1 : P e = false) (h2 : TraceNone P t) : TraceNone P (e :: t) := by
  intro x hx
  rcases List.mem_cons.1 hx with h | h
  · rw [h]; exact h1
  · exact h2 x h

theorem traceNone_append {P : Ev → Bool} {t1 t2 : List Ev}
    (h1 : TraceNone P t1) (h2 : TraceNone P t2) : TraceNone P (t1 ++ t2) := by
  intro x hx
  rcases List.mem_append.1 hx with h | h
  · exact h1 x h
  · exact h2 x h

theorem traceNone_not_mem {P : Ev → Bool} {t : List Ev} {e : Ev}
    (h : TraceNone P t) (he : P e = true) : e ∉ t := by
  intro hm
  rw [h e hm] at he
  exact Bool.noConfusion he

/-! ### No-failure runs of the creation wrappers -/

theorem run_create_vpc_nofail {api : Api} (hfail : ∀ e, api.fail e = false)
    (c iid : String) (s : CloudState) :
    ∃ sEnd, create_vpc api c iid s =
      (.ok s.ctr, [.createVpc c, .waitVpcAvailable s.ctr, .createTags s.ctr,
        .modifyVpcAttribute s.ctr "EnableDnsSupport",
        .modifyVpcAttribute s.ctr "EnableDnsHostnames"], sEnd) ∧
      sEnd.ctr = s.ctr + 1 ∧ sEnd.dbSubnetGroups = s.dbSubnetGroups := by
  have ksuffix : ∀ s2 : CloudState,
      (call api (.waitVpcAvailable s.ctr) >>= fun _ =>
        callUpd api (.createTags s.ctr) (setVpcTagsUpd s.ctr iid) >>= fun _ =>
        call api (.modifyVpcAttribute s.ctr "EnableDnsSupport") >>= fun _ =>
        call api (.modifyVpcAttribute s.ctr "EnableDnsHostnames") >>= fun _ =>
        Pure.pure s.ctr) s2 =
      (.ok s.ctr, [.waitVpcAvailable s.ctr, .createTags s.ctr,
        .modifyVpcAttribute s.ctr "EnableDnsSupport",
        .modifyVpcAttribute s.ctr "EnableDnsHostnames"], setVpcTagsUpd s.ctr iid s2) :=
    fun s2 => run_bind_ok (run_call_nofail hfail _ _)
      (run_bind_ok (run_callUpd_nofail hfail _ _ s2)
        (run_bind_ok (run_call_nofail hfail _ _)
          (run_bind_ok (run_call_nofail hfail _ _) (run_pure _ _))))
  have heq : create_vpc api c iid s =
      (.ok s.ctr, [.createVpc c, .waitVpcAvailable s.ctr, .createTags s.ctr,
        .modifyVpcAttribute s.ctr "EnableDnsSupport",
        .modifyVpcAttribute s.ctr "EnableDnsHostnames"],
        setVpcTagsUpd s.ctr iid (addVpcUpd s.ctr { s with ctr := s.ctr + 1 })) := by
    rw [create_vpc]
    exact run_tryCatch_ok (run_bind_ok (run_callFresh_nofail hfail _ _ s) (ksuffix _))
  exact ⟨_, heq, by simp [setVpcTagsUpd, addVpcUpd], by simp [setVpcTagsUpd, addVpcUpd]⟩

theorem run_get_availability_zones_nofail {api : Api} (hfail : ∀ e, api.fail e = false)
    (s : CloudState) :
    get_availability_zones api s =
      (.ok (api.availabilityZones.take 2), [.describeAvailabilityZones], s) := by
  rw [get_availability_zones]
  exact run_tryCatch_ok (run_bind_ok (run_callGet_nofail hfail _ _ s) (run_pure _ _))

theorem run_create_subnet_nofail {api : Api} (hfail : ∀ e, api.fail e = false)
    (v : RId) (c a : String) (s : CloudState) :
    ∃ sEnd, create_subnet api v c a s =
      (.ok s.ctr, [.createSubnet v c a, .waitSubnetAvailable s.ctr, .createTags s.ctr], sEnd) ∧
      sEnd.ctr = s.ctr + 1 ∧ sEnd.dbSubnetGroups = s.dbSubnetGroups := by
  have ksuffix : ∀ s2 : CloudState,
      (call api (.waitSubnetAvailable s.ctr) >>= fun _ =>
        call api (.createTags s.ctr) >>= fun _ => Pure.pure s.ctr) s2 =
      (.ok s.ctr, [.waitSubnetAvailable s.ctr, .createTags s.ctr], s2) :=
    fun s2 => run_bind_ok (run_call_nofail hfail _ _)
      (run_bind_ok (run_call_nofail hfail _ _) (run_pure _ _))
  have heq : create_subnet api v c a s =
      (.ok s.ctr, [.createSubnet v c a, .waitSubnetAvailable s.ctr, .createTags s.ctr],
        addSubnetUpd v s.ctr { s with ctr := s.ctr + 1 }) := by
    rw [create_subnet]
    exact run_tryCatch_ok (run_bind_ok (run_callFresh_nofail hfail _ _ s) (ksuffix _))
  exact ⟨_, heq, by simp [addSubnetUpd], by simp [addSubnetUpd]⟩

theorem run_create_internet_gateway_nofail {api : Api} (hfail : ∀ e, api.fail e = false)
    (v : RId) (iid : String) (s : CloudState) :
    ∃ sEnd, create_internet_gateway api v iid s =
      (.ok s.ctr, [.createInternetGateway, .createTags s.ctr,
        .attachInternetGateway s.ctr v], sEnd) ∧
      sEnd.ctr = s.ctr + 1 ∧ sEnd.dbSubnetGroups = s.dbSubnetGroups := by
  have ksuffix : ∀ s2 : CloudState,
      (call api (.createTags s.ctr) >>= fun _ =>
        callUpd api (.attachInternetGateway s.ctr v) (attachIgwStateUpd s.ctr v) >>= fun _ =>
        Pure.pure s.ctr) s2 =
      (.ok s.ctr, [.createTags s.ctr, .attachInternetGateway s.ctr v],
        attachIgwStateUpd s.ctr v s2) :=
    fun s2 => run_bind_ok (run_call_nofail hfail _ _)
      (run_bind_ok (run_callUpd_nofail hfail _ _ s2) (run_pure _ _))
  have heq : create_internet_gateway api v iid s =
      (.ok s.ctr, [.createInternetGateway, .createTags s.ctr,
        .attachInternetGateway s.ctr v],
        attachIgwStateUpd s.ctr v (addIgwUpd s.ctr { s with ctr := s.ctr + 1 })) := by
    rw [create_internet_gateway]
    exact run_tryCatch_ok (run_bind_ok (run_callFresh_nofail hfail _ _ s) (ksuffix _))
  exact ⟨_, heq, by simp [attachIgwStateUpd, addIgwUpd],
    by simp [attachIgwStateUpd, addIgwUpd]⟩

theorem run_create_route_table_nofail {api : Api} (hfail : ∀ e, api.fail e = false)
    (v sn : RId) (iid : String) (b : Bool) (s : CloudState) :
    ∃ sEnd, create_route_table api v sn iid b s =
      (.ok s.ctr, [.createRouteTable v, .createTags s.ctr,
        .associateRouteTable s.ctr sn], sEnd) ∧
      sEnd.ctr = s.ctr + 2 ∧ sEnd.dbSubnetGroups = s.dbSubnetGroups := by
  have ksuffix : ∀ s2 : CloudState,
      (call api (.createTags s.ctr) >>= fun _ =>
        callFresh api (.associateRouteTable s.ctr sn) (addAssociationUpd s.ctr sn) >>= fun _ =>
        Pure.pure s.ctr) s2 =
      (.ok s.ctr, [.createTags s.ctr, .associateRouteTable s.ctr sn],
        addAssociationUpd s.ctr sn s2.ctr { s2 with ctr := s2.ctr + 1 }) :=
    fun s2 => run_bind_ok (run_call_nofail hfail _ _)
      (run_bind_ok (run_callFresh_nofail hfail _ _ s2) (run_pure _ _))
  set S1 : CloudState := addRouteTableUpd v s.ctr { s with ctr := s.ctr + 1 } with hS1
  have heq : create_route_table api v sn iid b s =
      (.ok s.ctr, [.createRouteTable v, .createTags s.ctr, .associateRouteTable s.ctr sn],
        addAssociationUpd s.ctr sn S1.ctr { S1 with ctr := S1.ctr + 1 }) := by
    rw [create_route_table]
    exact run_tryCatch_ok (run_bind_ok (run_callFresh_nofail hfail _ _ s) (ksuffix S1))
  exact ⟨_, heq, by simp [addAssociationUpd, hS1, addRouteTableUpd],
    by simp [addAssociationUpd, hS1, addRouteTableUpd]⟩

theorem run_create_route_igw_nofail {api : Api} (hfail : ∀ e, api.fail e = false)
    (rt : RId) (d : String) (g : RId) (s : CloudState) :
    create_route api rt d (some g) none s =
      (.ok (), [.createRoute rt d (some g) none], s) := by
  rw [create_route.eq_def]
  exact run_tryCatch_ok (run_call_nofail hfail _ _)

theorem run_create_route_nat_nofail {api : Api} (hfail : ∀ e, api.fail e = false)
    (rt : RId) (d : String) (n : RId) (s : CloudState) :
    create_route api rt d none (some n) s =
      (.ok (), [.createRoute rt d none (some n)], s) := by
  rw [create_route.eq_def]
  exact run_tryCatch_ok (run_call_nofail hfail _ _)

theorem run_create_nat_gateway_nofail {api : Api} (hfail : ∀ e, api.fail e = false)
    (p : RId) (iid : String) (s : CloudState) :
    ∃ sEnd, create_nat_gateway api p iid s =
      (.ok (s.ctr + 1), [.allocateAddress, .createTags s.ctr,
        .createNatGateway p s.ctr, .waitNatGatewayAvailable (s.ctr + 1),
        .createTags (s.ctr + 1)], sEnd) ∧
      sEnd.ctr = s.ctr + 2 ∧ sEnd.dbSubnetGroups = s.dbSubnetGroups := by
  have ksuffix2 : ∀ (nid : RId) (s3 : CloudState),
      (callUpd api (.waitNatGatewayAvailable nid) (setNatAvailableUpd nid) >>= fun _ =>
        call api (.createTags nid) >>= fun _ => Pure.pure nid) s3 =
      (.ok nid, [.waitNatGatewayAvailable nid, .createTags nid], setNatAvailableUpd nid s3) :=
    fun nid s3 => run_bind_ok (run_callUpd_nofail hfail _ _ s3)
      (run_bind_ok (run_call_nofail hfail _ _) (run_pure _ _))
  have ksuffix : ∀ s2 : CloudState,
      (call api (.createTags s.ctr) >>= fun _ =>
        callFresh api (.createNatGateway p s.ctr) (addNatGatewayUpd p s.ctr) >>=
          fun natGatewayId =>
        callUpd api (.waitNatGatewayAvailable natGatewayId)
          (setNatAvailableUpd natGatewayId) >>= fun _ =>
        call api (.createTags natGatewayId) >>= fun _ => Pure.pure natGatewayId) s2 =
      (.ok s2.ctr, [.createTags s.ctr, .createNatGateway p s.ctr,
        .waitNatGatewayAvailable s2.ctr, .createTags s2.ctr],
        setNatAvailableUpd s2.ctr (addNatGatewayUpd p s.ctr s2.ctr { s2 with ctr := s2.ctr + 1 })) :=
    fun s2 => run_bind_ok (run_call_nofail hfail _ _)
      (run_bind_ok (run_callFresh_nofail hfail _ _ s2) (ksuffix2 s2.ctr _))
  set S2 : CloudState := { s with ctr := s.ctr + 1 } with hS2
  have heq : create_nat_gateway api p iid s =
      (.ok (s.ctr + 1), [.allocateAddress, .createTags s.ctr,
        .createNatGateway p s.ctr, .waitNatGatewayAvailable (s.ctr + 1),
        .createTags (s.ctr + 1)],
        setNatAvailableUpd S2.ctr (addNatGatewayUpd p s.ctr S2.ctr { S2 with ctr := S2.ctr + 1 })) := by
    rw [create_nat_gateway]
    exact run_tryCatch_ok (run_bind_ok (run_callFresh_nofail hfail _ _ s) (ksuffix S2))
  exact ⟨_, heq, by simp [setNatAvailableUpd, hS2, addNatGatewayUpd],
    by simp [setNatAvailableUpd, hS2, addNatGatewayUpd]⟩

theorem run_create_rds_postgres_security_group_nofail {api : Api}
    (hfail : ∀ e, api.fail e = false) (v : RId) (iid : String) (s : CloudState) :
    ∃ sEnd, create_rds_postgres_security_group api v iid s =
      (.ok s.ctr, [.createSecurityGroup (iid ++ "-sg") v,
        .authorizeSecurityGroupIngress s.ctr], sEnd) ∧
      sEnd.ctr = s.ctr + 1 ∧ sEnd.dbSubnetGroups = s.dbSubnetGroups := by
  have ksuffix : ∀ s2 : CloudState,
      (call api (.authorizeSecurityGroupIngress s.ctr) >>= fun _ => Pure.pure s.ctr) s2 =
      (.ok s.ctr, [.authorizeSecurityGroupIngress s.ctr], s2) :=
    fun s2 => run_bind_ok (run_call_nofail hfail _ _) (run_pure _ _)
  have heq : create_rds_postgres_security_group api v iid s =
      (.ok s.ctr, [.createSecurityGroup (iid ++ "-sg") v,
        .authorizeSecurityGroupIngress s.ctr],
        addSecurityGroupUpd (iid ++ "-sg") v s.ctr { s with ctr := s.ctr + 1 }) := by
    rw [create_rds_postgres_security_group]
    exact run_tryCatch_ok (run_bind_ok (run_callFresh_nofail hfail _ _ s) (ksuffix _))
  exact ⟨_, heq, by simp [addSecurityGroupUpd], by simp [addSecurityGroupUpd]⟩

/-- `create_rds_subnet_group` under no call failures, when the group is
absent: probe (not-found swallowed), create, tag. -/
theorem run_create_rds_subnet_group_absent {api : Api} (hfail : ∀ e, api.fail e = false)
    (name : String) (ids : List RId) (s : CloudState)
    (habs : name ∉ s.dbSubnetGroups) :
    ∃ sEnd, create_rds_subnet_group api name ids s =
      (.ok name, [.describeDbSubnetGroups name, .createDbSubnetGroup name ids,
        .addTagsToResource name], sEnd) ∧
      sEnd.dbSubnetGroups = s.dbSubnetGroups ++ [name] := by
  have hd : describeDbSubnetGroupsCall api name s =
      (.error .dbSubnetGroupNotFound, [.describeDbSubnetGroups name], s) := by
    rw [describeDbSubnetGroupsCall, hfail, if_neg (by simp), if_neg habs]
  have hcheck : subnetGroupExistsCheck api name s =
      (.ok false, [.describeDbSubnetGroups name], s) := by
    rw [subnetGroupExistsCheck]
    have hh : ((fun e => match e with
        | Err.dbSubnetGroupNotFound => (Pure.pure false : Step Bool)
        | e2 => Step.throw e2) : Err → Step Bool) .dbSubnetGroupNotFound s =
        (.ok false, [], s) := rfl
    rw [run_tryCatch_error (run_bind_error hd) hh, List.append_nil]
  have kelse : (callUpd api (.createDbSubnetGroup name ids) (addDbSubnetGroupUpd name) >>=
      fun _ => call api (.addTagsToResource name) >>= fun _ => Pure.pure name) s =
      (.ok name, [.createDbSubnetGroup name ids, .addTagsToResource name],
        addDbSubnetGroupUpd name s) :=
    run_bind_ok (run_callUpd_nofail hfail _ _ s)
      (run_bind_ok (run_call_nofail hfail _ _) (run_pure _ _))
  have heq : create_rds_subnet_group api name ids s =
      (.ok name, [.describeDbSubnetGroups name, .createDbSubnetGroup name ids,
        .addTagsToResource name], addDbSubnetGroupUpd name s) := by
    rw [create_rds_subnet_group]
    exact run_tryCatch_ok (run_bind_ok hcheck kelse)
  exact ⟨_, heq, by simp [addDbSubnetGroupUpd]⟩

/-- `create_rds_subnet_group` under no call failures returns the group
name whether or not the group already exists, without touching any RDS
instance. -/
theorem run_create_rds_subnet_group_nofail {api : Api} (hfail : ∀ e, api.fail e = false)
    (name : String) (ids : List RId) (s : CloudState) :
    ∃ t sEnd, create_rds_subnet_group api name ids s = (.ok name, t, sEnd) ∧
      TraceNone isDbInstCreate t ∧
      (∀ v c a, Ev.createSubnet v c a ∉ t) ∧
      (name ∉ s.dbSubnetGroups →
        t = [.describeDbSubnetGroups name, .createDbSubnetGroup name ids,
          .addTagsToResource name]) := by
  by_cases hmem : name ∈ s.dbSubnetGroups
  · have hd : describeDbSubnetGroupsCall api name s =
        (.ok (), [.describeDbSubnetGroups name], s) := by
      rw [describeDbSubnetGroupsCall, hfail, if_neg (by simp), if_pos hmem]
    have hcheck : subnetGroupExistsCheck api name s =
        (.ok true, [.describeDbSubnetGroups name], s) := by
      rw [subnetGroupExistsCheck]
      exact run_tryCatch_ok (run_bind_ok hd (run_pure _ _))
    refine ⟨[.describeDbSubnetGroups name], s, ?_, ?_, ?_, fun h => absurd hmem h⟩
    · rw [create_rds_subnet_group]
      exact run_tryCatch_ok (run_bind_ok hcheck (run_pure _ _))
    · exact traceNone_cons rfl (traceNone_nil _)
    · intro v c a hm
      rcases List.mem_cons.1 hm with h | h
      · exact Ev.noConfusion h
      · exact absurd h (List.not_mem_nil _)
  · obtain ⟨sEnd, heq, _⟩ := run_create_rds_subnet_group_absent hfail name ids s hmem
    refine ⟨_, sEnd, heq, ?_, ?_, fun _ => rfl⟩
    · exact traceNone_cons rfl (traceNone_cons rfl (traceNone_cons rfl (traceNone_nil _)))
    · intro v c a hm
      rcases List.mem_cons.1 hm with h | hm2
      · exact Ev.noConfusion h
      rcases List.mem_cons.1 hm2 with h | hm3
      · exact Ev.noConfusion h
      rcases List.mem_cons.1 hm3 with h | hm4
      · exact Ev.noConfusion h
      · exact absurd hm4 (List.not_mem_nil _)

/-! ### No-failure runs of the three creation loops -/

theorem subnetPairLoop_nofail {api : Api} (hfail : ∀ e, api.fail e = false) (v : RId) :
    ∀ (azs : List String) (i : Nat) (s : CloudState),
    ∃ t sEnd, subnetPairLoop api v i azs s =
        (.ok (pubIdsFrom s.ctr azs.length, privIdsFrom s.ctr azs.length), t, sEnd) ∧
      sEnd.ctr = s.ctr + 2 * azs.length ∧
      sEnd.dbSubnetGroups = s.dbSubnetGroups ∧
      TraceNone isGrpCreate t ∧
      TraceNone isDbInstCreate t ∧
      ∀ j az, azs[j]? = some az →
        Ev.createSubnet v (pubCidr (i + j)) az ∈ t ∧
        Ev.createSubnet v (privCidr (i + j)) az ∈ t := by
  intro azs
  induction azs with
  | nil =>
    intro i s
    refine ⟨[], s, ?_, by simp, rfl, traceNone_nil _, traceNone_nil _, ?_⟩
    · rw [subnetPairLoop]
      exact run_pure _ _
    · intro j az hj
      rw [List.getElem?_nil] at hj
      exact Option.noConfusion hj
  | cons az rest ih =>
    intro i s
    obtain ⟨sA, hA, hAc, hAg⟩ := run_create_subnet_nofail hfail v (pubCidr i) az s
    obtain ⟨sB, hB, hBc, hBg⟩ := run_create_subnet_nofail hfail v (privCidr i) az sA
    rw [hAc] at hB hBc
    obtain ⟨t, sEnd, hrec, hc, hg, hn1, hn2, hmem⟩ := ih (i + 1) sB
    rw [hBc] at hrec hc
    refine ⟨[.createSubnet v (pubCidr i) az, .waitSubnetAvailable s.ctr, .createTags s.ctr] ++
        ([.createTags s.ctr] ++
          ([.createSubnet v (privCidr i) az, .waitSubnetAvailable (s.ctr + 1),
            .createTags (s.ctr + 1)] ++
            ([.createTags (s.ctr + 1)] ++ (t ++ [])))), sEnd, ?_, ?_, ?_, ?_, ?_, ?_⟩
    · rw [subnetPairLoop]
      exact run_bind_ok hA (run_bind_ok (run_call_nofail hfail _ _)
        (run_bind_ok hB (run_bind_ok (run_call_nofail hfail _ _)
          (run_bind_ok hrec (run_pure _ _)))))
    · rw [List.length_cons]
      omega
    · rw [hg, hBg, hAg]
    · refine traceNone_append ?_ (traceNone_append ?_ (traceNone_append ?_
        (traceNone_append ?_ (traceNone_append hn1 (traceNone_nil _))))) <;>
        repeat first
          | exact traceNone_nil _
          | refine traceNone_cons rfl ?_
    · refine traceNone_append ?_ (traceNone_append ?_ (traceNone_append ?_
        (traceNone_append ?_ (traceNone_append hn2 (traceNone_nil _))))) <;>
        repeat first
          | exact traceNone_nil _
          | refine traceNone_cons rfl ?_
    · intro j az2 hj
      cases j with
      | zero =>
        rw [List.getElem?_cons_zero] at hj
        injection hj with hj
        subst hj
        constructor
        · exact List.mem_append_left _ (List.mem_cons_self _ _)
        · refine List.mem_append_right _ (List.mem_append_right _ ?_)
          exact List.mem_append_left _ (List.mem_cons_self _ _)
      | succ m =>
        rw [List.getElem?_cons_succ] at hj
        obtain ⟨h1, h2⟩ := hmem m az2 hj
        have hidx : i + (m + 1) = i + 1 + m := by omega
        rw [hidx]
        constructor
        · exact List.mem_append_right _ (List.mem_append_right _ (List.mem_append_right _
            (List.mem_append_right _ (List.mem_append_left _ h1))))
        · exact List.mem_append_right _ (List.mem_append_right _ (List.mem_append_right _
            (List.mem_append_right _ (List.mem_append_left _ h2))))

theorem publicRtLoop_nofail {api : Api} (hfail : ∀ e, api.fail e = false)
    (v : RId) (iid : String) (igwId : RId) :
    ∀ (sns : List RId) (s : CloudState),
    ∃ rts t sEnd, publicRtLoop api v iid igwId sns s = (.ok rts, t, sEnd) ∧
      sEnd.dbSubnetGroups = s.dbSubnetGroups ∧
      TraceNone isGrpCreate t ∧ TraceNone isDbInstCreate t := by
  intro sns
  induction sns with
  | nil =>
    intro s
    refine ⟨[], [], s, ?_, rfl, traceNone_nil _, traceNone_nil _⟩
    rw [publicRtLoop]
    exact run_pure _ _
  | cons sn rest ih =>
    intro s
    obtain ⟨sA, hA, hAc, hAg⟩ := run_create_route_table_nofail hfail v sn iid true s
    obtain ⟨rts, t, sEnd, hrec, hg, hn1, hn2⟩ := ih sA
    refine ⟨s.ctr :: rts,
      [.createRouteTable v, .createTags s.ctr, .associateRouteTable s.ctr sn] ++
        ([.createRoute s.ctr "0.0.0.0/0" (some igwId) none] ++ (t ++ [])), sEnd,
      ?_, ?_, ?_, ?_⟩
    · rw [publicRtLoop]
      exact run_bind_ok hA (run_bind_ok (run_create_route_igw_nofail hfail _ _ _ sA)
        (run_bind_ok hrec (run_pure _ _)))
    · rw [hg, hAg]
    · refine traceNone_append ?_ (traceNone_append ?_ (traceNone_append hn1
        (traceNone_nil _))) <;>
        repeat first
          | exact traceNone_nil _
          | refine traceNone_cons rfl ?_
    · refine traceNone_append ?_ (traceNone_append ?_ (traceNone_append hn2
        (traceNone_nil _))) <;>
        repeat first
          | exact traceNone_nil _
          | refine traceNone_cons rfl ?_

theorem privateRtLoop_nofail {api : Api} (hfail : ∀ e, api.fail e = false)
    (v : RId) (iid : String) (natId : RId) :
    ∀ (sns : List RId) (s : CloudState),
    ∃ rts t sEnd, privateRtLoop api v iid natId sns s = (.ok rts, t, sEnd) ∧
      sEnd.dbSubnetGroups = s.dbSubnetGroups ∧
      TraceNone isGrpCreate t ∧ TraceNone isDbInstCreate t := by
  intro sns
  induction sns with
  | nil =>
    intro s
    refine ⟨[], [], s, ?_, rfl, traceNone_nil _, traceNone_nil _⟩
    rw [privateRtLoop]
    exact run_pure _ _
  | cons sn rest ih =>
    intro s
    obtain ⟨sA, hA, hAc, hAg⟩ := run_create_route_table_nofail hfail v sn iid false s
    obtain ⟨rts, t, sEnd, hrec, hg, hn1, hn2⟩ := ih sA
    refine ⟨s.ctr :: rts,
      [.createRouteTable v, .createTags s.ctr, .associateRouteTable s.ctr sn] ++
        ([.createRoute s.ctr "0.0.0.0/0" none (some natId)] ++ (t ++ [])), sEnd,
      ?_, ?_, ?_, ?_⟩
    · rw [privateRtLoop]
      exact run_bind_ok hA (run_bind_ok (run_create_route_nat_nofail hfail _ _ _ sA)
        (run_bind_ok hrec (run_pure _ _)))
    · rw [hg, hAg]
    · refine traceNone_append ?_ (traceNone_append ?_ (traceNone_append hn1
        (traceNone_nil _))) <;>
        repeat first
          | exact traceNone_nil _
          | refine traceNone_cons rfl ?_
    · refine traceNone_append ?_ (traceNone_append ?_ (traceNone_append hn2
        (traceNone_nil _))) <;>
        repeat first
          | exact traceNone_nil _
          | refine traceNone_cons rfl ?_

/-- The whole of `create_complete_infrastructure` under no call failures:
the returned dictionary holds its seven literal keys, the public and
private subnet ids are the interleaved fresh ids, every subnet creation
happens in the prefix `t1` preceding the `create_rds_subnet_group`
segment `tGrp`, and when the subnet group is absent that segment is
exactly probe, create-from-the-private-ids, tag. -/
theorem run_create_complete_infrastructure_nofail {api : Api}
    (hfail : ∀ e, api.fail e = false) (iid : String) (s : CloudState)
    (haz : api.availabilityZones ≠ []) :
    ∃ igwId natId sgId t1 tGrp sEnd,
      create_complete_infrastructure api iid s =
        (.ok [("vpc_id", Val.id s.ctr),
          ("public_subnet_ids",
            Val.ids (pubIdsFrom (s.ctr + 1) (api.availabilityZones.take 2).length)),
          ("private_subnet_ids",
            Val.ids (privIdsFrom (s.ctr + 1) (api.availabilityZones.take 2).length)),
          ("internet_gateway_id", Val.id igwId),
          ("nat_gateway_id", Val.id natId),
          ("security_group_id", Val.id sgId),
          ("rds_subnet_group", Val.str (iid ++ "-subnet-group"))],
          t1 ++ tGrp, sEnd) ∧
      (∀ j az, (api.availabilityZones.take 2)[j]? = some az →
        Ev.createSubnet s.ctr (pubCidr j) az ∈ t1 ∧
        Ev.createSubnet s.ctr (privCidr j) az ∈ t1) ∧
      TraceNone isGrpCreate t1 ∧
      TraceNone isDbInstCreate t1 ∧
      TraceNone isDbInstCreate tGrp ∧
      (∀ v c a, Ev.createSubnet v c a ∉ tGrp) ∧
      (iid ++ "-subnet-group" ∉ s.dbSubnetGroups →
        tGrp = [.describeDbSubnetGroups (iid ++ "-subnet-group"),
          .createDbSubnetGroup (iid ++ "-subnet-group")
            (privIdsFrom (s.ctr + 1) (api.availabilityZones.take 2).length),
          .addTagsToResource (iid ++ "-subnet-group")]) := by
  obtain ⟨s1, h1, h1c, h1g⟩ := run_create_vpc_nofail hfail "10.0.0.0/16" iid s
  have h2 := run_get_availability_zones_nofail hfail s1
  obtain ⟨t3, s3, h3, h3c, h3g, h3n1, h3n2, h3mem⟩ :=
    subnetPairLoop_nofail hfail s.ctr (api.availabilityZones.take 2) 0 s1
  rw [h1c] at h3
  obtain ⟨s4, h4, h4c, h4g⟩ := run_create_internet_gateway_nofail hfail s.ctr iid s3
  obtain ⟨rts5, t5, s5, h5, h5g, h5n1, h5n2⟩ := publicRtLoop_nofail hfail s.ctr iid s3.ctr
    (pubIdsFrom (s.ctr + 1) (api.availabilityZones.take 2).length) s4
  have htake : api.availabilityZones.take 2 ≠ [] := by
    intro h
    rcases List.take_eq_nil_iff.1 h with h2 | h2
    · exact absurd h2 (by decide)
    · exact haz h2
  obtain ⟨az0, azrest, hazcons⟩ := List.exists_cons_of_ne_nil htake
  have hpubcons : pubIdsFrom (s.ctr + 1) (api.availabilityZones.take 2).length =
      (s.ctr + 1) :: pubIdsFrom (s.ctr + 1 + 2) azrest.length := by
    rw [hazcons]
    rfl
  obtain ⟨s6, h6, h6c, h6g⟩ := run_create_nat_gateway_nofail hfail (s.ctr + 1) iid s5
  have h6m : (match pubIdsFrom (s.ctr + 1) (api.availabilityZones.take 2).length with
      | [] => Step.throw Err.indexError
      | p0 :: _ => create_nat_gateway api p0 iid) s5 =
      (.ok (s5.ctr + 1), [.allocateAddress, .createTags s5.ctr,
        .createNatGateway (s.ctr + 1) s5.ctr, .waitNatGatewayAvailable (s5.ctr + 1),
        .createTags (s5.ctr + 1)], s6) := by
    rw [hpubcons]
    exact h6
  obtain ⟨rts7, t7, s7, h7, h7g, h7n1, h7n2⟩ := privateRtLoop_nofail hfail s.ctr iid
    (s5.ctr + 1) (privIdsFrom (s.ctr + 1) (api.availabilityZones.take 2).length) s6
  obtain ⟨s8, h8, h8c, h8g⟩ :=
    run_create_rds_postgres_security_group_nofail hfail s.ctr iid s7
  obtain ⟨tg, s9, h9, h9n, h9sub, h9abs⟩ := run_create_rds_subnet_group_nofail hfail
    (iid ++ "-subnet-group") (privIdsFrom (s.ctr + 1) (api.availabilityZones.take 2).length) s8
  have heq : create_complete_infrastructure api iid s =
      (.ok [("vpc_id", Val.id s.ctr),
        ("public_subnet_ids",
          Val.ids (pubIdsFrom (s.ctr + 1) (api.availabilityZones.take 2).length)),
        ("private_subnet_ids",
          Val.ids (privIdsFrom (s.ctr + 1) (api.availabilityZones.take 2).length)),
        ("internet_gateway_id", Val.id s3.ctr),
        ("nat_gateway_id", Val.id (s5.ctr + 1)),
        ("security_group_id", Val.id s7.ctr),
        ("rds_subnet_group", Val.str (iid ++ "-subnet-group"))],
        [Ev.createVpc "10.0.0.0/16", .waitVpcAvailable s.ctr, .createTags s.ctr,
          .modifyVpcAttribute s.ctr "EnableDnsSupport",
          .modifyVpcAttribute s.ctr "EnableDnsHostnames"] ++
        ([Ev.describeAvailabilityZones] ++
        (t3 ++
        ([Ev.createInternetGateway, .createTags s3.ctr,
          .attachInternetGateway s3.ctr s.ctr] ++
        (t5 ++
        ([Ev.allocateAddress, .createTags s5.ctr, .createNatGateway (s.ctr + 1) s5.ctr,
          .waitNatGatewayAvailable (s5.ctr + 1), .createTags (s5.ctr + 1)] ++
        (t7 ++
        ([Ev.createSecurityGroup (iid ++ "-sg") s.ctr,
          .authorizeSecurityGroupIngress s7.ctr] ++
        (tg ++ [])))))))), s9) := by
    rw [create_complete_infrastructure]
    exact run_bind_ok h1 (run_bind_ok h2 (run_bind_ok h3 (run_bind_ok h4
      (run_bind_ok h5 (run_bind_ok h6m (run_bind_ok h7 (run_bind_ok h8
        (run_bind_ok h9 (run_pure _ _)))))))))
  refine ⟨s3.ctr, s5.ctr + 1, s7.ctr,
    [Ev.createVpc "10.0.0.0/16", .waitVpcAvailable s.ctr, .createTags s.ctr,
      .modifyVpcAttribute s.ctr "EnableDnsSupport",
      .modifyVpcAttribute s.ctr "EnableDnsHostnames"] ++
    ([Ev.describeAvailabilityZones] ++
    (t3 ++
    ([Ev.createInternetGateway, .createTags s3.ctr,
      .attachInternetGateway s3.ctr s.ctr] ++
    (t5 ++
    ([Ev.allocateAddress, .createTags s5.ctr, .createNatGateway (s.ctr + 1) s5.ctr,
      .waitNatGatewayAvailable (s5.ctr + 1), .createTags (s5.ctr + 1)] ++
    (t7 ++
    [Ev.createSecurityGroup (iid ++ "-sg") s.ctr,
      .authorizeSecurityGroupIngress s7.ctr])))))), tg, s9, ?_, ?_, ?_, ?_, h9n, h9sub, ?_⟩
  · rw [heq]
    simp only [List.append_assoc, List.append_nil]
  · intro j az hjz
    obtain ⟨p1, p2⟩ := h3mem j az hjz
    rw [Nat.zero_add] at p1 p2
    constructor
    · exact List.mem_append_right _ (List.mem_append_right _ (List.mem_append_left _ p1))
    · exact List.mem_append_right _ (List.mem_append_right _ (List.mem_append_left _ p2))
  · refine traceNone_append ?_ (traceNone_append ?_ (traceNone_append h3n1
      (traceNone_append ?_ (traceNone_append h5n1 (traceNone_append ?_
        (traceNone_append h7n1 ?_)))))) <;>
      repeat first
        | exact traceNone_nil _
        | refine traceNone_cons rfl ?_
  · refine traceNone_append ?_ (traceNone_append ?_ (traceNone_append h3n2
      (traceNone_append ?_ (traceNone_append h5n2 (traceNone_append ?_
        (traceNone_append h7n2 ?_)))))) <;>
      repeat first
        | exact traceNone_nil _
        | refine traceNone_cons rfl ?_
  · intro habs
    refine h9abs ?_
    rw [h8g, h7g, h6g, h5g, h4g, h3g, h1g]
    exact habs

/-- C7. Under a failure-free provider with at least one availability
zone and no pre-existing subnet group: `create_complete_infrastructure`
creates one public and one private subnet per availability zone, with
CIDRs `10.0.{2i+1}.0/24` and `10.0.{2i+2}.0/24` for the `i`-th zone;
every subnet-creation call precedes the (single, first)
`create_db_subnet_group` call; and that call is built from exactly the
private subnet ids — which are disjoint from the public subnet ids. -/
theorem subnets_before_subnet_group (api : Api) (iid : String) (s : CloudState)
    (hfail : ∀ e, api.fail e = false)
    (haz : api.availabilityZones ≠ [])
    (hgrp : iid ++ "-subnet-group" ∉ s.dbSubnetGroups) :
    ∃ d t sEnd privIds t1 t2,
      create_complete_infrastructure api iid s = (.ok d, t, sEnd) ∧
      ("private_subnet_ids", Val.ids privIds) ∈ d ∧
      ("public_subnet_ids",
        Val.ids (pubIdsFrom (s.ctr + 1) (api.availabilityZones.take 2).length)) ∈ d ∧
      privIds = privIdsFrom (s.ctr + 1) (api.availabilityZones.take 2).length ∧
      t = t1 ++ Ev.createDbSubnetGroup (iid ++ "-subnet-group") privIds :: t2 ∧
      (∀ n ids, Ev.createDbSubnetGroup n ids ∉ t1) ∧
      (∀ v c a, Ev.createSubnet v c a ∉ t2) ∧
      (∀ j az, (api.availabilityZones.take 2)[j]? = some az →
        Ev.createSubnet s.ctr (pubCidr j) az ∈ t1 ∧
        Ev.createSubnet s.ctr (privCidr j) az ∈ t1) ∧
      (∀ x : Nat, x ∈ privIds →
        x ∉ pubIdsFrom (s.ctr + 1) (api.availabilityZones.take 2).length) := by
  obtain ⟨igwId, natId, sgId, t1m, tGrp, sEnd, heq, hmem, hgr1, _, _, _, habs⟩ :=
    run_create_complete_infrastructure_nofail hfail iid s haz
  have htg := habs hgrp
  subst htg
  refine ⟨[("vpc_id", Val.id s.ctr),
      ("public_subnet_ids",
        Val.ids (pubIdsFrom (s.ctr + 1) (api.availabilityZones.take 2).length)),
      ("private_subnet_ids",
        Val.ids (privIdsFrom (s.ctr + 1) (api.availabilityZones.take 2).length)),
      ("internet_gateway_id", Val.id igwId),
      ("nat_gateway_id", Val.id natId),
      ("security_group_id", Val.id sgId),
      ("rds_subnet_group", Val.str (iid ++ "-subnet-group"))],
    t1m ++ [.describeDbSubnetGroups (iid ++ "-subnet-group"),
      .createDbSubnetGroup (iid ++ "-subnet-group")
        (privIdsFrom (s.ctr + 1) (api.availabilityZones.take 2).length),
      .addTagsToResource (iid ++ "-subnet-group")], sEnd,
    privIdsFrom (s.ctr + 1) (api.availabilityZones.take 2).length,
    t1m ++ [.describeDbSubnetGroups (iid ++ "-subnet-group")],
    [.addTagsToResource (iid ++ "-subnet-group")],
    heq, by simp, by simp, rfl, ?_, ?_, ?_, ?_, ?_⟩
  · simp [List.append_assoc]
  · intro n2 ids hm
    rcases List.mem_append.1 hm with h | h
    · exact traceNone_not_mem hgr1
        (show isGrpCreate (Ev.createDbSubnetGroup n2 ids) = true from rfl) h
    · rcases List.mem_cons.1 h with h2 | h2
      · exact Ev.noConfusion h2
      · exact absurd h2 (List.not_mem_nil _)
  · intro v c a hm
    rcases List.mem_cons.1 hm with h2 | h2
    · exact Ev.noConfusion h2
    · exact absurd h2 (List.not_mem_nil _)
  · intro j az hjz
    obtain ⟨p1, p2⟩ := hmem j az hjz
    exact ⟨List.mem_append_left _ p1, List.mem_append_left _ p2⟩
  · exact privIdsFrom_not_mem_pubIdsFrom _ _

/-- C7 witness: on the example state (counter 100, two zones) the
private subnets get ids 102 and 104 and the subnet group is created from
exactly those. -/
theorem subnets_before_subnet_group_witness :
    ∃ d t sEnd, create_complete_infrastructure apiNoFail "dev" stExample =
        (.ok d, t, sEnd) ∧
      ("private_subnet_ids", Val.ids [102, 104]) ∈ d ∧
      Ev.createDbSubnetGroup "dev-subnet-group" [102, 104] ∈ t := by
  obtain ⟨d, t, sEnd, privIds, t1, t2, heq, hd1, _, hval, hsplit, _, _, _, _⟩ :=
    subnets_before_subnet_group apiNoFail "dev" stExample (fun e => rfl)
      (by decide) (by decide)
  have hv : privIds = [102, 104] := by rw [hval]; rfl
  refine ⟨d, t, sEnd, heq, ?_, ?_⟩
  · rw [← hv]
    exact hd1
  · rw [hsplit, ← hv]
    exact List.mem_append_right _ (List.mem_cons_self _ _)

/-! ## `get_vpc_infrastructure_info` and `create_complete_rds_setup`
(`custom_rds.py` lines 57-173) -/

/-- Dynamic access to a dict value expected to be a string. -/
def Val.asStr : Val → String
  | .str v => v
  | _ => ""

/-- Dynamic access to a dict value expected to be an id list. -/
def Val.asIds : Val → List RId
  | .ids l => l
  | _ => []

/-- Dynamic access to a dict value expected to be a (possibly optional)
resource id. -/
def Val.asId : Val → RId
  | .id r => r
  | .optId (some r) => r
  | _ => 0

/-- Python truthiness of a dict value (only ever used on booleans). -/
def Val.truthy : Val → Bool
  | .b v => v
  | _ => true

/-- Python `d[k]`: the value, or a `KeyError` when the key is absent. -/
def dictGet (d : List (String × Val)) (k : String) : Step Val := fun s =>
  match d.find? (fun p => p.1 == k) with
  | some p => (.ok p.2, [], s)
  | none => (.error (.keyError k), [], s)

theorem dictGet_nil (k : String) (s : CloudState) :
    dictGet [] k s = (.error (.keyError k), [], s) := rfl

theorem dictGet_cons_hit {k : String} {v : Val} {rest : List (String × Val)}
    {s : CloudState} : dictGet ((k, v) :: rest) k s = (.ok v, [], s) := by
  have h : ((k, v) :: rest).find? (fun p => p.1 == k) = some (k, v) :=
    List.find?_cons_of_pos _ (by simp)
  rw [dictGet, h]

theorem dictGet_cons_miss {k2 k : String} {v : Val} {rest : List (String × Val)}
    {s : CloudState} (h : (k2 == k) = false) :
    dictGet ((k2, v) :: rest) k s = dictGet rest k s := by
  have h2 : ((k2, v) :: rest).find? (fun p => p.1 == k) = rest.find? (fun p => p.1 == k) :=
    List.find?_cons_of_neg _ (by simp [h])
  rw [dictGet, dictGet, h2]

/-- `get_vpc_infrastructure_info` (lines 57-110): find the VPC carrying
the `Project`/`CreatedBy` tags; `None` when there is none; else collect
the subnet ids, the `{iid}-sg` security group (or `None`), the subnet
group name, and whether the subnet group exists; any exception is
printed and turned into `None`. -/
def get_vpc_infrastructure_info (api : Api) (instanceIdentifier : String) :
    Step (Option (List (String × Val))) :=
  Step.tryCatch
    (do
      let matching ← callGet api (.describeVpcsByTag instanceIdentifier "VPCInstanceCreator")
        (fun s => s.vpcs.filter (fun v => decide (v.tagProject = some instanceIdentifier ∧
          v.tagCreatedBy = some "VPCInstanceCreator")))
      match matching with
      | [] => Pure.pure none
      | v0 :: _ => do
        let subnetIds ← callGet api (.describeSubnets v0.vpcId)
          (fun s => (s.subnets.filter (fun sn => decide (sn.vpcId = v0.vpcId))).map
            Subnet.subnetId)
        let sgs ← callGet api (.describeSecurityGroupsByName v0.vpcId
            (instanceIdentifier ++ "-sg"))
          (fun s => s.securityGroups.filter (fun g => decide (g.vpcId = v0.vpcId ∧
            g.groupName = instanceIdentifier ++ "-sg")))
        let subnetGroupExists ← subnetGroupExistsCheck api
          (instanceIdentifier ++ "-subnet-group")
        Pure.pure (some [("vpc_id", Val.id v0.vpcId),
          ("subnet_ids", Val.ids subnetIds),
          ("security_group_id", Val.optId (sgs.head?.map SecurityGroup.groupId)),
          ("subnet_group_name", Val.str (instanceIdentifier ++ "-subnet-group")),
          ("subnet_group_exists", Val.b subnetGroupExists)]))
    (fun _ => Step.bind (logErr "Error getting VPC infrastructure info")
      (fun _ => Pure.pure none))

/-- Lines 130-144 of `create_complete_rds_setup`: create the VPC
infrastructure and convert the raw result dictionary to the expected
format — reading, in dict-literal order, `vpc_id`, `public_subnet_ids`,
`private_subnet_ids`, and then `igw_id`, a key
`create_complete_infrastructure` never returns. -/
def convertRawInfo (api : Api) (instanceIdentifier : String) :
    Step (List (String × Val)) := do
  let raw ← create_complete_infrastructure api instanceIdentifier
  let v1 ← dictGet raw "vpc_id"
  let v2 ← dictGet raw "public_subnet_ids"
  let v3 ← dictGet raw "private_subnet_ids"
  let v4 ← dictGet raw "igw_id"
  let v5 ← dictGet raw "nat_gateway_id"
  let v6 ← dictGet raw "security_group_id"
  Pure.pure [("vpc_id", v1), ("public_subnet_ids", v2), ("private_subnet_ids", v3),
    ("internet_gateway", v4), ("nat_gateway", v5), ("security_group_id", v6),
    ("subnet_group_name", Val.str (instanceIdentifier ++ "-subnet-group")),
    ("subnet_group_exists", Val.b true)]

/-- `create_complete_rds_setup` (lines 112-173): reuse the existing VPC
infrastructure or create (and convert) it, create the subnet group if it
is missing, then create the RDS instance. -/
def create_complete_rds_setup (api : Api) (dbInstanceIdentifier : String)
    (instanceIdentifierOpt : Option String) : Step Unit := do
  let vpcInfoOpt ← get_vpc_infrastructure_info api
    (instanceIdentifierOpt.getD dbInstanceIdentifier)
  let vpcInfo ← (match vpcInfoOpt with
    | some info => Pure.pure info
    | none => convertRawInfo api (instanceIdentifierOpt.getD dbInstanceIdentifier))
  let sgExists ← dictGet vpcInfo "subnet_group_exists"
  (if sgExists.truthy then Pure.pure () else do
    let gname ← dictGet vpcInfo "subnet_group_name"
    let sids ← dictGet vpcInfo "subnet_ids"
    let _ ← create_rds_subnet_group api gname.asStr sids.asIds
    Pure.pure ())
  let gname2 ← dictGet vpcInfo "subnet_group_name"
  let sgid ← dictGet vpcInfo "security_group_id"
  create_rds_instance api dbInstanceIdentifier gname2.asStr [sgid.asId]

/-- C2. When no tagged VPC exists (so `get_vpc_infrastructure_info`
returns `None`), the provider calls succeed, and there is at least one
availability zone (so `create_complete_infrastructure` returns its
dictionary), `create_complete_rds_setup` raises `KeyError 'igw_id'`
while converting that dictionary — whose keys include
`internet_gateway_id` but not `igw_id` — and no `create_db_instance`
call is ever issued on that path. -/
theorem create_complete_rds_setup_keyerror (api : Api) (dbId iid : String)
    (s : CloudState)
    (hfail : ∀ e, api.fail e = false)
    (haz : api.availabilityZones ≠ [])
    (hnovpc : s.vpcs.filter (fun v => decide (v.tagProject = some iid ∧
      v.tagCreatedBy = some "VPCInstanceCreator")) = []) :
    ∃ t sEnd, create_complete_rds_setup api dbId (some iid) s =
        (.error (.keyError "igw_id"), t, sEnd) ∧
      ∀ d g ids, Ev.createDbInstance d g ids ∉ t := by
  obtain ⟨igwId, natId, sgId, t1m, tGrp, sEnd, heq, _, _, hNo1, hNoG, _, _⟩ :=
    run_create_complete_infrastructure_nofail hfail iid s haz
  have h0 : get_vpc_infrastructure_info api iid s =
      (.ok none, [.describeVpcsByTag iid "VPCInstanceCreator"], s) := by
    rw [get_vpc_infrastructure_info]
    refine run_tryCatch_ok (run_bind_ok (run_callGet_nofail hfail _ _ s) ?_)
    rw [hnovpc]
    rfl
  have hconv : convertRawInfo api iid s =
      (.error (.keyError "igw_id"), (t1m ++ tGrp) ++ ([] ++ ([] ++ ([] ++ []))), sEnd) := by
    rw [convertRawInfo]
    refine run_bind_ok heq ?_
    refine run_bind_ok dictGet_cons_hit ?_
    refine run_bind_ok ((dictGet_cons_miss (by decide)).trans dictGet_cons_hit) ?_
    refine run_bind_ok ((dictGet_cons_miss (by decide)).trans
      ((dictGet_cons_miss (by decide)).trans dictGet_cons_hit)) ?_
    exact run_bind_error ((dictGet_cons_miss (by decide)).trans
      ((dictGet_cons_miss (by decide)).trans ((dictGet_cons_miss (by decide)).trans
      ((dictGet_cons_miss (by decide)).trans ((dictGet_cons_miss (by decide)).trans
      ((dictGet_cons_miss (by decide)).trans ((dictGet_cons_miss (by decide)).trans
      (dictGet_nil _ _))))))))
  have hmatch : (match (none : Option (List (String × Val))) with
      | some info => Pure.pure info
      | none => convertRawInfo api iid) s =
      (.error (.keyError "igw_id"), (t1m ++ tGrp) ++ ([] ++ ([] ++ ([] ++ []))), sEnd) :=
    hconv
  have htop : create_complete_rds_setup api dbId (some iid) s =
      (.error (.keyError "igw_id"),
        [Ev.describeVpcsByTag iid "VPCInstanceCreator"] ++
          ((t1m ++ tGrp) ++ ([] ++ ([] ++ ([] ++ [])))), sEnd) := by
    rw [create_complete_rds_setup]
    exact run_bind_ok h0 (run_bind_error hmatch)
  have htn : TraceNone isDbInstCreate
      ([Ev.describeVpcsByTag iid "VPCInstanceCreator"] ++
        ((t1m ++ tGrp) ++ ([] ++ ([] ++ ([] ++ []))))) := by
    refine traceNone_append (traceNone_cons rfl (traceNone_nil _))
      (traceNone_append (traceNone_append hNo1 hNoG) ?_)
    refine traceNone_append (traceNone_nil _) (traceNone_append (traceNone_nil _)
      (traceNone_append (traceNone_nil _) (traceNone_nil _)))
  exact ⟨_, sEnd, htop, fun d g ids => traceNone_not_mem htn
    (show isDbInstCreate (Ev.createDbInstance d g ids) = true from rfl)⟩

/-- C2 witness: a concrete run (no tagged VPC for `prod`, two zones)
ends in `KeyError 'igw_id'` with no RDS instance creation issued. -/
theorem create_complete_rds_setup_keyerror_witness :
    ∃ t sEnd, create_complete_rds_setup apiNoFail "mydb" (some "prod") stExample =
        (.error (.keyError "igw_id"), t, sEnd) ∧
      ∀ d g ids, Ev.createDbInstance d g ids ∉ t :=
  create_complete_rds_setup_keyerror apiNoFail "mydb" "prod" stExample
    (fun e => rfl) (by decide) (by decide)

end ECom
